import Mathlib

/-!
# do-gpu-notifier: capacity probe and notification dispatcher

A shallow embedding of `backend/src/services/digitalocean.js`,
`backend/src/services/notification.js` and `backend/src/config.js`.

Modelling conventions
* A JavaScript `Map` and a plain object used as a map are association lists in
  insertion order (`mapGet`, `mapSet`, `mapDelete`); only own string keys are
  modelled.
* Timestamps (`Date.now()`) and other integral numbers are `Int`.
* An `async` function is modelled by its settled value; the reply of an
  external service (the provider API, the push service) is an argument.
* A `throw` is `Except.error` carrying the error message.
-/

namespace GpuNotifier

/-! ## JavaScript values and maps -/

/-- The values a field of a provider entry can hold in this model. -/
inductive JsValue where
  | undefined
  | null
  | number (n : Int)
  | string (s : String)
  deriving DecidableEq, Repr

/-- JavaScript truthiness (`!v` is its negation). -/
def JsValue.truthy : JsValue → Bool
  | .undefined => false
  | .null => false
  | .number n => n != 0
  | .string s => s != ""

/-- `String.prototype.toLowerCase`, character by character. -/
def toLowerCase (s : String) : String :=
  String.mk (s.data.map Char.toLower)

/-- The message of the `TypeError` raised by a method call on a value that has
no such method; the engine-specific wording is not modelled. -/
def typeErrorMessage : String := "TypeError: toLowerCase is not callable on this value"

/-- The call `v.toLowerCase()`: a `TypeError` unless `v` is a string. -/
def JsValue.toLowerCase : JsValue → Except String String
  | .string s => .ok (GpuNotifier.toLowerCase s)
  | .undefined => .error typeErrorMessage
  | .null => .error typeErrorMessage
  | .number _ => .error typeErrorMessage

/-- String conversion of a value inside a template literal. -/
def JsValue.toStr : JsValue → String
  | .undefined => "undefined"
  | .null => "null"
  | .number n => toString n
  | .string s => s

/-- The lookup `m.get(k)` of a `Map`, or `o[k]` of an object used as a map. -/
def mapGet {α : Type} : List (String × α) → String → Option α
  | [], _ => none
  | (k, v) :: rest, key => if k = key then some v else mapGet rest key

/-- The update `m.set(k, v)` / `o[k] = v`: an existing key keeps its position,
a new key goes last. -/
def mapSet {α : Type} : List (String × α) → String → α → List (String × α)
  | [], key, val => [(key, val)]
  | (k, v) :: rest, key, val =>
    if k = key then (k, val) :: rest else (k, v) :: mapSet rest key val

/-- The call `m.delete(k)`: the map without the key. -/
def mapDelete {α : Type} : List (String × α) → String → List (String × α)
  | [], _ => []
  | (k, v) :: rest, key => if k = key then rest else (k, v) :: mapDelete rest key

/-- The keys of a map, `Object.keys(o)` / `m.keys()`. -/
def mapKeys {α : Type} (m : List (String × α)) : List String :=
  m.map Prod.fst

/-! ## config.js -/

/-- One value of `GPU_TYPES`; `image: null` is `none`. -/
structure GpuConfig where
  size : String
  image : Option String
  deriving DecidableEq, Repr

/-- The table `GPU_TYPES` of `config.js`. -/
def GPU_TYPES : List (String × GpuConfig) :=
  [ ("L40S", { size := "gpu-l40sx1-48gb", image := none }),
    ("H100-1X", { size := "gpu-h100x1-80gb", image := some "gpu-h100x1-base" }),
    ("H100-8X", { size := "gpu-h100x8-640gb", image := some "gpu-h100x8-base" }) ]

/-! ## services/digitalocean.js -/

/-- An element of `response.data.capacities`. -/
structure CapacityEntry where
  region : JsValue
  capacity : JsValue
  deriving DecidableEq, Repr

/-- The field `response.data.capacities`. -/
inductive CapacitiesField where
  /-- absent, `null` or another falsy value -/
  | missing
  /-- a truthy value that is not an array -/
  | notArray
  | array (entries : List CapacityEntry)
  deriving DecidableEq, Repr

/-- The field `response.data`. -/
inductive ResponseData where
  /-- absent, `null` or another falsy value -/
  | missing
  | body (capacities : CapacitiesField)
  deriving DecidableEq, Repr

/-- How the call `doApiClient.get(...)` settles. -/
inductive ProviderReply where
  | resolved (data : ResponseData)
  /-- rejected with an error whose `message` may be absent -/
  | rejected (message : Option String)
  deriving DecidableEq, Repr

/-- An element of `details.regions`. -/
structure RegionInfo where
  region : JsValue
  capacity : JsValue
  deriving DecidableEq, Repr

/-- The field `details` of a result; `regions` is absent on some paths. -/
structure Details where
  size : String
  image : Option String
  regions : Option (List RegionInfo)
  deriving DecidableEq, Repr

/-- The object returned by `checkGpuAvailability`. -/
structure CheckResult where
  available : Bool
  gpuType : String
  message : String
  error : Option String
  details : Option Details
  deriving DecidableEq, Repr

/-- The arrow function `r => ({ region: r.region, capacity: r.capacity })`. -/
def toRegionInfo (r : CapacityEntry) : RegionInfo :=
  { region := r.region, capacity := r.capacity }

/-- The test `REGIONS_TO_CHECK.includes(cap.region)`. -/
def regionIncluded (REGIONS_TO_CHECK : List String) (cap : CapacityEntry) : Bool :=
  match cap.region with
  | .string s => REGIONS_TO_CHECK.contains s
  | _ => false

/-- The constant `capacities`: the entries kept by the allow-list. -/
def selectCapacities (REGIONS_TO_CHECK : List String) (entries : List CapacityEntry) :
    List CapacityEntry :=
  if REGIONS_TO_CHECK.length > 0 then
    entries.filter (regionIncluded REGIONS_TO_CHECK)
  else
    entries

/-- The test that `cap.capacity` is strictly equal to `HIGH` or to `MEDIUM`. -/
def hasCapacity (cap : CapacityEntry) : Bool :=
  cap.capacity == .string "HIGH" || cap.capacity == .string "MEDIUM"

/-- The comparison `a < b` of two strings: lexicographic on the characters. -/
def stringLt (a b : String) : Bool :=
  decide (a.data < b.data)

/-- The reducer passed to `capacities.reduce`. -/
def lowestStep (lowest : JsValue) (current : CapacityEntry) : Except String JsValue :=
  if !lowest.truthy then
    .ok current.capacity
  else
    match current.capacity.toLowerCase with
    | .error e => .error e
    | .ok c =>
      match lowest.toLowerCase with
      | .error e => .error e
      | .ok l => if stringLt c l then .ok current.capacity else .ok lowest

/-- The loop of `capacities.reduce(..., lowest)`. -/
def reduceLowest : JsValue → List CapacityEntry → Except String JsValue
  | lowest, [] => .ok lowest
  | lowest, current :: rest =>
    match lowestStep lowest current with
    | .error e => .error e
    | .ok next => reduceLowest next rest

/-- The expression `lowestCapacity || NONE-literal` inside the message. -/
def bestCapacityText (lowestCapacity : JsValue) : String :=
  if lowestCapacity.truthy then lowestCapacity.toStr else "NONE"

/-- The function `checkGpuAvailability`, given how the provider call settles. -/
def checkGpuAvailability (REGIONS_TO_CHECK : List String) (gpuType : String)
    (reply : ProviderReply) : Except String CheckResult :=
  match mapGet GPU_TYPES gpuType with
  | none => .error ("Invalid GPU type: " ++ gpuType)
  | some gpuConfig =>
    let plain : Details := { size := gpuConfig.size, image := gpuConfig.image, regions := none }
    let requestFailed (message : String) : CheckResult :=
      { available := false, gpuType := gpuType, message := message,
        error := some "request_failed", details := some plain }
    let invalidResponse : CheckResult :=
      { available := false, gpuType := gpuType,
        message := "Invalid response from DigitalOcean API",
        error := some "invalid_response", details := some plain }
    match reply with
    | .rejected message =>
      match message with
      | some m => .ok (requestFailed (if m != "" then m else "Request failed"))
      | none => .ok (requestFailed "Request failed")
    | .resolved .missing => .ok invalidResponse
    | .resolved (.body .missing) => .ok invalidResponse
    | .resolved (.body .notArray) => .ok invalidResponse
    | .resolved (.body (.array entries)) =>
      let capacities := selectCapacities REGIONS_TO_CHECK entries
      if capacities.length = 0 then
        .ok { available := false, gpuType := gpuType,
              message := "No capacity information available for specified regions",
              error := some "no_regions", details := some plain }
      else
        let availableRegions := capacities.filter hasCapacity
        if availableRegions.length > 0 then
          .ok { available := true, gpuType := gpuType,
                message := "GPU is available in " ++ toString availableRegions.length
                  ++ " region(s)",
                error := none,
                details := some { size := gpuConfig.size, image := gpuConfig.image,
                                  regions := some (availableRegions.map toRegionInfo) } }
        else
          match reduceLowest .null capacities with
          | .error m => .ok (requestFailed (if m != "" then m else "Request failed"))
          | .ok lowestCapacity =>
            .ok { available := false, gpuType := gpuType,
                  message := "GPU is not available (Best capacity: "
                    ++ bestCapacityText lowestCapacity ++ ")",
                  error := some "no_capacity",
                  details := some { size := gpuConfig.size, image := gpuConfig.image,
                                    regions := some (capacities.map toRegionInfo) } }

/-- The result stored by the `catch` branch of the loop of
`checkAllGpuAvailability`. -/
def checkFailed (gpuType message : String) : CheckResult :=
  { available := false, gpuType := gpuType, message := message,
    error := some "check_failed", details := none }

/-- The body of the loop of `checkAllGpuAvailability`: the value assigned to
`results[gpuType]`, given how the awaited call of `checkGpuAvailability`
settles. -/
def recordProbe (gpuType : String) (probed : Except String CheckResult) : CheckResult :=
  match probed with
  | .ok result => result
  | .error message => checkFailed gpuType message

/-- The `for` loop of `checkAllGpuAvailability` over the given GPU types, from
the given `results`; the `n`-th probe of the sweep, made for `gpuType`, settles
as `probe n gpuType`. The delay after each probe is not modelled. -/
def sweepLoop (probe : Nat → String → Except String CheckResult) :
    Nat → List String → List (String × CheckResult) → List (String × CheckResult)
  | _, [], results => results
  | n, gpuType :: rest, results =>
    sweepLoop probe (n + 1) rest (mapSet results gpuType (recordProbe gpuType (probe n gpuType)))

/-- The function `checkAllGpuAvailability`; the provider call of the `n`-th
probe of the sweep settles as `provider n`. -/
def checkAllGpuAvailability (REGIONS_TO_CHECK : List String) (provider : Nat → ProviderReply) :
    List (String × CheckResult) :=
  sweepLoop (fun n gpuType => checkGpuAvailability REGIONS_TO_CHECK gpuType (provider n))
    0 (mapKeys GPU_TYPES) []

/-! ## services/notification.js -/

/-- A push subscription object; only its endpoint is modelled. -/
structure PushSubscription where
  endpoint : String
  deriving DecidableEq, Repr

/-- A value of the `subscriptions` map. -/
structure SubData where
  subscription : PushSubscription
  gpuTypes : List String
  lastNotified : List (String × Int)
  deriving DecidableEq, Repr

/-- The module-level `subscriptions` map, keyed by user id. -/
abbrev Subscriptions := List (String × SubData)

/-- The object returned by `getSubscriptionInfo`. -/
structure SubscriptionInfo where
  userId : String
  gpuTypes : List String
  lastNotified : List (String × Int)
  deriving DecidableEq, Repr

/-- The function `getSubscriptionInfo`; `null` is `none`. -/
def getSubscriptionInfo (subscriptions : Subscriptions) (userId : String) :
    Option SubscriptionInfo :=
  match mapGet subscriptions userId with
  | none => none
  | some sub => some { userId := userId, gpuTypes := sub.gpuTypes, lastNotified := sub.lastNotified }

/-- The function `addSubscription`: the new map and the returned info. An
omitted `gpuTypes` is `none`. -/
def addSubscription (subscriptions : Subscriptions) (userId : String)
    (subscription : PushSubscription) (gpuTypes : Option (List String)) :
    Subscriptions × Option SubscriptionInfo :=
  let stored := mapSet subscriptions userId
    { subscription := subscription,
      gpuTypes := match gpuTypes with
        | some given => given
        | none => mapKeys GPU_TYPES,
      lastNotified := [] }
  (stored, getSubscriptionInfo stored userId)

/-- The function `updateSubscriptionGpuTypes`: the new map and the returned info. -/
def updateSubscriptionGpuTypes (subscriptions : Subscriptions) (userId : String)
    (gpuTypes : List String) : Subscriptions × Option SubscriptionInfo :=
  match mapGet subscriptions userId with
  | none => (subscriptions, none)
  | some sub =>
    let stored := mapSet subscriptions userId { sub with gpuTypes := gpuTypes }
    (stored, getSubscriptionInfo stored userId)

/-- The function `removeSubscription`: the new map and whether the key was there. -/
def removeSubscription (subscriptions : Subscriptions) (userId : String) :
    Subscriptions × Bool :=
  (mapDelete subscriptions userId, (mapGet subscriptions userId).isSome)

/-- How the call `webpush.sendNotification(...)` settles. -/
inductive PushReply where
  | delivered
  /-- rejected with an error; `statusCode` may be absent -/
  | rejected (statusCode : Option Nat) (message : String)
  deriving DecidableEq, Repr

/-- The value `sendNotification` resolves with: `true`, or an object with an
`error` field. -/
inductive SendResult where
  | ok
  | error (error : String)
  deriving DecidableEq, Repr

/-- The function `sendNotification`, given how the push service settles. -/
def sendNotification (reply : PushReply) : SendResult :=
  match reply with
  | .delivered => .ok
  | .rejected statusCode message =>
    if statusCode = some 410 then .error "subscription_expired" else .error message

/-- JavaScript truthiness of what `sendNotification` resolves with: `true` is
truthy, and so is every object. -/
def SendResult.truthy : SendResult → Bool
  | .ok => true
  | .error _ => true

/-- The constant `NOTIFICATION_COOLDOWN`, in milliseconds. -/
def NOTIFICATION_COOLDOWN : Int := 60 * 60 * 1000

/-- One call of `sendNotification` issued by `notifySubscribers`. -/
structure Delivery where
  userId : String
  subscription : PushSubscription
  gpuType : String
  result : CheckResult
  deriving DecidableEq, Repr

/-- The second `continue` test of the inner loop:
`lastNotified[gpuType] && (currentTime - lastNotified[gpuType]) < NOTIFICATION_COOLDOWN`. -/
def notifiedRecently (lastNotified : List (String × Int)) (currentTime : Int)
    (gpuType : String) : Bool :=
  match mapGet lastNotified gpuType with
  | none => false
  | some t => t != 0 && decide (currentTime - t < NOTIFICATION_COOLDOWN)

/-- The inner loop of `notifySubscribers` over the `gpuTypes` of one subscriber:
the deliveries it issues, in order. -/
def deliveriesFor (availabilityResults : List (String × CheckResult)) (currentTime : Int)
    (userId : String) (data : SubData) : List String → List Delivery
  | [] => []
  | gpuType :: rest =>
    match mapGet availabilityResults gpuType with
    | none => deliveriesFor availabilityResults currentTime userId data rest
    | some result =>
      if !result.available then
        deliveriesFor availabilityResults currentTime userId data rest
      else if notifiedRecently data.lastNotified currentTime gpuType then
        deliveriesFor availabilityResults currentTime userId data rest
      else
        { userId := userId, subscription := data.subscription, gpuType := gpuType,
          result := result } :: deliveriesFor availabilityResults currentTime userId data rest

/-- The outer loop of `notifySubscribers` over `subscriptions.entries()`: every
delivery of the dispatch, in the order the promises are pushed. -/
def deliveries (availabilityResults : List (String × CheckResult)) (currentTime : Int) :
    Subscriptions → List Delivery
  | [] => []
  | (userId, data) :: rest =>
    deliveriesFor availabilityResults currentTime userId data data.gpuTypes
      ++ deliveries availabilityResults currentTime rest

/-- The settled `sendNotification` calls of a dispatch: the `n`-th call issued
gets the reply `webpush n`. -/
def settleSends (webpush : Nat → PushReply) : Nat → List Delivery → List (Delivery × SendResult)
  | _, [] => []
  | n, d :: rest => (d, sendNotification (webpush n)) :: settleSends webpush (n + 1) rest

/-- The registry effect of the `.then` callback of one delivery. -/
def recordDelivery (subscriptions : Subscriptions) (currentTime : Int)
    (d : Delivery) (success : SendResult) : Subscriptions :=
  if success.truthy then
    match mapGet subscriptions d.userId with
    | some subData =>
      mapSet subscriptions d.userId
        { subData with lastNotified := mapSet subData.lastNotified d.gpuType currentTime }
    | none => subscriptions
  else
    subscriptions

/-- The registry after the `.then` callbacks of the given settled calls have run. -/
def recordAll (currentTime : Int) : Subscriptions → List (Delivery × SendResult) → Subscriptions
  | subscriptions, [] => subscriptions
  | subscriptions, (d, success) :: rest =>
    recordAll currentTime (recordDelivery subscriptions currentTime d success) rest

/-- An element of the array `notifySubscribers` resolves with. -/
structure Outcome where
  userId : String
  gpuType : String
  success : SendResult
  deriving DecidableEq, Repr

/-- The value returned by the `.then` callback of one delivery. -/
def toOutcome (settled : Delivery × SendResult) : Outcome :=
  { userId := settled.1.userId, gpuType := settled.1.gpuType, success := settled.2 }

/-- The function `notifySubscribers` run as one uninterrupted dispatch at time
`currentTime`: the array it resolves with and the registry afterwards. -/
def notifySubscribers (subscriptions : Subscriptions)
    (availabilityResults : List (String × CheckResult)) (currentTime : Int)
    (webpush : Nat → PushReply) : List Outcome × Subscriptions :=
  let settled := settleSends webpush 0 (deliveries availabilityResults currentTime subscriptions)
  (settled.map toOutcome, recordAll currentTime subscriptions settled)

/-- One operation on the registry. -/
inductive Op where
  | addSubscription (userId : String) (subscription : PushSubscription)
      (gpuTypes : Option (List String))
  | updateSubscriptionGpuTypes (userId : String) (gpuTypes : List String)
  | removeSubscription (userId : String)
  | notifySubscribers (availabilityResults : List (String × CheckResult)) (currentTime : Int)
      (webpush : Nat → PushReply)

/-- The registry after one operation. -/
def step (subscriptions : Subscriptions) : Op → Subscriptions
  | .addSubscription userId subscription gpuTypes =>
    (addSubscription subscriptions userId subscription gpuTypes).1
  | .updateSubscriptionGpuTypes userId gpuTypes =>
    (updateSubscriptionGpuTypes subscriptions userId gpuTypes).1
  | .removeSubscription userId => (removeSubscription subscriptions userId).1
  | .notifySubscribers availabilityResults currentTime webpush =>
    (notifySubscribers subscriptions availabilityResults currentTime webpush).2

/-- The registry after a sequence of operations. -/
def run : Subscriptions → List Op → Subscriptions
  | subscriptions, [] => subscriptions
  | subscriptions, op :: ops => run (step subscriptions op) ops

/-! ## utils/scheduler.js and routes/status.js -/

/-- The constant `CHECK_INTERVAL` of `config.js`, in milliseconds. -/
def CHECK_INTERVAL : Int := 100000

/-- The module-level object `statusStore`; a `Date` is its time value and
`null` is `none`. -/
structure StatusStore where
  lastCheck : Option Int
  results : List (String × CheckResult)
  isChecking : Bool
  error : Option String
  deriving DecidableEq, Repr

/-- The initial value of `statusStore`. -/
def initialStatusStore : StatusStore :=
  { lastCheck := none, results := [], isChecking := false, error := none }

/-- The object returned by `getStatus`. -/
structure Status where
  lastCheck : Option Int
  results : List (String × CheckResult)
  isChecking : Bool
  error : Option String
  nextCheckAt : Option Int
  deriving DecidableEq, Repr

/-- The function `getStatus`. -/
def getStatus (statusStore : StatusStore) : Status :=
  { lastCheck := statusStore.lastCheck,
    results := statusStore.results,
    isChecking := statusStore.isChecking,
    error := statusStore.error,
    nextCheckAt := match statusStore.lastCheck with
      | some lastCheck => some (lastCheck + CHECK_INTERVAL)
      | none => none }

/-- The array `availableGpus` computed by `checkAvailability`. -/
def availableGpus (results : List (String × CheckResult)) : List String :=
  (results.filter (fun entry => entry.2.available)).map (fun entry => entry.1)

/-- The synchronous start of one call of `checkAvailability`, up to the first
`await`: the store afterwards, and whether the call passed the guard and is
now suspended at `await checkAllGpuAvailability()`. -/
def checkAvailabilityStart (statusStore : StatusStore) : StatusStore × Bool :=
  if statusStore.isChecking then
    (statusStore, false)
  else
    ({ statusStore with isChecking := true }, true)

/-- The part of `checkAvailability` that runs when `checkAllGpuAvailability()`
has settled, `now` being the value of `new Date()`: the store afterwards and,
when the call is now suspended at `await notifySubscribers(results)`, the
argument `results`. A rejection goes through `catch` and `finally`. -/
def checkAvailabilityAfterSweep (statusStore : StatusStore) (now : Int)
    (sweep : Except String (List (String × CheckResult))) :
    StatusStore × Option (List (String × CheckResult)) :=
  match sweep with
  | .error message =>
    ({ statusStore with error := some message, isChecking := false }, none)
  | .ok results =>
    let stored : StatusStore :=
      { statusStore with lastCheck := some now, results := results, error := none }
    if (availableGpus results).length > 0 then
      (stored, some results)
    else
      ({ stored with isChecking := false }, none)

/-- The part of `checkAvailability` that runs when `notifySubscribers(results)`
has settled: `catch` on a rejection, then `finally`. -/
def checkAvailabilityAfterNotify (statusStore : StatusStore) (dispatch : Except String Unit) :
    StatusStore :=
  match dispatch with
  | .ok _ => { statusStore with isChecking := false }
  | .error message => { statusStore with error := some message, isChecking := false }

/-- What one call of `checkAvailability` did: the store when it settles,
whether it called `checkAllGpuAvailability`, and the argument it passed to
`notifySubscribers` if it called it. -/
structure CheckRun where
  statusStore : StatusStore
  sweepStarted : Bool
  notified : Option (List (String × CheckResult))
  deriving DecidableEq, Repr

/-- One call of `checkAvailability` from start to settlement, given how the two
awaited calls settle. The promise is fulfilled on every path (`.ok`): neither
`catch` nor `finally` throws. -/
def checkAvailabilityWith (statusStore : StatusStore)
    (sweep : Except String (List (String × CheckResult))) (now : Int)
    (dispatch : List (String × CheckResult) → Except String Unit) : Except String CheckRun :=
  match checkAvailabilityStart statusStore with
  | (unchanged, false) =>
    .ok { statusStore := unchanged, sweepStarted := false, notified := none }
  | (guarded, true) =>
    match checkAvailabilityAfterSweep guarded now sweep with
    | (settled, none) =>
      .ok { statusStore := settled, sweepStarted := true, notified := none }
    | (stored, some results) =>
      .ok { statusStore := checkAvailabilityAfterNotify stored (dispatch results),
            sweepStarted := true, notified := some results }

/-- The two pieces of module state the scheduler works on. -/
structure System where
  statusStore : StatusStore
  subscriptions : Subscriptions
  deriving DecidableEq, Repr

/-- The function `checkAvailability` on the real services: `provider` and
`webpush` are the replies of the provider API and of the push service, `now` is
the value of `new Date()` when the results are stored and `currentTime` that of
`Date.now()` in `notifySubscribers`. -/
def checkAvailability (REGIONS_TO_CHECK : List String) (provider : Nat → ProviderReply)
    (now currentTime : Int) (webpush : Nat → PushReply) (system : System) :
    Except String (System × CheckRun) :=
  match checkAvailabilityWith system.statusStore
      (.ok (checkAllGpuAvailability REGIONS_TO_CHECK provider)) now (fun _ => .ok ()) with
  | .error message => .error message
  | .ok done =>
    .ok ({ statusStore := done.statusStore,
           subscriptions := match done.notified with
             | some results =>
               (notifySubscribers system.subscriptions results currentTime webpush).2
             | none => system.subscriptions },
         done)

/-- The response of a route handler of `routes/status.js`. -/
inductive HttpResponse where
  | json (status : Status)
  /-- status 500 with the error message -/
  | serverError (error : String)
  deriving DecidableEq, Repr

/-- The handler of `POST /check-now`: the response and the module state
afterwards. -/
def checkNow (REGIONS_TO_CHECK : List String) (provider : Nat → ProviderReply)
    (now currentTime : Int) (webpush : Nat → PushReply) (system : System) :
    HttpResponse × System :=
  match checkAvailability REGIONS_TO_CHECK provider now currentTime webpush system with
  | .ok (after, _) => (.json (getStatus after.statusStore), after)
  | .error message => (.serverError message, system)

/-! ## config.js: the allow-list setting -/

/-- The pieces of a string between its commas, as `split(',')` returns them. -/
def splitComma : List Char → List (List Char)
  | [] => [[]]
  | c :: rest =>
    if c = ',' then
      [] :: splitComma rest
    else
      match splitComma rest with
      | [] => [[c]]
      | field :: fields => (c :: field) :: fields

/-- The setting `REGIONS_TO_CHECK` of `config.js`, given the value of
`process.env.REGIONS_TO_CHECK` (`none` when the variable is unset). -/
def REGIONS_TO_CHECK (env : Option String) : List String :=
  let setting : String :=
    match env with
    | some value => if value != "" then value else "nyc1,sfo3,fra1"
    | none => "nyc1,sfo3,fra1"
  (splitComma setting.data).map String.mk

/-! ## routes/subscription.js -/

/-- The field `gpuTypes` of a request body; the elements of an array are taken
to be strings. -/
inductive GpuTypesField where
  /-- absent, `null` or another falsy value -/
  | absent
  /-- a truthy value that is not an array -/
  | notArray
  | array (gpuTypes : List String)
  deriving DecidableEq, Repr

/-- The body of `POST /subscribe`; an absent or empty `userId` is `""`, an
absent `subscription` is `none`. -/
structure SubscribeBody where
  userId : String
  subscription : Option PushSubscription
  gpuTypes : GpuTypesField
  deriving DecidableEq, Repr

/-- The response of a route handler of `routes/subscription.js`. -/
inductive SubscriptionResponse where
  /-- status 201 with the result of `addSubscription` -/
  | created (result : Option SubscriptionInfo)
  /-- status 200 with the result of `updateSubscriptionGpuTypes` -/
  | ok (result : SubscriptionInfo)
  /-- status 400 with `error` and, for invalid GPU types, `invalidTypes` and
  `validTypes` -/
  | badRequest (error : String) (invalidTypes validTypes : Option (List String))
  /-- status 404 -/
  | notFound (error : String)
  /-- an exception leaves the handler -/
  | thrown (message : String)
  deriving DecidableEq, Repr

/-- The array `invalidTypes` of both handlers:
`gpuTypes.filter(type => !validGpuTypes.includes(type))`. -/
def invalidTypes (gpuTypes : List String) : List String :=
  gpuTypes.filter (fun gpuType => !(mapKeys GPU_TYPES).contains gpuType)

/-- The handler of `POST /subscribe`: the response and the registry afterwards. -/
def postSubscribe (subscriptions : Subscriptions) (body : SubscribeBody) :
    SubscriptionResponse × Subscriptions :=
  if body.userId = "" then
    (.badRequest "Missing required fields" none none, subscriptions)
  else
    match body.subscription with
    | none => (.badRequest "Missing required fields" none none, subscriptions)
    | some subscription =>
      match body.gpuTypes with
      | .notArray => (.thrown typeErrorMessage, subscriptions)
      | .absent =>
        let added := addSubscription subscriptions body.userId subscription none
        (.created added.2, added.1)
      | .array gpuTypes =>
        if (invalidTypes gpuTypes).length > 0 then
          (.badRequest "Invalid GPU types" (some (invalidTypes gpuTypes))
            (some (mapKeys GPU_TYPES)), subscriptions)
        else
          let added := addSubscription subscriptions body.userId subscription (some gpuTypes)
          (.created added.2, added.1)

/-- The handler of `PUT /:userId/gpu-types`: the response and the registry
afterwards. -/
def putGpuTypes (subscriptions : Subscriptions) (userId : String) (gpuTypes : GpuTypesField) :
    SubscriptionResponse × Subscriptions :=
  match gpuTypes with
  | .absent => (.badRequest "gpuTypes must be an array" none none, subscriptions)
  | .notArray => (.badRequest "gpuTypes must be an array" none none, subscriptions)
  | .array given =>
    if (invalidTypes given).length > 0 then
      (.badRequest "Invalid GPU types" (some (invalidTypes given)) (some (mapKeys GPU_TYPES)),
        subscriptions)
    else
      match updateSubscriptionGpuTypes subscriptions userId given with
      | (updated, some result) => (.ok result, updated)
      | (unchanged, none) => (.notFound "Subscription not found", unchanged)

/-! ## Interleaved calls of `checkAvailability` -/

/-- Where a call of `checkAvailability` that has passed the guard is suspended. -/
inductive Suspended where
  /-- at `await checkAllGpuAvailability()` -/
  | atSweep
  /-- at `await notifySubscribers(results)` -/
  | atNotify (results : List (String × CheckResult))
  deriving DecidableEq, Repr

/-- What calls `checkAvailability`. -/
inductive Trigger where
  | startChecking
  | timer
  | checkNow
  deriving DecidableEq, Repr

/-- The status store together with the calls of `checkAvailability` that have
passed the guard and not yet settled. -/
structure Scheduler where
  statusStore : StatusStore
  running : List Suspended
  deriving DecidableEq, Repr

/-- The scheduler when the module is loaded. -/
def initialScheduler : Scheduler :=
  { statusStore := initialStatusStore, running := [] }

/-- One step of the event loop that concerns the scheduler: a new call of
`checkAvailability`, or an awaited call of a suspended one settling. -/
inductive SchedulerEvent where
  | invoke (trigger : Trigger)
  | sweepSettled (index : Nat) (now : Int) (sweep : Except String (List (String × CheckResult)))
  | notifySettled (index : Nat) (dispatch : Except String Unit)

/-- The scheduler after one event; an event that names no suspended call at
the matching `await` changes nothing. -/
def schedulerStep (scheduler : Scheduler) : SchedulerEvent → Scheduler
  | .invoke _ =>
    match checkAvailabilityStart scheduler.statusStore with
    | (guarded, true) =>
      { statusStore := guarded, running := scheduler.running ++ [.atSweep] }
    | (unchanged, false) =>
      { statusStore := unchanged, running := scheduler.running }
  | .sweepSettled index now sweep =>
    match scheduler.running[index]? with
    | some .atSweep =>
      match checkAvailabilityAfterSweep scheduler.statusStore now sweep with
      | (stored, some results) =>
        { statusStore := stored, running := scheduler.running.set index (.atNotify results) }
      | (settled, none) =>
        { statusStore := settled, running := scheduler.running.eraseIdx index }
    | _ => scheduler
  | .notifySettled index dispatch =>
    match scheduler.running[index]? with
    | some (.atNotify _) =>
      { statusStore := checkAvailabilityAfterNotify scheduler.statusStore dispatch,
        running := scheduler.running.eraseIdx index }
    | _ => scheduler

/-- The scheduler after a sequence of events. -/
def schedulerRun : Scheduler → List SchedulerEvent → Scheduler
  | scheduler, [] => scheduler
  | scheduler, event :: events => schedulerRun (schedulerStep scheduler event) events

/-! ## Lemmas on maps -/

theorem mapGet_of_mem_mapKeys {α : Type} (m : List (String × α)) (key : String)
    (h : key ∈ mapKeys m) : ∃ v, mapGet m key = some v := by
  induction m with
  | nil => simp [mapKeys] at h
  | cons kv rest ih =>
    obtain ⟨k, v⟩ := kv
    by_cases hk : k = key
    · exact ⟨v, by simp [mapGet, hk]⟩
    · have hrest : key ∈ mapKeys rest := by
        simp only [mapKeys, List.map_cons, List.mem_cons] at h
        rcases h with h | h
        · exact absurd h.symm hk
        · exact h
      obtain ⟨w, hw⟩ := ih hrest
      exact ⟨w, by simp [mapGet, hk, hw]⟩

/-! ## The capacity probe -/

theorem checkGpuAvailability_array (REGIONS_TO_CHECK : List String) (gpuType : String)
    (entries : List CapacityEntry) (gpuConfig : GpuConfig)
    (h : mapGet GPU_TYPES gpuType = some gpuConfig) :
    checkGpuAvailability REGIONS_TO_CHECK gpuType (.resolved (.body (.array entries))) =
      if (selectCapacities REGIONS_TO_CHECK entries).length = 0 then
        .ok { available := false, gpuType := gpuType,
              message := "No capacity information available for specified regions",
              error := some "no_regions",
              details := some { size := gpuConfig.size, image := gpuConfig.image,
                                regions := none } }
      else if ((selectCapacities REGIONS_TO_CHECK entries).filter hasCapacity).length > 0 then
        .ok { available := true, gpuType := gpuType,
              message := "GPU is available in "
                ++ toString ((selectCapacities REGIONS_TO_CHECK entries).filter hasCapacity).length
                ++ " region(s)",
              error := none,
              details := some { size := gpuConfig.size, image := gpuConfig.image,
                                regions := some (((selectCapacities REGIONS_TO_CHECK entries).filter
                                  hasCapacity).map toRegionInfo) } }
      else
        match reduceLowest .null (selectCapacities REGIONS_TO_CHECK entries) with
        | .error m =>
          .ok { available := false, gpuType := gpuType,
                message := if m != "" then m else "Request failed",
                error := some "request_failed",
                details := some { size := gpuConfig.size, image := gpuConfig.image,
                                  regions := none } }
        | .ok lowestCapacity =>
          .ok { available := false, gpuType := gpuType,
                message := "GPU is not available (Best capacity: "
                  ++ bestCapacityText lowestCapacity ++ ")",
                error := some "no_capacity",
                details := some { size := gpuConfig.size, image := gpuConfig.image,
                                  regions := some ((selectCapacities REGIONS_TO_CHECK entries).map
                                    toRegionInfo) } } := by
  unfold checkGpuAvailability
  simp only [h]

theorem hasCapacity_iff (cap : CapacityEntry) :
    hasCapacity cap = true ↔
      (cap.capacity = .string "MEDIUM" ∨ cap.capacity = .string "HIGH") := by
  simp [hasCapacity, or_comm]

/-- C5: for every known GPU type, a malformed provider response (no data, no
`capacities` field, or `capacities` that is not an array) makes
`checkGpuAvailability` return, without throwing, a result with `available = false`
and `error = invalid_response`. -/
theorem checkGpuAvailability_invalid_response (REGIONS_TO_CHECK : List String)
    (gpuType : String) (data : ResponseData)
    (hknown : gpuType ∈ mapKeys GPU_TYPES)
    (hmalformed : data = .missing ∨ data = .body .missing ∨ data = .body .notArray) :
    ∃ r, checkGpuAvailability REGIONS_TO_CHECK gpuType (.resolved data) = .ok r
      ∧ r.available = false ∧ r.error = some "invalid_response" := by
  obtain ⟨gpuConfig, hcfg⟩ := mapGet_of_mem_mapKeys GPU_TYPES gpuType hknown
  rcases hmalformed with h | h | h <;> subst h <;>
    (unfold checkGpuAvailability; simp only [hcfg]; exact ⟨_, rfl, rfl, rfl⟩)

/-- C5 at a concrete input: `H100-1X` and a `capacities` field that is not an array. -/
theorem checkGpuAvailability_invalid_response_witness :
    "H100-1X" ∈ mapKeys GPU_TYPES
      ∧ (ResponseData.body .notArray = .missing ∨ ResponseData.body .notArray = .body .missing
          ∨ ResponseData.body .notArray = .body .notArray)
      ∧ ∃ r, checkGpuAvailability ["nyc1"] "H100-1X" (.resolved (.body .notArray)) = .ok r
          ∧ r.available = false ∧ r.error = some "invalid_response" :=
  ⟨by decide, by decide,
    checkGpuAvailability_invalid_response ["nyc1"] "H100-1X" (.body .notArray)
      (by decide) (by decide)⟩

theorem filter_hasCapacity (l : List CapacityEntry) :
    l.filter hasCapacity =
      l.filter (fun c => decide (c.capacity = .string "MEDIUM" ∨ c.capacity = .string "HIGH")) := by
  apply List.filter_congr
  intro c _
  by_cases h : c.capacity = .string "MEDIUM" ∨ c.capacity = .string "HIGH"
  · simp [(hasCapacity_iff c).2 h, h]
  · have hf : hasCapacity c = false := by
      cases hc : hasCapacity c with
      | false => rfl
      | true => exact absurd ((hasCapacity_iff c).1 hc) h
    simp [hf, h]

theorem map_toRegionInfo (l : List CapacityEntry) :
    l.map toRegionInfo = l.map (fun c => { region := c.region, capacity := c.capacity }) :=
  rfl

theorem length_eq_zero_iff_nil {α : Type} (l : List α) : l.length = 0 ↔ l = [] :=
  List.length_eq_zero

/-- C6: for every known GPU type and every response whose capacity list is an
array and whose allow-list-filtered region list is non-empty,
`checkGpuAvailability` returns `available = true` if and only if some filtered
region reports `MEDIUM` or `HIGH`; when available, `details.regions` is the list
of those qualifying regions (region and capacity) in provider order. -/
theorem checkGpuAvailability_available_iff (REGIONS_TO_CHECK : List String)
    (gpuType : String) (entries : List CapacityEntry)
    (hknown : gpuType ∈ mapKeys GPU_TYPES)
    (hnonempty : selectCapacities REGIONS_TO_CHECK entries ≠ []) :
    ∃ r, checkGpuAvailability REGIONS_TO_CHECK gpuType (.resolved (.body (.array entries))) = .ok r
      ∧ (r.available = true ↔
          ∃ c ∈ selectCapacities REGIONS_TO_CHECK entries,
            c.capacity = .string "MEDIUM" ∨ c.capacity = .string "HIGH")
      ∧ (r.available = true →
          ∃ d, r.details = some d ∧ d.regions = some
            (((selectCapacities REGIONS_TO_CHECK entries).filter
                (fun c => decide (c.capacity = .string "MEDIUM" ∨ c.capacity = .string "HIGH"))).map
              (fun c => { region := c.region, capacity := c.capacity }))) := by
  obtain ⟨gpuConfig, hcfg⟩ := mapGet_of_mem_mapKeys GPU_TYPES gpuType hknown
  rw [checkGpuAvailability_array _ _ _ _ hcfg]
  have hlen : ¬ (selectCapacities REGIONS_TO_CHECK entries).length = 0 := by
    rw [length_eq_zero_iff_nil]; exact hnonempty
  rw [if_neg hlen]
  by_cases hav : ((selectCapacities REGIONS_TO_CHECK entries).filter hasCapacity).length > 0
  · rw [if_pos hav]
    refine ⟨_, rfl, ?_, ?_⟩
    · constructor
      · intro _
        obtain ⟨c, hc⟩ := List.exists_mem_of_length_pos hav
        rw [List.mem_filter] at hc
        exact ⟨c, hc.1, (hasCapacity_iff c).1 hc.2⟩
      · intro _; rfl
    · intro _
      exact ⟨_, rfl, by rw [← filter_hasCapacity, ← map_toRegionInfo]⟩
  · rw [if_neg hav]
    have hnone : ¬ ∃ c ∈ selectCapacities REGIONS_TO_CHECK entries,
        c.capacity = .string "MEDIUM" ∨ c.capacity = .string "HIGH" := by
      rintro ⟨c, hc, hcap⟩
      apply hav
      apply List.length_pos_of_mem
      exact List.mem_filter.2 ⟨hc, (hasCapacity_iff c).2 hcap⟩
    cases hred : reduceLowest .null (selectCapacities REGIONS_TO_CHECK entries) with
    | error m =>
      refine ⟨_, rfl, ?_, ?_⟩
      · constructor
        · intro h; exact absurd h (by simp)
        · intro h; exact absurd h hnone
      · intro h; exact absurd h (by simp)
    | ok lowest =>
      refine ⟨_, rfl, ?_, ?_⟩
      · constructor
        · intro h; exact absurd h (by simp)
        · intro h; exact absurd h hnone
      · intro h; exact absurd h (by simp)

/-- C6 at a concrete input: allow-list `nyc1, fra1` and a response with `nyc1: LOW`,
`sfo3: HIGH`, `fra1: MEDIUM`. -/
theorem checkGpuAvailability_available_iff_witness :
    "L40S" ∈ mapKeys GPU_TYPES
      ∧ selectCapacities ["nyc1", "fra1"]
          [⟨.string "nyc1", .string "LOW"⟩, ⟨.string "sfo3", .string "HIGH"⟩,
            ⟨.string "fra1", .string "MEDIUM"⟩] ≠ []
      ∧ ∃ r, checkGpuAvailability ["nyc1", "fra1"] "L40S"
          (.resolved (.body (.array
            [⟨.string "nyc1", .string "LOW"⟩, ⟨.string "sfo3", .string "HIGH"⟩,
              ⟨.string "fra1", .string "MEDIUM"⟩]))) = .ok r
        ∧ (r.available = true ↔
            ∃ c ∈ selectCapacities ["nyc1", "fra1"]
                [⟨.string "nyc1", .string "LOW"⟩, ⟨.string "sfo3", .string "HIGH"⟩,
                  ⟨.string "fra1", .string "MEDIUM"⟩],
              c.capacity = .string "MEDIUM" ∨ c.capacity = .string "HIGH")
        ∧ (r.available = true →
            ∃ d, r.details = some d ∧ d.regions = some
              (((selectCapacities ["nyc1", "fra1"]
                  [⟨.string "nyc1", .string "LOW"⟩, ⟨.string "sfo3", .string "HIGH"⟩,
                    ⟨.string "fra1", .string "MEDIUM"⟩]).filter
                  (fun c => decide (c.capacity = .string "MEDIUM" ∨ c.capacity = .string "HIGH"))).map
                (fun c => { region := c.region, capacity := c.capacity }))) :=
  ⟨by decide, by decide,
    checkGpuAvailability_available_iff ["nyc1", "fra1"] "L40S" _ (by decide) (by decide)⟩

theorem regionIncluded_iff (REGIONS_TO_CHECK : List String) (cap : CapacityEntry) :
    regionIncluded REGIONS_TO_CHECK cap = true ↔
      ∃ s ∈ REGIONS_TO_CHECK, cap.region = .string s := by
  unfold regionIncluded
  cases hreg : cap.region with
  | string s => simp
  | undefined => simp
  | null => simp
  | number n => simp

theorem selectCapacities_nil (entries : List CapacityEntry) :
    selectCapacities [] entries = entries := by
  simp [selectCapacities]

theorem selectCapacities_of_ne_nil (REGIONS_TO_CHECK : List String)
    (entries : List CapacityEntry) (h : REGIONS_TO_CHECK ≠ []) :
    selectCapacities REGIONS_TO_CHECK entries =
      entries.filter (fun c => decide (∃ s ∈ REGIONS_TO_CHECK, c.region = .string s)) := by
  have hlen : REGIONS_TO_CHECK.length > 0 := List.length_pos.2 h
  unfold selectCapacities
  rw [if_pos hlen]
  apply List.filter_congr
  intro c _
  by_cases hc : ∃ s ∈ REGIONS_TO_CHECK, c.region = .string s
  · rw [(regionIncluded_iff _ c).2 hc]; simp [hc]
  · have hf : regionIncluded REGIONS_TO_CHECK c = false := by
      cases hr : regionIncluded REGIONS_TO_CHECK c with
      | false => rfl
      | true => exact absurd ((regionIncluded_iff _ c).1 hr) hc
    rw [hf]; simp [hc]

/-- C8: the regions `checkGpuAvailability` classifies are the response entries
whose region is in the allow-list `REGIONS_TO_CHECK`, in their original order,
and all the entries when the allow-list is empty: the constant `capacities` is
that list, and the result depends on the response only through it. -/
theorem selectCapacities_allow_list (REGIONS_TO_CHECK : List String) (gpuType : String)
    (entries : List CapacityEntry) :
    (REGIONS_TO_CHECK = [] → selectCapacities REGIONS_TO_CHECK entries = entries)
      ∧ (REGIONS_TO_CHECK ≠ [] →
          selectCapacities REGIONS_TO_CHECK entries =
            entries.filter (fun c => decide (∃ s ∈ REGIONS_TO_CHECK, c.region = .string s)))
      ∧ checkGpuAvailability REGIONS_TO_CHECK gpuType (.resolved (.body (.array entries))) =
          checkGpuAvailability [] gpuType
            (.resolved (.body (.array (selectCapacities REGIONS_TO_CHECK entries)))) := by
  refine ⟨?_, selectCapacities_of_ne_nil REGIONS_TO_CHECK entries, ?_⟩
  · intro h; subst h; exact selectCapacities_nil entries
  · cases hcfg : mapGet GPU_TYPES gpuType with
    | none => unfold checkGpuAvailability; simp only [hcfg]
    | some gpuConfig =>
      rw [checkGpuAvailability_array _ _ _ _ hcfg, checkGpuAvailability_array _ _ _ _ hcfg,
        selectCapacities_nil]

/-- C8 at a concrete input: allow-list `nyc1, fra1` and a response with `nyc1`, `sfo3`
and `fra1`. -/
theorem selectCapacities_allow_list_witness :
    (["nyc1", "fra1"] ≠ ([] : List String))
      ∧ selectCapacities ["nyc1", "fra1"]
          [⟨.string "nyc1", .string "HIGH"⟩, ⟨.string "sfo3", .string "HIGH"⟩,
            ⟨.string "fra1", .string "LOW"⟩] =
        ([⟨.string "nyc1", .string "HIGH"⟩, ⟨.string "sfo3", .string "HIGH"⟩,
            ⟨.string "fra1", .string "LOW"⟩] : List CapacityEntry).filter
          (fun c => decide (∃ s ∈ ["nyc1", "fra1"], c.region = .string s)) :=
  ⟨by decide,
    (selectCapacities_allow_list ["nyc1", "fra1"] "L40S"
      [⟨.string "nyc1", .string "HIGH"⟩, ⟨.string "sfo3", .string "HIGH"⟩,
        ⟨.string "fra1", .string "LOW"⟩]).2.1 (by decide)⟩

/-- C9: for every known GPU type, a response whose capacity list is empty, or
none of whose entries has its region in a non-empty allow-list, makes
`checkGpuAvailability` return `available = false` with `error = no_regions`. -/
theorem checkGpuAvailability_no_regions (REGIONS_TO_CHECK : List String)
    (gpuType : String) (entries : List CapacityEntry)
    (hknown : gpuType ∈ mapKeys GPU_TYPES)
    (hnone : entries = [] ∨
      (REGIONS_TO_CHECK ≠ [] ∧ ∀ c ∈ entries, ∀ s ∈ REGIONS_TO_CHECK, c.region ≠ .string s)) :
    ∃ r, checkGpuAvailability REGIONS_TO_CHECK gpuType (.resolved (.body (.array entries))) = .ok r
      ∧ r.available = false ∧ r.error = some "no_regions" := by
  obtain ⟨gpuConfig, hcfg⟩ := mapGet_of_mem_mapKeys GPU_TYPES gpuType hknown
  have hsel : selectCapacities REGIONS_TO_CHECK entries = [] := by
    rcases hnone with h | ⟨hne, hall⟩
    · subst h
      unfold selectCapacities
      split <;> rfl
    · rw [selectCapacities_of_ne_nil _ _ hne, List.filter_eq_nil_iff]
      intro c hc hdec
      obtain ⟨s, hs, hreg⟩ := of_decide_eq_true hdec
      exact hall c hc s hs hreg
  rw [checkGpuAvailability_array _ _ _ _ hcfg, hsel]
  exact ⟨_, rfl, rfl, rfl⟩

/-- C9 at a concrete input: allow-list `ams3` and a response without `ams3`. -/
theorem checkGpuAvailability_no_regions_witness :
    "H100-8X" ∈ mapKeys GPU_TYPES
      ∧ (([⟨.string "nyc1", .string "HIGH"⟩, ⟨.string "sfo3", .string "LOW"⟩] :
            List CapacityEntry) = [] ∨
          (["ams3"] ≠ ([] : List String) ∧
            ∀ c ∈ ([⟨.string "nyc1", .string "HIGH"⟩, ⟨.string "sfo3", .string "LOW"⟩] :
                List CapacityEntry),
              ∀ s ∈ ["ams3"], c.region ≠ .string s))
      ∧ ∃ r, checkGpuAvailability ["ams3"] "H100-8X"
          (.resolved (.body (.array
            [⟨.string "nyc1", .string "HIGH"⟩, ⟨.string "sfo3", .string "LOW"⟩]))) = .ok r
        ∧ r.available = false ∧ r.error = some "no_regions" :=
  ⟨by decide, by decide,
    checkGpuAvailability_no_regions ["ams3"] "H100-8X"
      [⟨.string "nyc1", .string "HIGH"⟩, ⟨.string "sfo3", .string "LOW"⟩]
      (by decide) (by decide)⟩

theorem selectCapacities_eq_filter (REGIONS_TO_CHECK : List String)
    (entries : List CapacityEntry) :
    selectCapacities REGIONS_TO_CHECK entries =
      entries.filter (fun c =>
        decide (REGIONS_TO_CHECK = [] ∨ ∃ s ∈ REGIONS_TO_CHECK, c.region = .string s)) := by
  by_cases h : REGIONS_TO_CHECK = []
  · subst h
    rw [selectCapacities_nil]
    simp
  · rw [selectCapacities_of_ne_nil _ _ h]
    apply List.filter_congr
    intro c _
    simp [h]

theorem checkGpuAvailability_available_regions (REGIONS_TO_CHECK : List String)
    (gpuType : String) (entries : List CapacityEntry) (r : CheckResult)
    (hknown : gpuType ∈ mapKeys GPU_TYPES)
    (hres : checkGpuAvailability REGIONS_TO_CHECK gpuType
      (.resolved (.body (.array entries))) = .ok r)
    (hav : r.available = true) :
    r.details = some
      { size := (((mapGet GPU_TYPES gpuType).map fun g => g.size).getD ""),
        image := ((mapGet GPU_TYPES gpuType).bind fun g => g.image),
        regions := some (((selectCapacities REGIONS_TO_CHECK entries).filter hasCapacity).map
          toRegionInfo) } := by
  obtain ⟨gpuConfig, hcfg⟩ := mapGet_of_mem_mapKeys GPU_TYPES gpuType hknown
  rw [checkGpuAvailability_array _ _ _ _ hcfg] at hres
  split at hres
  · injection hres with hr; subst hr; exact absurd hav (by simp)
  · split at hres
    · injection hres with hr; subst hr; simp [hcfg]
    · split at hres
      · injection hres with hr; subst hr; exact absurd hav (by simp)
      · injection hres with hr; subst hr; exact absurd hav (by simp)

/-- C7 (as stated, refuted): with allow-list `nyc1, fra1` and a response listing
`nyc1: HIGH`, `sfo3: HIGH`, `fra1: LOW`, the result is available but its
`details.regions` does not list `nyc1` and `fra1`: it lists `nyc1` only. -/
theorem checkGpuAvailability_example_regions_not_nyc1_fra1 :
    ¬ ∃ r d regions,
        checkGpuAvailability ["nyc1", "fra1"] "H100-1X"
          (.resolved (.body (.array
            [⟨.string "nyc1", .string "HIGH"⟩, ⟨.string "sfo3", .string "HIGH"⟩,
              ⟨.string "fra1", .string "LOW"⟩]))) = .ok r
        ∧ r.available = true ∧ r.details = some d ∧ d.regions = some regions
        ∧ regions.map (fun x => x.region) = [.string "nyc1", .string "fra1"] := by
  rintro ⟨r, d, regions, hres, hav, hd, hregions, hnames⟩
  have h := checkGpuAvailability_available_regions _ _ _ r (by decide) hres hav
  rw [hd] at h
  injection h with h
  subst h
  injection hregions with hregions
  subst hregions
  revert hnames
  decide

/-- C7 (amended): with allow-list `nyc1, fra1` and a response listing
`nyc1: HIGH`, `sfo3: HIGH`, `fra1: LOW`, every known GPU type gets
`available = true` with `details.regions` holding exactly `nyc1: HIGH` (neither
`sfo3` nor `fra1`); in general, for an available result, `details.regions` lists
exactly the entries that pass the allow-list filter and report `MEDIUM` or
`HIGH`, in provider order. -/
theorem checkGpuAvailability_regions_allow_listed_with_capacity :
    (∀ gpuType ∈ mapKeys GPU_TYPES, ∃ r d,
        checkGpuAvailability ["nyc1", "fra1"] gpuType
          (.resolved (.body (.array
            [⟨.string "nyc1", .string "HIGH"⟩, ⟨.string "sfo3", .string "HIGH"⟩,
              ⟨.string "fra1", .string "LOW"⟩]))) = .ok r
        ∧ r.available = true ∧ r.details = some d
        ∧ d.regions = some [⟨.string "nyc1", .string "HIGH"⟩])
      ∧ (∀ (REGIONS_TO_CHECK : List String) (gpuType : String) (entries : List CapacityEntry)
          (r : CheckResult),
          gpuType ∈ mapKeys GPU_TYPES →
          checkGpuAvailability REGIONS_TO_CHECK gpuType
            (.resolved (.body (.array entries))) = .ok r →
          r.available = true →
          ∃ d, r.details = some d ∧ d.regions = some
            ((entries.filter (fun c => decide
                ((REGIONS_TO_CHECK = [] ∨ ∃ s ∈ REGIONS_TO_CHECK, c.region = .string s)
                  ∧ (c.capacity = .string "MEDIUM" ∨ c.capacity = .string "HIGH")))).map
              (fun c => { region := c.region, capacity := c.capacity }))) := by
  constructor
  · intro gpuType hknown
    obtain ⟨gpuConfig, hcfg⟩ := mapGet_of_mem_mapKeys GPU_TYPES gpuType hknown
    have hsel : selectCapacities ["nyc1", "fra1"]
        [⟨.string "nyc1", .string "HIGH"⟩, ⟨.string "sfo3", .string "HIGH"⟩,
          ⟨.string "fra1", .string "LOW"⟩] =
        [⟨.string "nyc1", .string "HIGH"⟩, ⟨.string "fra1", .string "LOW"⟩] := by decide
    have hfil : ([⟨.string "nyc1", .string "HIGH"⟩, ⟨.string "fra1", .string "LOW"⟩] :
        List CapacityEntry).filter hasCapacity = [⟨.string "nyc1", .string "HIGH"⟩] := by decide
    rw [checkGpuAvailability_array _ _ _ _ hcfg, hsel, hfil, if_neg (by decide),
      if_pos (by decide)]
    exact ⟨_, _, rfl, rfl, rfl, rfl⟩
  · intro REGIONS_TO_CHECK gpuType entries r hknown hres hav
    refine ⟨_, checkGpuAvailability_available_regions _ _ _ r hknown hres hav, ?_⟩
    show some _ = some _
    rw [filter_hasCapacity, selectCapacities_eq_filter, List.filter_filter, map_toRegionInfo]
    congr 2
    apply List.filter_congr
    intro c _
    by_cases h1 : REGIONS_TO_CHECK = [] ∨ ∃ s ∈ REGIONS_TO_CHECK, c.region = .string s <;>
      by_cases h2 : c.capacity = .string "MEDIUM" ∨ c.capacity = .string "HIGH" <;>
      simp [h1, h2]

/-- C7 (amended) at a concrete input: the example of the claim for `L40S`. -/
theorem checkGpuAvailability_regions_allow_listed_with_capacity_witness :
    "L40S" ∈ mapKeys GPU_TYPES
      ∧ ∃ r d,
        checkGpuAvailability ["nyc1", "fra1"] "L40S"
          (.resolved (.body (.array
            [⟨.string "nyc1", .string "HIGH"⟩, ⟨.string "sfo3", .string "HIGH"⟩,
              ⟨.string "fra1", .string "LOW"⟩]))) = .ok r
        ∧ r.available = true ∧ r.details = some d
        ∧ d.regions = some [⟨.string "nyc1", .string "HIGH"⟩] :=
  ⟨by decide, checkGpuAvailability_regions_allow_listed_with_capacity.1 "L40S" (by decide)⟩

theorem lowestStep_low (c : CapacityEntry)
    (h : c.capacity = .string "NONE" ∨ c.capacity = .string "LOW") :
    lowestStep (.string "LOW") c = .ok (.string "LOW") := by
  have h1 : stringLt (toLowerCase "NONE") (toLowerCase "LOW") = false := by decide
  have h2 : stringLt (toLowerCase "LOW") (toLowerCase "LOW") = false := by decide
  have ht : (JsValue.string "LOW").truthy = true := by decide
  unfold lowestStep
  rcases h with h | h <;> simp [h, ht, JsValue.toLowerCase, h1, h2]

theorem lowestStep_none (c : CapacityEntry)
    (h : c.capacity = .string "NONE" ∨ c.capacity = .string "LOW") :
    lowestStep (.string "NONE") c = .ok c.capacity := by
  have h1 : stringLt (toLowerCase "NONE") (toLowerCase "NONE") = false := by decide
  have h2 : stringLt (toLowerCase "LOW") (toLowerCase "NONE") = true := by decide
  have ht : (JsValue.string "NONE").truthy = true := by decide
  unfold lowestStep
  rcases h with h | h <;> simp [h, ht, JsValue.toLowerCase, h1, h2]

theorem reduceLowest_low (cs : List CapacityEntry)
    (h : ∀ c ∈ cs, c.capacity = .string "NONE" ∨ c.capacity = .string "LOW") :
    reduceLowest (.string "LOW") cs = .ok (.string "LOW") := by
  induction cs with
  | nil => rfl
  | cons c rest ih =>
    unfold reduceLowest
    rw [lowestStep_low c (h c (List.mem_cons_self _ _))]
    exact ih (fun x hx => h x (List.mem_cons_of_mem _ hx))

theorem reduceLowest_none (cs : List CapacityEntry)
    (h : ∀ c ∈ cs, c.capacity = .string "NONE" ∨ c.capacity = .string "LOW") :
    reduceLowest (.string "NONE") cs =
      .ok (.string (if ∃ c ∈ cs, c.capacity = .string "LOW" then "LOW" else "NONE")) := by
  induction cs with
  | nil => simp [reduceLowest]
  | cons c rest ih =>
    have hrest : ∀ x ∈ rest, x.capacity = .string "NONE" ∨ x.capacity = .string "LOW" :=
      fun x hx => h x (List.mem_cons_of_mem _ hx)
    unfold reduceLowest
    rw [lowestStep_none c (h c (List.mem_cons_self _ _))]
    rcases h c (List.mem_cons_self _ _) with hc | hc
    · simp only [hc]
      rw [ih hrest]
      have hne : ¬ c.capacity = .string "LOW" := by rw [hc]; decide
      simp [hne]
    · simp only [hc]
      rw [reduceLowest_low rest hrest]
      simp [hc]

theorem reduceLowest_null (cs : List CapacityEntry) (hne : cs ≠ [])
    (h : ∀ c ∈ cs, c.capacity = .string "NONE" ∨ c.capacity = .string "LOW") :
    reduceLowest .null cs =
      .ok (.string (if ∃ c ∈ cs, c.capacity = .string "LOW" then "LOW" else "NONE")) := by
  cases cs with
  | nil => exact absurd rfl hne
  | cons c rest =>
    have hrest : ∀ x ∈ rest, x.capacity = .string "NONE" ∨ x.capacity = .string "LOW" :=
      fun x hx => h x (List.mem_cons_of_mem _ hx)
    have hstep : lowestStep .null c = .ok c.capacity := by
      simp [lowestStep, JsValue.truthy]
    unfold reduceLowest
    rw [hstep]
    rcases h c (List.mem_cons_self _ _) with hc | hc
    · simp only [hc]
      rw [reduceLowest_none rest hrest]
      have hne : ¬ c.capacity = .string "LOW" := by rw [hc]; decide
      simp [hne]
    · simp only [hc]
      rw [reduceLowest_low rest hrest]
      simp [hc]

theorem string_low_le_none : ("LOW" : String) ≤ "NONE" := by
  rw [String.le_iff_toList_le]; decide

/-- C10: for every known GPU type and every response whose capacities are
labelled `NONE`, `LOW`, `MEDIUM` or `HIGH`, whose filtered region list is
non-empty and holds no `MEDIUM` or `HIGH` region, `checkGpuAvailability` returns
`available = false` with `error = no_capacity`, `details.regions` lists every
filtered region in order, and the best capacity named in the message is the
minimum of the filtered labels under the ordering of strings (`LOW` as soon as
one region reports `LOW`). -/
theorem checkGpuAvailability_no_capacity (REGIONS_TO_CHECK : List String)
    (gpuType : String) (entries : List CapacityEntry)
    (hknown : gpuType ∈ mapKeys GPU_TYPES)
    (hnonempty : selectCapacities REGIONS_TO_CHECK entries ≠ [])
    (hwell : ∀ c ∈ selectCapacities REGIONS_TO_CHECK entries,
      c.capacity = .string "NONE" ∨ c.capacity = .string "LOW"
        ∨ c.capacity = .string "MEDIUM" ∨ c.capacity = .string "HIGH")
    (hbelow : ∀ c ∈ selectCapacities REGIONS_TO_CHECK entries,
      c.capacity ≠ .string "MEDIUM" ∧ c.capacity ≠ .string "HIGH") :
    ∃ r best,
      checkGpuAvailability REGIONS_TO_CHECK gpuType (.resolved (.body (.array entries))) = .ok r
      ∧ r.available = false ∧ r.error = some "no_capacity"
      ∧ (∃ d, r.details = some d ∧ d.regions = some
          ((selectCapacities REGIONS_TO_CHECK entries).map
            (fun c => { region := c.region, capacity := c.capacity })))
      ∧ r.message = "GPU is not available (Best capacity: " ++ best ++ ")"
      ∧ (∃ c ∈ selectCapacities REGIONS_TO_CHECK entries, c.capacity = .string best)
      ∧ (∀ c ∈ selectCapacities REGIONS_TO_CHECK entries, ∀ label : String,
          c.capacity = .string label → best ≤ label)
      ∧ ((∃ c ∈ selectCapacities REGIONS_TO_CHECK entries, c.capacity = .string "LOW") →
          best = "LOW") := by
  obtain ⟨gpuConfig, hcfg⟩ := mapGet_of_mem_mapKeys GPU_TYPES gpuType hknown
  have hlabels : ∀ c ∈ selectCapacities REGIONS_TO_CHECK entries,
      c.capacity = .string "NONE" ∨ c.capacity = .string "LOW" := by
    intro c hc
    rcases hwell c hc with h | h | h | h
    · exact Or.inl h
    · exact Or.inr h
    · exact absurd h (hbelow c hc).1
    · exact absurd h (hbelow c hc).2
  have hlen : ¬ (selectCapacities REGIONS_TO_CHECK entries).length = 0 := by
    rw [length_eq_zero_iff_nil]; exact hnonempty
  have hav : ¬ ((selectCapacities REGIONS_TO_CHECK entries).filter hasCapacity).length > 0 := by
    intro hpos
    obtain ⟨c, hc⟩ := List.exists_mem_of_length_pos hpos
    rw [List.mem_filter] at hc
    rcases (hasCapacity_iff c).1 hc.2 with h | h
    · exact (hbelow c hc.1).1 h
    · exact (hbelow c hc.1).2 h
  rw [checkGpuAvailability_array _ _ _ _ hcfg, if_neg hlen, if_neg hav,
    reduceLowest_null _ hnonempty hlabels]
  by_cases hlow : ∃ c ∈ selectCapacities REGIONS_TO_CHECK entries, c.capacity = .string "LOW"
  · refine ⟨_, "LOW", rfl, rfl, rfl, ⟨_, rfl, rfl⟩, ?_, hlow, ?_, fun _ => rfl⟩
    · simp [hlow, bestCapacityText, JsValue.truthy, JsValue.toStr]
    · intro c hc label hlabel
      rcases hlabels c hc with h | h
      · rw [h] at hlabel; injection hlabel with hl; rw [← hl]; exact string_low_le_none
      · rw [h] at hlabel; injection hlabel with hl; rw [← hl]
  · obtain ⟨c0, hc0⟩ := List.exists_mem_of_ne_nil _ hnonempty
    have hall : ∀ c ∈ selectCapacities REGIONS_TO_CHECK entries, c.capacity = .string "NONE" := by
      intro c hc
      rcases hlabels c hc with h | h
      · exact h
      · exact absurd ⟨c, hc, h⟩ hlow
    refine ⟨_, "NONE", rfl, rfl, rfl, ⟨_, rfl, rfl⟩, ?_, ⟨c0, hc0, hall c0 hc0⟩, ?_,
      fun h => absurd h hlow⟩
    · simp [hlow, bestCapacityText, JsValue.truthy, JsValue.toStr]
    · intro c hc label hlabel
      rw [hall c hc] at hlabel; injection hlabel with hl; rw [← hl]

/-- C10 at a concrete input: allow-list `nyc1, fra1` and a response with
`nyc1: NONE`, `sfo3: HIGH`, `fra1: LOW`. -/
theorem checkGpuAvailability_no_capacity_witness :
    "H100-1X" ∈ mapKeys GPU_TYPES
      ∧ selectCapacities ["nyc1", "fra1"]
          [⟨.string "nyc1", .string "NONE"⟩, ⟨.string "sfo3", .string "HIGH"⟩,
            ⟨.string "fra1", .string "LOW"⟩] ≠ []
      ∧ (∀ c ∈ selectCapacities ["nyc1", "fra1"]
            [⟨.string "nyc1", .string "NONE"⟩, ⟨.string "sfo3", .string "HIGH"⟩,
              ⟨.string "fra1", .string "LOW"⟩],
          c.capacity = .string "NONE" ∨ c.capacity = .string "LOW"
            ∨ c.capacity = .string "MEDIUM" ∨ c.capacity = .string "HIGH")
      ∧ (∀ c ∈ selectCapacities ["nyc1", "fra1"]
            [⟨.string "nyc1", .string "NONE"⟩, ⟨.string "sfo3", .string "HIGH"⟩,
              ⟨.string "fra1", .string "LOW"⟩],
          c.capacity ≠ .string "MEDIUM" ∧ c.capacity ≠ .string "HIGH")
      ∧ ∃ r best,
        checkGpuAvailability ["nyc1", "fra1"] "H100-1X"
          (.resolved (.body (.array
            [⟨.string "nyc1", .string "NONE"⟩, ⟨.string "sfo3", .string "HIGH"⟩,
              ⟨.string "fra1", .string "LOW"⟩]))) = .ok r
        ∧ r.available = false ∧ r.error = some "no_capacity"
        ∧ (∃ d, r.details = some d ∧ d.regions = some
            ((selectCapacities ["nyc1", "fra1"]
                [⟨.string "nyc1", .string "NONE"⟩, ⟨.string "sfo3", .string "HIGH"⟩,
                  ⟨.string "fra1", .string "LOW"⟩]).map
              (fun c => { region := c.region, capacity := c.capacity })))
        ∧ r.message = "GPU is not available (Best capacity: " ++ best ++ ")"
        ∧ (∃ c ∈ selectCapacities ["nyc1", "fra1"]
              [⟨.string "nyc1", .string "NONE"⟩, ⟨.string "sfo3", .string "HIGH"⟩,
                ⟨.string "fra1", .string "LOW"⟩], c.capacity = .string best)
        ∧ (∀ c ∈ selectCapacities ["nyc1", "fra1"]
              [⟨.string "nyc1", .string "NONE"⟩, ⟨.string "sfo3", .string "HIGH"⟩,
                ⟨.string "fra1", .string "LOW"⟩], ∀ label : String,
            c.capacity = .string label → best ≤ label)
        ∧ ((∃ c ∈ selectCapacities ["nyc1", "fra1"]
              [⟨.string "nyc1", .string "NONE"⟩, ⟨.string "sfo3", .string "HIGH"⟩,
                ⟨.string "fra1", .string "LOW"⟩], c.capacity = .string "LOW") →
            best = "LOW") :=
  ⟨by decide, by decide, by decide, by decide,
    checkGpuAvailability_no_capacity ["nyc1", "fra1"] "H100-1X"
      [⟨.string "nyc1", .string "NONE"⟩, ⟨.string "sfo3", .string "HIGH"⟩,
        ⟨.string "fra1", .string "LOW"⟩]
      (by decide) (by decide) (by decide) (by decide)⟩

/-! ## Lemmas on the registry -/

theorem mapGet_mapSet_same {α : Type} (m : List (String × α)) (key : String) (val : α) :
    mapGet (mapSet m key val) key = some val := by
  induction m with
  | nil => simp [mapSet, mapGet]
  | cons kv rest ih =>
    obtain ⟨k, v⟩ := kv
    by_cases hk : k = key
    · simp [mapSet, mapGet, hk]
    · simp [mapSet, mapGet, hk, ih]

theorem mapGet_mapSet_ne {α : Type} (m : List (String × α)) (key other : String) (val : α)
    (h : key ≠ other) : mapGet (mapSet m key val) other = mapGet m other := by
  induction m with
  | nil => simp [mapSet, mapGet, h]
  | cons kv rest ih =>
    obtain ⟨k, v⟩ := kv
    by_cases hk : k = key
    · subst hk
      simp [mapSet, mapGet, h]
    · by_cases ho : k = other
      · subst ho
        simp [mapSet, mapGet, hk]
      · simp [mapSet, mapGet, hk, ho, ih]

theorem mem_mapKeys_mapSet {α : Type} (m : List (String × α)) (key x : String) (val : α) :
    x ∈ mapKeys (mapSet m key val) ↔ x ∈ mapKeys m ∨ x = key := by
  induction m with
  | nil => simp [mapSet, mapKeys]
  | cons kv rest ih =>
    obtain ⟨k, v⟩ := kv
    by_cases hk : k = key
    · subst hk
      simp only [mapSet, if_true, mapKeys, List.map_cons, List.mem_cons]
      constructor
      · intro h; exact Or.inl h
      · rintro (h | h)
        · exact h
        · exact Or.inl h
    · simp only [mapKeys] at ih
      simp only [mapSet, if_neg hk, mapKeys, List.map_cons, List.mem_cons, ih]
      constructor
      · rintro (h | h | h)
        · exact Or.inl (Or.inl h)
        · exact Or.inl (Or.inr h)
        · exact Or.inr h
      · rintro ((h | h) | h)
        · exact Or.inl h
        · exact Or.inr (Or.inl h)
        · exact Or.inr (Or.inr h)

theorem nodup_mapKeys_mapSet {α : Type} (m : List (String × α)) (key : String) (val : α)
    (h : (mapKeys m).Nodup) : (mapKeys (mapSet m key val)).Nodup := by
  induction m with
  | nil => simp [mapSet, mapKeys]
  | cons kv rest ih =>
    obtain ⟨k, v⟩ := kv
    have hcons : k ∉ mapKeys rest ∧ (mapKeys rest).Nodup := by
      simpa [mapKeys] using h
    by_cases hk : k = key
    · simpa [mapSet, hk, mapKeys] using h
    · have hnot : k ∉ mapKeys (mapSet rest key val) := by
        rw [mem_mapKeys_mapSet]
        rintro (h1 | h1)
        · exact hcons.1 h1
        · exact hk h1
      have hrest := ih hcons.2
      simp only [mapSet, if_neg hk, mapKeys, List.map_cons, List.nodup_cons]
      exact ⟨hnot, hrest⟩

theorem mapGet_eq_none_of_not_mem {α : Type} (m : List (String × α)) (key : String)
    (h : key ∉ mapKeys m) : mapGet m key = none := by
  induction m with
  | nil => rfl
  | cons kv rest ih =>
    obtain ⟨k, v⟩ := kv
    have hk : k ≠ key := by
      intro hk; apply h; simp [mapKeys, hk]
    have hrest : key ∉ mapKeys rest := by
      intro hr; apply h; simp only [mapKeys, List.map_cons, List.mem_cons]; exact Or.inr hr
    simp [mapGet, hk, ih hrest]

theorem mem_mapKeys_mapDelete {α : Type} (m : List (String × α)) (key x : String)
    (h : x ∈ mapKeys (mapDelete m key)) : x ∈ mapKeys m := by
  induction m with
  | nil => simp [mapDelete, mapKeys] at h
  | cons kv rest ih =>
    obtain ⟨k, v⟩ := kv
    by_cases hk : k = key
    · simp only [mapDelete, if_pos hk] at h
      simp only [mapKeys, List.map_cons, List.mem_cons]
      exact Or.inr h
    · simp only [mapDelete, if_neg hk, mapKeys, List.map_cons, List.mem_cons] at h
      simp only [mapKeys, List.map_cons, List.mem_cons]
      rcases h with h | h
      · exact Or.inl h
      · exact Or.inr (ih h)

theorem nodup_mapKeys_mapDelete {α : Type} (m : List (String × α)) (key : String)
    (h : (mapKeys m).Nodup) : (mapKeys (mapDelete m key)).Nodup := by
  induction m with
  | nil => simp [mapDelete, mapKeys]
  | cons kv rest ih =>
    obtain ⟨k, v⟩ := kv
    have hcons : k ∉ mapKeys rest ∧ (mapKeys rest).Nodup := by
      simpa [mapKeys] using h
    by_cases hk : k = key
    · simp only [mapDelete, if_pos hk]
      exact hcons.2
    · simp only [mapDelete, if_neg hk, mapKeys, List.map_cons, List.nodup_cons]
      exact ⟨fun hmem => hcons.1 (mem_mapKeys_mapDelete rest key k hmem), ih hcons.2⟩

theorem mapGet_mapDelete_same {α : Type} (m : List (String × α)) (key : String)
    (h : (mapKeys m).Nodup) : mapGet (mapDelete m key) key = none := by
  induction m with
  | nil => rfl
  | cons kv rest ih =>
    obtain ⟨k, v⟩ := kv
    have hcons : k ∉ mapKeys rest ∧ (mapKeys rest).Nodup := by
      simpa [mapKeys] using h
    by_cases hk : k = key
    · simp only [mapDelete, if_pos hk]
      exact mapGet_eq_none_of_not_mem rest key (hk ▸ hcons.1)
    · simp [mapDelete, mapGet, hk, ih hcons.2]

theorem mapGet_mapDelete_ne {α : Type} (m : List (String × α)) (key other : String)
    (h : key ≠ other) : mapGet (mapDelete m key) other = mapGet m other := by
  induction m with
  | nil => rfl
  | cons kv rest ih =>
    obtain ⟨k, v⟩ := kv
    by_cases hk : k = key
    · subst hk
      simp [mapDelete, mapGet, h]
    · by_cases ho : k = other
      · subst ho
        simp [mapDelete, mapGet, hk]
      · simp [mapDelete, mapGet, hk, ho, ih]

theorem mapGet_of_mem {α : Type} (m : List (String × α)) (key : String) (val : α)
    (hnodup : (mapKeys m).Nodup) (h : (key, val) ∈ m) : mapGet m key = some val := by
  induction m with
  | nil => simp at h
  | cons kv rest ih =>
    obtain ⟨k, v⟩ := kv
    have hcons : k ∉ mapKeys rest ∧ (mapKeys rest).Nodup := by
      simpa [mapKeys] using hnodup
    rcases List.mem_cons.1 h with heq | hmem
    · injection heq with h1 h2
      simp [mapGet, h1, h2]
    · have hk : k ≠ key := by
        intro hk
        apply hcons.1
        rw [hk]
        exact List.mem_map.2 ⟨(key, val), hmem, rfl⟩
      simp [mapGet, hk, ih hcons.2 hmem]

theorem mem_of_mapGet {α : Type} (m : List (String × α)) (key : String) (val : α)
    (h : mapGet m key = some val) : (key, val) ∈ m := by
  induction m with
  | nil => simp [mapGet] at h
  | cons kv rest ih =>
    obtain ⟨k, v⟩ := kv
    by_cases hk : k = key
    · simp only [mapGet, if_pos hk] at h
      injection h with h
      simp [hk, h]
    · simp only [mapGet, if_neg hk] at h
      exact List.mem_cons_of_mem _ (ih h)

/-! ## Lemmas on the dispatch -/

theorem SendResult.truthy_eq_true (success : SendResult) : success.truthy = true := by
  cases success <;> rfl

theorem deliveriesFor_cons_absent (availabilityResults : List (String × CheckResult))
    (currentTime : Int) (userId : String) (data : SubData) (g : String) (rest : List String)
    (hres : mapGet availabilityResults g = none) :
    deliveriesFor availabilityResults currentTime userId data (g :: rest) =
      deliveriesFor availabilityResults currentTime userId data rest := by
  simp [deliveriesFor, hres]

theorem deliveriesFor_cons_unavailable (availabilityResults : List (String × CheckResult))
    (currentTime : Int) (userId : String) (data : SubData) (g : String) (rest : List String)
    (result : CheckResult) (hres : mapGet availabilityResults g = some result)
    (hav : result.available = false) :
    deliveriesFor availabilityResults currentTime userId data (g :: rest) =
      deliveriesFor availabilityResults currentTime userId data rest := by
  simp [deliveriesFor, hres, hav]

theorem deliveriesFor_cons_recent (availabilityResults : List (String × CheckResult))
    (currentTime : Int) (userId : String) (data : SubData) (g : String) (rest : List String)
    (result : CheckResult) (hres : mapGet availabilityResults g = some result)
    (hrec : notifiedRecently data.lastNotified currentTime g = true) :
    deliveriesFor availabilityResults currentTime userId data (g :: rest) =
      deliveriesFor availabilityResults currentTime userId data rest := by
  simp [deliveriesFor, hres, hrec]

theorem deliveriesFor_cons_send (availabilityResults : List (String × CheckResult))
    (currentTime : Int) (userId : String) (data : SubData) (g : String) (rest : List String)
    (result : CheckResult) (hres : mapGet availabilityResults g = some result)
    (hav : result.available = true)
    (hrec : notifiedRecently data.lastNotified currentTime g = false) :
    deliveriesFor availabilityResults currentTime userId data (g :: rest) =
      { userId := userId, subscription := data.subscription, gpuType := g, result := result }
        :: deliveriesFor availabilityResults currentTime userId data rest := by
  simp [deliveriesFor, hres, hav, hrec]

theorem mem_deliveriesFor (availabilityResults : List (String × CheckResult))
    (currentTime : Int) (userId : String) (data : SubData) (gpuTypes : List String)
    (d : Delivery) :
    d ∈ deliveriesFor availabilityResults currentTime userId data gpuTypes ↔
      d.userId = userId ∧ d.subscription = data.subscription ∧ d.gpuType ∈ gpuTypes
        ∧ mapGet availabilityResults d.gpuType = some d.result ∧ d.result.available = true
        ∧ notifiedRecently data.lastNotified currentTime d.gpuType = false := by
  induction gpuTypes with
  | nil => simp [deliveriesFor]
  | cons g rest ih =>
    have hskip : deliveriesFor availabilityResults currentTime userId data (g :: rest) =
        deliveriesFor availabilityResults currentTime userId data rest →
        ¬ (mapGet availabilityResults g = some d.result ∧ d.result.available = true
          ∧ notifiedRecently data.lastNotified currentTime g = false) →
        (d ∈ deliveriesFor availabilityResults currentTime userId data (g :: rest) ↔
          d.userId = userId ∧ d.subscription = data.subscription ∧ d.gpuType ∈ g :: rest
            ∧ mapGet availabilityResults d.gpuType = some d.result ∧ d.result.available = true
            ∧ notifiedRecently data.lastNotified currentTime d.gpuType = false) := by
      intro heq hnot
      rw [heq, ih, List.mem_cons]
      constructor
      · rintro ⟨h1, h2, h3, h4⟩
        exact ⟨h1, h2, Or.inr h3, h4⟩
      · rintro ⟨h1, h2, h3 | h3, h4⟩
        · rw [h3] at h4
          exact absurd h4 hnot
        · exact ⟨h1, h2, h3, h4⟩
    cases hres : mapGet availabilityResults g with
    | none =>
      apply hskip (deliveriesFor_cons_absent _ _ _ _ _ _ hres)
      rintro ⟨h, _⟩
      rw [hres] at h
      exact absurd h (by simp)
    | some result =>
      cases hav : result.available with
      | false =>
        apply hskip (deliveriesFor_cons_unavailable _ _ _ _ _ _ _ hres hav)
        rintro ⟨h, h5, _⟩
        rw [hres] at h
        injection h with h
        rw [← h, hav] at h5
        exact absurd h5 (by simp)
      | true =>
        cases hrec : notifiedRecently data.lastNotified currentTime g with
        | true =>
          apply hskip (deliveriesFor_cons_recent _ _ _ _ _ _ _ hres hrec)
          rintro ⟨_, _, h6⟩
          rw [hrec] at h6
          exact absurd h6 (by simp)
        | false =>
          rw [deliveriesFor_cons_send _ _ _ _ _ _ _ hres hav hrec, List.mem_cons, ih,
            List.mem_cons]
          constructor
          · rintro (h | ⟨h1, h2, h3, h4⟩)
            · subst h
              exact ⟨rfl, rfl, Or.inl rfl, hres, hav, hrec⟩
            · exact ⟨h1, h2, Or.inr h3, h4⟩
          · rintro ⟨h1, h2, h3 | h3, h4, h5, h6⟩
            · left
              rw [h3, hres] at h4
              injection h4 with h4
              cases d
              simp_all
            · exact Or.inr ⟨h1, h2, h3, h4, h5, h6⟩

theorem mem_deliveries (availabilityResults : List (String × CheckResult))
    (currentTime : Int) (subscriptions : Subscriptions) (d : Delivery) :
    d ∈ deliveries availabilityResults currentTime subscriptions ↔
      ∃ data, (d.userId, data) ∈ subscriptions
        ∧ d ∈ deliveriesFor availabilityResults currentTime d.userId data data.gpuTypes := by
  induction subscriptions with
  | nil => simp [deliveries]
  | cons kv rest ih =>
    obtain ⟨k, v⟩ := kv
    simp only [deliveries, List.mem_append, ih, List.mem_cons]
    constructor
    · rintro (h | ⟨data, h1, h2⟩)
      · have hk : d.userId = k := ((mem_deliveriesFor _ _ _ _ _ _).1 h).1
        exact ⟨v, Or.inl (by rw [hk]), by rw [hk]; exact h⟩
      · exact ⟨data, Or.inr h1, h2⟩
    · rintro ⟨data, h1 | h1, h2⟩
      · injection h1 with h1 h1b
        left
        rw [← h1, ← h1b]
        exact h2
      · exact Or.inr ⟨data, h1, h2⟩

theorem delivered_iff (availabilityResults : List (String × CheckResult))
    (currentTime : Int) (subscriptions : Subscriptions) (userId gpuType : String)
    (data : SubData) (hnodup : (mapKeys subscriptions).Nodup)
    (hdata : mapGet subscriptions userId = some data) :
    (∃ d ∈ deliveries availabilityResults currentTime subscriptions,
        d.userId = userId ∧ d.gpuType = gpuType) ↔
      gpuType ∈ data.gpuTypes
        ∧ (∃ result, mapGet availabilityResults gpuType = some result ∧ result.available = true)
        ∧ notifiedRecently data.lastNotified currentTime gpuType = false := by
  constructor
  · rintro ⟨d, hd, hu, hg⟩
    obtain ⟨data2, hmem, hfor⟩ := (mem_deliveries _ _ _ _).1 hd
    have hget := mapGet_of_mem _ _ _ hnodup hmem
    rw [hu, hdata] at hget
    injection hget with hget
    subst hget
    obtain ⟨_, _, h3, h4, h5, h6⟩ := (mem_deliveriesFor _ _ _ _ _ _).1 hfor
    rw [hg] at h3 h4 h6
    exact ⟨h3, ⟨d.result, h4, h5⟩, h6⟩
  · rintro ⟨h1, ⟨result, h2, h3⟩, h4⟩
    refine ⟨{ userId := userId, subscription := data.subscription, gpuType := gpuType,
              result := result }, ?_, rfl, rfl⟩
    rw [mem_deliveries]
    exact ⟨data, mem_of_mapGet _ _ _ hdata,
      (mem_deliveriesFor _ _ _ _ _ _).2 ⟨rfl, rfl, h1, h2, h3, h4⟩⟩

theorem notifiedRecently_eq_false_iff (lastNotified : List (String × Int)) (currentTime : Int)
    (gpuType : String) :
    notifiedRecently lastNotified currentTime gpuType = false ↔
      ¬ ∃ t, mapGet lastNotified gpuType = some t ∧ t ≠ 0
        ∧ currentTime - t < NOTIFICATION_COOLDOWN := by
  unfold notifiedRecently
  cases h : mapGet lastNotified gpuType with
  | none => simp
  | some t =>
    by_cases h0 : t = 0
    · simp [h0]
    · by_cases hlt : currentTime - t < NOTIFICATION_COOLDOWN
      · simp [h0, hlt]
      · simp [h0, hlt]

theorem fst_mem_of_mem_settleSends (webpush : Nat → PushReply) (n : Nat) (ds : List Delivery)
    (d : Delivery) (success : SendResult) (h : (d, success) ∈ settleSends webpush n ds) :
    d ∈ ds := by
  induction ds generalizing n with
  | nil => simp [settleSends] at h
  | cons x rest ih =>
    simp only [settleSends, List.mem_cons] at h
    rcases h with h | h
    · injection h with h1 _
      rw [h1]; exact List.mem_cons_self _ _
    · exact List.mem_cons_of_mem _ (ih (n + 1) h)

theorem exists_mem_settleSends (webpush : Nat → PushReply) (n : Nat) (ds : List Delivery)
    (d : Delivery) (h : d ∈ ds) : ∃ success, (d, success) ∈ settleSends webpush n ds := by
  induction ds generalizing n with
  | nil => simp at h
  | cons x rest ih =>
    rcases List.mem_cons.1 h with h | h
    · exact ⟨sendNotification (webpush n), by rw [h]; simp [settleSends]⟩
    · obtain ⟨success, hs⟩ := ih (n + 1) h
      exact ⟨success, by simp only [settleSends, List.mem_cons]; exact Or.inr hs⟩

theorem nodup_recordDelivery (subscriptions : Subscriptions) (currentTime : Int) (d : Delivery)
    (success : SendResult) (h : (mapKeys subscriptions).Nodup) :
    (mapKeys (recordDelivery subscriptions currentTime d success)).Nodup := by
  unfold recordDelivery
  split
  · split
    · exact nodup_mapKeys_mapSet _ _ _ h
    · exact h
  · exact h

theorem nodup_recordAll (currentTime : Int) (subscriptions : Subscriptions)
    (settled : List (Delivery × SendResult)) (h : (mapKeys subscriptions).Nodup) :
    (mapKeys (recordAll currentTime subscriptions settled)).Nodup := by
  induction settled generalizing subscriptions with
  | nil => exact h
  | cons x rest ih =>
    obtain ⟨d, success⟩ := x
    exact ih _ (nodup_recordDelivery _ _ _ _ h)

theorem nodup_step (subscriptions : Subscriptions) (op : Op)
    (h : (mapKeys subscriptions).Nodup) : (mapKeys (step subscriptions op)).Nodup := by
  cases op with
  | addSubscription userId subscription gpuTypes =>
    exact nodup_mapKeys_mapSet _ _ _ h
  | updateSubscriptionGpuTypes userId gpuTypes =>
    simp only [step, updateSubscriptionGpuTypes]
    split
    · exact h
    · exact nodup_mapKeys_mapSet _ _ _ h
  | removeSubscription userId =>
    exact nodup_mapKeys_mapDelete _ _ h
  | notifySubscribers availabilityResults currentTime webpush =>
    exact nodup_recordAll _ _ _ h

theorem recordDelivery_keeps (P : Int → Prop) (subscriptions : Subscriptions)
    (currentTime : Int) (d : Delivery) (success : SendResult) (userId gpuType : String)
    (hs : ∀ data, mapGet subscriptions userId = some data →
      ∃ t, mapGet data.lastNotified gpuType = some t ∧ P t)
    (hd : d.userId = userId → d.gpuType = gpuType → P currentTime) :
    ∀ data, mapGet (recordDelivery subscriptions currentTime d success) userId = some data →
      ∃ t, mapGet data.lastNotified gpuType = some t ∧ P t := by
  intro data hdata
  unfold recordDelivery at hdata
  rw [SendResult.truthy_eq_true, if_pos rfl] at hdata
  cases hget : mapGet subscriptions d.userId with
  | none =>
    rw [hget] at hdata
    exact hs data hdata
  | some subData =>
    rw [hget] at hdata
    simp only at hdata
    by_cases hu : d.userId = userId
    · rw [hu, mapGet_mapSet_same] at hdata
      injection hdata with hdata
      subst hdata
      simp only
      by_cases hg : d.gpuType = gpuType
      · rw [hg, mapGet_mapSet_same]
        exact ⟨currentTime, rfl, hd hu hg⟩
      · rw [mapGet_mapSet_ne _ _ _ _ hg]
        exact hs subData (hu ▸ hget)
    · rw [mapGet_mapSet_ne _ _ _ _ hu] at hdata
      exact hs data hdata

theorem recordDelivery_sets (subscriptions : Subscriptions) (currentTime : Int) (d : Delivery)
    (success : SendResult) :
    ∀ data, mapGet (recordDelivery subscriptions currentTime d success) d.userId = some data →
      mapGet data.lastNotified d.gpuType = some currentTime := by
  intro data hdata
  unfold recordDelivery at hdata
  rw [SendResult.truthy_eq_true, if_pos rfl] at hdata
  cases hget : mapGet subscriptions d.userId with
  | none =>
    rw [hget] at hdata
    simp only at hdata
    rw [hget] at hdata
    exact absurd hdata (by simp)
  | some subData =>
    rw [hget] at hdata
    simp only at hdata
    rw [mapGet_mapSet_same] at hdata
    injection hdata with hdata
    subst hdata
    exact mapGet_mapSet_same _ _ _

theorem recordAll_keeps (P : Int → Prop) (currentTime : Int) (userId gpuType : String)
    (settled : List (Delivery × SendResult)) (subscriptions : Subscriptions)
    (hs : ∀ data, mapGet subscriptions userId = some data →
      ∃ t, mapGet data.lastNotified gpuType = some t ∧ P t)
    (hd : ∀ x ∈ settled, x.1.userId = userId → x.1.gpuType = gpuType → P currentTime) :
    ∀ data, mapGet (recordAll currentTime subscriptions settled) userId = some data →
      ∃ t, mapGet data.lastNotified gpuType = some t ∧ P t := by
  induction settled generalizing subscriptions with
  | nil => exact hs
  | cons x rest ih =>
    obtain ⟨d, success⟩ := x
    apply ih
    · exact recordDelivery_keeps P _ _ _ _ _ _ hs (hd (d, success) (List.mem_cons_self _ _))
    · intro y hy
      exact hd y (List.mem_cons_of_mem _ hy)

theorem recordAll_sets (currentTime : Int) (userId gpuType : String)
    (settled : List (Delivery × SendResult)) (subscriptions : Subscriptions)
    (hx : ∃ x ∈ settled, x.1.userId = userId ∧ x.1.gpuType = gpuType) :
    ∀ data, mapGet (recordAll currentTime subscriptions settled) userId = some data →
      mapGet data.lastNotified gpuType = some currentTime := by
  induction settled generalizing subscriptions with
  | nil =>
    obtain ⟨x, hx, _⟩ := hx
    simp at hx
  | cons y rest ih =>
    obtain ⟨d, success⟩ := y
    obtain ⟨x, hmem, hu, hg⟩ := hx
    rcases List.mem_cons.1 hmem with heq | hrest
    · subst heq
      intro data hdata
      have hkeep := recordAll_keeps (fun t => t = currentTime) currentTime userId gpuType rest
        (recordDelivery subscriptions currentTime d success)
        (by
          intro data2 h2
          simp only at hu hg
          rw [← hu] at h2
          exact ⟨currentTime, hg ▸ recordDelivery_sets _ _ _ _ data2 h2, rfl⟩)
        (fun _ _ _ _ => rfl) data hdata
      obtain ⟨t, ht, hteq⟩ := hkeep
      rw [ht, hteq]
    · exact ih _ ⟨x, hrest, hu, hg⟩

/-! ## The notification dispatcher -/

/-- C1 (the code at the failing input): one subscriber interested in `L40S`,
never notified, `L40S` available, and the push service rejecting the delivery
with status 410. `notifySubscribers` reports `subscription_expired` for the
pair and yet sets its `lastNotified` to the dispatch time: the value
`sendNotification` resolves with on failure is an object, which the test
`if (success)` takes as true. -/
theorem notifySubscribers_failed_delivery_sets_lastNotified :
    notifySubscribers
        [("u1", { subscription := { endpoint := "https://push.example/u1" },
                  gpuTypes := ["L40S"], lastNotified := [] })]
        [("L40S", { available := true, gpuType := "L40S",
                    message := "GPU is available in 1 region(s)", error := none,
                    details := none })]
        1700000000000 (fun _ => .rejected (some 410) "Gone") =
      ([{ userId := "u1", gpuType := "L40S", success := .error "subscription_expired" }],
       [("u1", { subscription := { endpoint := "https://push.example/u1" },
                 gpuTypes := ["L40S"], lastNotified := [("L40S", 1700000000000)] })]) := by
  decide

theorem NOTIFICATION_COOLDOWN_eq : NOTIFICATION_COOLDOWN = 3600000 := by
  decide

/-- At a stored timestamp 0, which only a dispatch whose clock reads 0 writes,
the test `lastNotified[gpuType] && ...` takes the timestamp for unset: the
dispatch at time 300000 delivers to the pair. -/
theorem notifySubscribers_delivers_after_zero_timestamp :
    mapGet [("L40S", (0 : Int))] "L40S" = some 0
      ∧ (300000 : Int) - 0 < 3600000
      ∧ ∃ d ∈ deliveries
          [("L40S", { available := true, gpuType := "L40S",
                      message := "GPU is available in 1 region(s)", error := none,
                      details := none })]
          300000
          [("u1", { subscription := { endpoint := "https://push.example/u1" },
                    gpuTypes := ["L40S"], lastNotified := [("L40S", 0)] })],
        d.userId = "u1" ∧ d.gpuType = "L40S" := by
  decide

theorem recordDelivery_stored (P : Int → Prop) (subscriptions : Subscriptions)
    (currentTime : Int) (d : Delivery) (success : SendResult)
    (hs : ∀ userId data gpuType t, mapGet subscriptions userId = some data →
      mapGet data.lastNotified gpuType = some t → P t)
    (hnow : P currentTime) :
    ∀ userId data gpuType t,
      mapGet (recordDelivery subscriptions currentTime d success) userId = some data →
      mapGet data.lastNotified gpuType = some t → P t := by
  intro userId data gpuType t hdata ht
  unfold recordDelivery at hdata
  rw [SendResult.truthy_eq_true, if_pos rfl] at hdata
  cases hget : mapGet subscriptions d.userId with
  | none =>
    rw [hget] at hdata
    exact hs userId data gpuType t hdata ht
  | some subData =>
    rw [hget] at hdata
    simp only at hdata
    by_cases hu : d.userId = userId
    · rw [hu, mapGet_mapSet_same] at hdata
      injection hdata with hdata
      subst hdata
      simp only at ht
      by_cases hg : d.gpuType = gpuType
      · rw [hg, mapGet_mapSet_same] at ht
        injection ht with ht
        rw [← ht]
        exact hnow
      · rw [mapGet_mapSet_ne _ _ _ _ hg] at ht
        exact hs d.userId subData gpuType t hget ht
    · rw [mapGet_mapSet_ne _ _ _ _ hu] at hdata
      exact hs userId data gpuType t hdata ht

theorem recordAll_stored (P : Int → Prop) (currentTime : Int)
    (settled : List (Delivery × SendResult)) (subscriptions : Subscriptions)
    (hs : ∀ userId data gpuType t, mapGet subscriptions userId = some data →
      mapGet data.lastNotified gpuType = some t → P t)
    (hnow : P currentTime) :
    ∀ userId data gpuType t,
      mapGet (recordAll currentTime subscriptions settled) userId = some data →
      mapGet data.lastNotified gpuType = some t → P t := by
  induction settled generalizing subscriptions with
  | nil => exact hs
  | cons x rest ih =>
    obtain ⟨d, success⟩ := x
    exact ih _ (recordDelivery_stored P subscriptions currentTime d success hs hnow)

theorem step_stored (P : Int → Prop) (subscriptions : Subscriptions) (op : Op)
    (hnodup : (mapKeys subscriptions).Nodup)
    (hs : ∀ userId data gpuType t, mapGet subscriptions userId = some data →
      mapGet data.lastNotified gpuType = some t → P t)
    (hclock : ∀ availabilityResults currentTime webpush,
      op = .notifySubscribers availabilityResults currentTime webpush → P currentTime) :
    ∀ userId data gpuType t, mapGet (step subscriptions op) userId = some data →
      mapGet data.lastNotified gpuType = some t → P t := by
  cases op with
  | addSubscription u subscription gpuTypes =>
    intro userId data gpuType t hdata ht
    simp only [step, addSubscription] at hdata
    by_cases hu : u = userId
    · rw [hu, mapGet_mapSet_same] at hdata
      injection hdata with hdata
      subst hdata
      simp [mapGet] at ht
    · rw [mapGet_mapSet_ne _ _ _ _ hu] at hdata
      exact hs userId data gpuType t hdata ht
  | updateSubscriptionGpuTypes u gpuTypes =>
    intro userId data gpuType t hdata ht
    simp only [step, updateSubscriptionGpuTypes] at hdata
    cases hget : mapGet subscriptions u with
    | none =>
      rw [hget] at hdata
      exact hs userId data gpuType t hdata ht
    | some sub =>
      rw [hget] at hdata
      simp only at hdata
      by_cases hu : u = userId
      · rw [hu, mapGet_mapSet_same] at hdata
        injection hdata with hdata
        subst hdata
        exact hs u sub gpuType t hget ht
      · rw [mapGet_mapSet_ne _ _ _ _ hu] at hdata
        exact hs userId data gpuType t hdata ht
  | removeSubscription u =>
    intro userId data gpuType t hdata ht
    simp only [step, removeSubscription] at hdata
    by_cases hu : u = userId
    · rw [hu, mapGet_mapDelete_same _ _ hnodup] at hdata
      exact absurd hdata (by simp)
    · rw [mapGet_mapDelete_ne _ _ _ hu] at hdata
      exact hs userId data gpuType t hdata ht
  | notifySubscribers availabilityResults currentTime webpush =>
    exact recordAll_stored P currentTime _ subscriptions hs
      (hclock availabilityResults currentTime webpush rfl)

theorem run_stored (P : Int → Prop) (ops : List Op) (subscriptions : Subscriptions)
    (hnodup : (mapKeys subscriptions).Nodup)
    (hs : ∀ userId data gpuType t, mapGet subscriptions userId = some data →
      mapGet data.lastNotified gpuType = some t → P t)
    (hclock : ∀ availabilityResults currentTime webpush,
      Op.notifySubscribers availabilityResults currentTime webpush ∈ ops → P currentTime) :
    (mapKeys (run subscriptions ops)).Nodup
      ∧ ∀ userId data gpuType t, mapGet (run subscriptions ops) userId = some data →
          mapGet data.lastNotified gpuType = some t → P t := by
  induction ops generalizing subscriptions with
  | nil => exact ⟨hnodup, hs⟩
  | cons op rest ih =>
    apply ih (step subscriptions op) (nodup_step _ _ hnodup)
    · apply step_stored P subscriptions op hnodup hs
      intro availabilityResults currentTime webpush heq
      exact hclock availabilityResults currentTime webpush (heq ▸ List.mem_cons_self _ _)
    · intro availabilityResults currentTime webpush hmem
      exact hclock availabilityResults currentTime webpush (List.mem_cons_of_mem _ hmem)

/-- C4: in every registry reached from the empty one by registry operations and
dispatches, the dispatch clock (milliseconds since the epoch) never reading 0,
`notifySubscribers` issues a delivery for a subscriber and a GPU type exactly
when the type is in the interest list, the results hold an entry for it with
`available = true`, and it is not the case that `lastNotified` is set for the
type with the dispatch time minus it below 3,600,000 ms. A dispatch 5 minutes
after the recorded timestamp sends nothing to the pair; a dispatch exactly
3,600,000 ms after it delivers to the pair when the type is listed and
available. -/
theorem notifySubscribers_delivers_iff
    (ops : List Op) (availabilityResults : List (String × CheckResult)) (currentTime : Int)
    (userId gpuType : String) (data : SubData)
    (hclock : ∀ earlierResults earlierTime webpush,
      Op.notifySubscribers earlierResults earlierTime webpush ∈ ops → earlierTime ≠ 0)
    (hdata : mapGet (run [] ops) userId = some data) :
    ((∃ d ∈ deliveries availabilityResults currentTime (run [] ops),
          d.userId = userId ∧ d.gpuType = gpuType) ↔
        gpuType ∈ data.gpuTypes
          ∧ (∃ result, mapGet availabilityResults gpuType = some result
              ∧ result.available = true)
          ∧ ¬ ∃ t, mapGet data.lastNotified gpuType = some t
              ∧ currentTime - t < 3600000)
      ∧ (∀ t, mapGet data.lastNotified gpuType = some t →
          currentTime = t + 300000 →
          ¬ ∃ d ∈ deliveries availabilityResults currentTime (run [] ops),
              d.userId = userId ∧ d.gpuType = gpuType)
      ∧ (∀ t, mapGet data.lastNotified gpuType = some t → currentTime = t + 3600000 →
          gpuType ∈ data.gpuTypes →
          (∃ result, mapGet availabilityResults gpuType = some result
            ∧ result.available = true) →
          ∃ d ∈ deliveries availabilityResults currentTime (run [] ops),
            d.userId = userId ∧ d.gpuType = gpuType) := by
  obtain ⟨hnodup, hstored⟩ := run_stored (fun t => t ≠ 0) ops [] (by simp [mapKeys])
    (by
      intro u d g t h
      simp [mapGet] at h)
    hclock
  have hiff := delivered_iff availabilityResults currentTime (run [] ops) userId gpuType data
    hnodup hdata
  rw [notifiedRecently_eq_false_iff, NOTIFICATION_COOLDOWN_eq] at hiff
  have hset : (∃ t, mapGet data.lastNotified gpuType = some t ∧ t ≠ 0
        ∧ currentTime - t < 3600000) ↔
      ∃ t, mapGet data.lastNotified gpuType = some t ∧ currentTime - t < 3600000 := by
    constructor
    · rintro ⟨t, ht, _, hlt⟩
      exact ⟨t, ht, hlt⟩
    · rintro ⟨t, ht, hlt⟩
      exact ⟨t, ht, hstored userId data gpuType t hdata ht, hlt⟩
  rw [hset] at hiff
  refine ⟨hiff, ?_, ?_⟩
  · intro t ht hnow hdel
    apply (hiff.1 hdel).2.2
    exact ⟨t, ht, by omega⟩
  · intro t ht hnow hmem hres
    apply hiff.2
    refine ⟨hmem, hres, ?_⟩
    rintro ⟨t2, ht2, hlt⟩
    rw [ht] at ht2
    injection ht2 with ht2
    omega

/-- C4 at a concrete input: `u1` subscribes, a dispatch at 1700000000000
notifies it about `L40S`, and a dispatch 300,000 ms later sends nothing to
that pair. -/
theorem notifySubscribers_delivers_iff_witness :
    (∀ earlierResults earlierTime webpush,
        Op.notifySubscribers earlierResults earlierTime webpush ∈
          [Op.addSubscription "u1" { endpoint := "https://push.example/u1" }
             (some ["L40S", "H100-1X"]),
           Op.notifySubscribers
             [("L40S", { available := true, gpuType := "L40S",
                         message := "GPU is available in 1 region(s)", error := none,
                         details := none })]
             1700000000000 (fun _ => .delivered)] → earlierTime ≠ 0)
      ∧ mapGet (run []
          [Op.addSubscription "u1" { endpoint := "https://push.example/u1" }
             (some ["L40S", "H100-1X"]),
           Op.notifySubscribers
             [("L40S", { available := true, gpuType := "L40S",
                         message := "GPU is available in 1 region(s)", error := none,
                         details := none })]
             1700000000000 (fun _ => .delivered)]) "u1"
          = some { subscription := { endpoint := "https://push.example/u1" },
                   gpuTypes := ["L40S", "H100-1X"],
                   lastNotified := [("L40S", 1700000000000)] }
      ∧ ¬ ∃ d ∈ deliveries
            [("L40S", { available := true, gpuType := "L40S",
                        message := "GPU is available in 1 region(s)", error := none,
                        details := none })]
            1700000300000
            (run []
              [Op.addSubscription "u1" { endpoint := "https://push.example/u1" }
                 (some ["L40S", "H100-1X"]),
               Op.notifySubscribers
                 [("L40S", { available := true, gpuType := "L40S",
                             message := "GPU is available in 1 region(s)", error := none,
                             details := none })]
                 1700000000000 (fun _ => .delivered)]),
            d.userId = "u1" ∧ d.gpuType = "L40S" :=
  have hclock : ∀ (earlierResults : List (String × CheckResult)) (earlierTime : Int)
      (webpush : Nat → PushReply),
      Op.notifySubscribers earlierResults earlierTime webpush ∈
        [Op.addSubscription "u1" { endpoint := "https://push.example/u1" }
           (some ["L40S", "H100-1X"]),
         Op.notifySubscribers
           [("L40S", { available := true, gpuType := "L40S",
                       message := "GPU is available in 1 region(s)", error := none,
                       details := none })]
           1700000000000 (fun _ => .delivered)] → earlierTime ≠ 0 := by
    intro earlierResults earlierTime webpush h
    simp only [List.mem_cons, List.mem_singleton, reduceCtorEq, false_or,
      List.not_mem_nil, or_false] at h
    injection h with _ h2 _
    rw [h2]
    decide
  ⟨hclock, by decide,
    (notifySubscribers_delivers_iff
      [Op.addSubscription "u1" { endpoint := "https://push.example/u1" }
         (some ["L40S", "H100-1X"]),
       Op.notifySubscribers
         [("L40S", { available := true, gpuType := "L40S",
                     message := "GPU is available in 1 region(s)", error := none,
                     details := none })]
         1700000000000 (fun _ => .delivered)]
      [("L40S", { available := true, gpuType := "L40S",
                  message := "GPU is available in 1 region(s)", error := none,
                  details := none })]
      1700000300000 "u1" "L40S"
      { subscription := { endpoint := "https://push.example/u1" },
        gpuTypes := ["L40S", "H100-1X"], lastNotified := [("L40S", 1700000000000)] }
      hclock (by decide)).2.1 1700000000000 (by decide) (by decide)⟩

theorem countP_deliveriesFor_other (availabilityResults : List (String × CheckResult))
    (currentTime : Int) (k : String) (data : SubData) (gpuTypes : List String)
    (userId gpuType : String) (hk : k ≠ userId) :
    (deliveriesFor availabilityResults currentTime k data gpuTypes).countP
      (fun d => decide (d.userId = userId ∧ d.gpuType = gpuType)) = 0 := by
  rw [List.countP_eq_zero]
  intro d hd
  have hu := ((mem_deliveriesFor _ _ _ _ _ _).1 hd).1
  simp only [decide_eq_true_eq, not_and]
  intro h
  exact absurd (hu.symm.trans h) hk

theorem countP_deliveriesFor_self (availabilityResults : List (String × CheckResult))
    (currentTime : Int) (userId gpuType : String) (data : SubData) (gpuTypes : List String)
    (result : CheckResult) (hres : mapGet availabilityResults gpuType = some result)
    (hav : result.available = true)
    (hrec : notifiedRecently data.lastNotified currentTime gpuType = false) :
    (deliveriesFor availabilityResults currentTime userId data gpuTypes).countP
      (fun d => decide (d.userId = userId ∧ d.gpuType = gpuType)) =
      gpuTypes.count gpuType := by
  induction gpuTypes with
  | nil => simp [deliveriesFor]
  | cons g rest ih =>
    by_cases hg : g = gpuType
    · subst hg
      rw [deliveriesFor_cons_send _ _ _ _ _ _ _ hres hav hrec, List.countP_cons_of_pos,
        List.count_cons_self, ih]
      simp
    · have hne : (g == gpuType) = false := by simpa using hg
      rw [List.count_cons, hne]
      simp only [Bool.false_eq_true, if_false, Nat.add_zero]
      cases hres2 : mapGet availabilityResults g with
      | none => rw [deliveriesFor_cons_absent _ _ _ _ _ _ hres2, ih]
      | some result2 =>
        cases hav2 : result2.available with
        | false => rw [deliveriesFor_cons_unavailable _ _ _ _ _ _ _ hres2 hav2, ih]
        | true =>
          cases hrec2 : notifiedRecently data.lastNotified currentTime g with
          | true => rw [deliveriesFor_cons_recent _ _ _ _ _ _ _ hres2 hrec2, ih]
          | false =>
            rw [deliveriesFor_cons_send _ _ _ _ _ _ _ hres2 hav2 hrec2,
              List.countP_cons_of_neg, ih]
            simp [hg]

theorem countP_deliveries (availabilityResults : List (String × CheckResult))
    (currentTime : Int) (subscriptions : Subscriptions) (userId gpuType : String)
    (data : SubData) (hnodup : (mapKeys subscriptions).Nodup)
    (hdata : mapGet subscriptions userId = some data) :
    (deliveries availabilityResults currentTime subscriptions).countP
      (fun d => decide (d.userId = userId ∧ d.gpuType = gpuType)) =
      (deliveriesFor availabilityResults currentTime userId data data.gpuTypes).countP
        (fun d => decide (d.userId = userId ∧ d.gpuType = gpuType)) := by
  induction subscriptions with
  | nil => simp [mapGet] at hdata
  | cons kv rest ih =>
    obtain ⟨k, v⟩ := kv
    have hcons : k ∉ mapKeys rest ∧ (mapKeys rest).Nodup := by
      simpa [mapKeys] using hnodup
    simp only [deliveries, List.countP_append]
    by_cases hk : k = userId
    · subst hk
      simp only [mapGet, if_true] at hdata
      injection hdata with hdata
      subst hdata
      have hzero : (deliveries availabilityResults currentTime rest).countP
          (fun d => decide (d.userId = k ∧ d.gpuType = gpuType)) = 0 := by
        rw [List.countP_eq_zero]
        intro d hd
        obtain ⟨data2, hmem, _⟩ := (mem_deliveries _ _ _ _).1 hd
        simp only [decide_eq_true_eq, not_and]
        intro hu
        exfalso
        apply hcons.1
        rw [← hu]
        exact List.mem_map.2 ⟨(d.userId, data2), hmem, rfl⟩
      rw [hzero, Nat.add_zero]
    · simp only [mapGet, if_neg hk] at hdata
      rw [countP_deliveriesFor_other _ _ _ _ _ _ _ hk, Nat.zero_add, ih hcons.2 hdata]

theorem countP_outcomes (webpush : Nat → PushReply) (n : Nat) (ds : List Delivery)
    (userId gpuType : String) :
    ((settleSends webpush n ds).map toOutcome).countP
      (fun o => decide (o.userId = userId ∧ o.gpuType = gpuType)) =
      ds.countP (fun d => decide (d.userId = userId ∧ d.gpuType = gpuType)) := by
  induction ds generalizing n with
  | nil => rfl
  | cons d rest ih =>
    simp only [settleSends, List.map_cons, List.countP_cons, ih (n + 1)]
    rfl

/-- C3 (as stated, refuted): a subscriber whose interest list names `H100-1X`
twice, never notified, gets two deliveries and two outcome entries for
`H100-1X` from one dispatch in which `H100-1X` is available. -/
theorem notifySubscribers_duplicate_interest_two_deliveries :
    (deliveries
        [("H100-1X", { available := true, gpuType := "H100-1X",
                       message := "GPU is available in 1 region(s)", error := none,
                       details := none })]
        1700000000000
        [("u1", { subscription := { endpoint := "https://push.example/u1" },
                  gpuTypes := ["H100-1X", "H100-1X"], lastNotified := [] })]).countP
      (fun d => decide (d.userId = "u1" ∧ d.gpuType = "H100-1X")) = 2
    ∧ (notifySubscribers
        [("u1", { subscription := { endpoint := "https://push.example/u1" },
                  gpuTypes := ["H100-1X", "H100-1X"], lastNotified := [] })]
        [("H100-1X", { available := true, gpuType := "H100-1X",
                       message := "GPU is available in 1 region(s)", error := none,
                       details := none })]
        1700000000000 (fun _ => .delivered)).1.countP
      (fun o => decide (o.userId = "u1" ∧ o.gpuType = "H100-1X")) = 2 := by
  decide

/-- C3 (amended): in a dispatch in which a GPU type has `available = true`, a
subscriber whose `lastNotified` for the type is unset or at least 3,600,000 ms
old gets one delivery for each occurrence of the type in its interest list:
`notifySubscribers` issues that many `sendNotification` calls for the pair and
returns that many outcome entries for it, hence exactly one of each when the
interest list names the type and has no repeated entry. -/
theorem notifySubscribers_deliveries_count
    (availabilityResults : List (String × CheckResult)) (currentTime : Int)
    (webpush : Nat → PushReply) (subscriptions : Subscriptions) (userId gpuType : String)
    (data : SubData) (result : CheckResult)
    (hnodup : (mapKeys subscriptions).Nodup)
    (hdata : mapGet subscriptions userId = some data)
    (hres : mapGet availabilityResults gpuType = some result)
    (hav : result.available = true)
    (hold : mapGet data.lastNotified gpuType = none
      ∨ ∃ t, mapGet data.lastNotified gpuType = some t ∧ currentTime - t ≥ 3600000) :
    (deliveries availabilityResults currentTime subscriptions).countP
        (fun d => decide (d.userId = userId ∧ d.gpuType = gpuType)) = data.gpuTypes.count gpuType
      ∧ (notifySubscribers subscriptions availabilityResults currentTime webpush).1.countP
          (fun o => decide (o.userId = userId ∧ o.gpuType = gpuType)) =
        data.gpuTypes.count gpuType
      ∧ (gpuType ∈ data.gpuTypes → data.gpuTypes.Nodup →
          (deliveries availabilityResults currentTime subscriptions).countP
              (fun d => decide (d.userId = userId ∧ d.gpuType = gpuType)) = 1
            ∧ (notifySubscribers subscriptions availabilityResults currentTime webpush).1.countP
                (fun o => decide (o.userId = userId ∧ o.gpuType = gpuType)) = 1) := by
  have hrec : notifiedRecently data.lastNotified currentTime gpuType = false := by
    rw [notifiedRecently_eq_false_iff, NOTIFICATION_COOLDOWN_eq]
    rintro ⟨t, ht, _, hlt⟩
    rcases hold with h | ⟨t2, ht2, hge⟩
    · rw [h] at ht
      exact absurd ht (by simp)
    · rw [ht] at ht2
      injection ht2 with ht2
      omega
  have h1 : (deliveries availabilityResults currentTime subscriptions).countP
      (fun d => decide (d.userId = userId ∧ d.gpuType = gpuType)) =
      data.gpuTypes.count gpuType := by
    rw [countP_deliveries _ _ _ _ _ data hnodup hdata,
      countP_deliveriesFor_self _ _ _ _ _ _ result hres hav hrec]
  have h2 : (notifySubscribers subscriptions availabilityResults currentTime webpush).1.countP
      (fun o => decide (o.userId = userId ∧ o.gpuType = gpuType)) =
      data.gpuTypes.count gpuType := by
    simp only [notifySubscribers]
    rw [countP_outcomes, h1]
  refine ⟨h1, h2, ?_⟩
  intro hmem hnd
  have hone : data.gpuTypes.count gpuType = 1 := List.count_eq_one_of_mem hnd hmem
  exact ⟨h1.trans hone, h2.trans hone⟩

/-- C3 (amended) at a concrete input: a dispatch exactly 3,600,000 ms after the
recorded notification. -/
theorem notifySubscribers_deliveries_count_witness :
    (mapKeys ([("u1", { subscription := { endpoint := "https://push.example/u1" },
                        gpuTypes := ["L40S", "H100-1X"],
                        lastNotified := [("H100-1X", 1700000000000)] })] : Subscriptions)).Nodup
      ∧ mapGet ([("u1", { subscription := { endpoint := "https://push.example/u1" },
                          gpuTypes := ["L40S", "H100-1X"],
                          lastNotified := [("H100-1X", 1700000000000)] })] : Subscriptions) "u1"
          = some { subscription := { endpoint := "https://push.example/u1" },
                   gpuTypes := ["L40S", "H100-1X"],
                   lastNotified := [("H100-1X", 1700000000000)] }
      ∧ (deliveries
            [("H100-1X", { available := true, gpuType := "H100-1X",
                           message := "GPU is available in 1 region(s)", error := none,
                           details := none })]
            1700003600000
            [("u1", { subscription := { endpoint := "https://push.example/u1" },
                      gpuTypes := ["L40S", "H100-1X"],
                      lastNotified := [("H100-1X", 1700000000000)] })]).countP
          (fun d => decide (d.userId = "u1" ∧ d.gpuType = "H100-1X")) =
        List.count "H100-1X" ["L40S", "H100-1X"] :=
  ⟨by decide, by decide,
    (notifySubscribers_deliveries_count
      [("H100-1X", { available := true, gpuType := "H100-1X",
                     message := "GPU is available in 1 region(s)", error := none,
                     details := none })]
      1700003600000 (fun _ => .delivered)
      [("u1", { subscription := { endpoint := "https://push.example/u1" },
                gpuTypes := ["L40S", "H100-1X"],
                lastNotified := [("H100-1X", 1700000000000)] })]
      "u1" "H100-1X"
      { subscription := { endpoint := "https://push.example/u1" },
        gpuTypes := ["L40S", "H100-1X"], lastNotified := [("H100-1X", 1700000000000)] }
      { available := true, gpuType := "H100-1X",
        message := "GPU is available in 1 region(s)", error := none, details := none }
      (by decide) (by decide) (by decide) (by decide)
      (Or.inr ⟨1700000000000, by decide, by decide⟩)).1⟩

theorem exists_data_of_delivered (availabilityResults : List (String × CheckResult))
    (currentTime : Int) (subscriptions : Subscriptions) (userId gpuType : String)
    (hnodup : (mapKeys subscriptions).Nodup)
    (hdel : ∃ d ∈ deliveries availabilityResults currentTime subscriptions,
      d.userId = userId ∧ d.gpuType = gpuType) :
    ∃ data, mapGet subscriptions userId = some data := by
  obtain ⟨d, hd, hu, _⟩ := hdel
  obtain ⟨data, hmem, _⟩ := (mem_deliveries _ _ _ _).1 hd
  exact ⟨data, hu ▸ mapGet_of_mem _ _ _ hnodup hmem⟩

theorem delivered_cooldown (availabilityResults : List (String × CheckResult))
    (currentTime : Int) (subscriptions : Subscriptions) (userId gpuType : String)
    (data : SubData) (t : Int) (hnodup : (mapKeys subscriptions).Nodup)
    (hdata : mapGet subscriptions userId = some data)
    (ht : mapGet data.lastNotified gpuType = some t) (h0 : t ≠ 0)
    (hdel : ∃ d ∈ deliveries availabilityResults currentTime subscriptions,
      d.userId = userId ∧ d.gpuType = gpuType) :
    currentTime - t ≥ 3600000 := by
  have h := ((delivered_iff _ _ _ _ _ data hnodup hdata).1 hdel).2.2
  rw [notifiedRecently_eq_false_iff, NOTIFICATION_COOLDOWN_eq] at h
  by_contra hlt
  exact h ⟨t, ht, h0, by omega⟩

theorem step_keeps_cooldown (t1 : Int) (subscriptions : Subscriptions) (op : Op)
    (userId gpuType : String) (hnodup : (mapKeys subscriptions).Nodup)
    (hs : ∀ data, mapGet subscriptions userId = some data →
      ∃ t, mapGet data.lastNotified gpuType = some t ∧ (t ≠ 0 ∧ t1 ≤ t))
    (hadd : ∀ subscription gpuTypes, op ≠ .addSubscription userId subscription gpuTypes)
    (hclock : ∀ availabilityResults currentTime webpush,
      op = .notifySubscribers availabilityResults currentTime webpush → currentTime ≠ 0) :
    ∀ data, mapGet (step subscriptions op) userId = some data →
      ∃ t, mapGet data.lastNotified gpuType = some t ∧ (t ≠ 0 ∧ t1 ≤ t) := by
  cases op with
  | addSubscription u subscription gpuTypes =>
    have hu : u ≠ userId := by
      intro hu
      exact hadd subscription gpuTypes (by rw [hu])
    intro data hdata
    simp only [step, addSubscription] at hdata
    rw [mapGet_mapSet_ne _ _ _ _ hu] at hdata
    exact hs data hdata
  | updateSubscriptionGpuTypes u gpuTypes =>
    intro data hdata
    simp only [step, updateSubscriptionGpuTypes] at hdata
    cases hget : mapGet subscriptions u with
    | none =>
      rw [hget] at hdata
      exact hs data hdata
    | some sub =>
      rw [hget] at hdata
      simp only at hdata
      by_cases hu : u = userId
      · rw [hu, mapGet_mapSet_same] at hdata
        injection hdata with hdata
        subst hdata
        exact hs sub (hu ▸ hget)
      · rw [mapGet_mapSet_ne _ _ _ _ hu] at hdata
        exact hs data hdata
  | removeSubscription u =>
    intro data hdata
    simp only [step, removeSubscription] at hdata
    by_cases hu : u = userId
    · rw [hu, mapGet_mapDelete_same _ _ hnodup] at hdata
      exact absurd hdata (by simp)
    · rw [mapGet_mapDelete_ne _ _ _ hu] at hdata
      exact hs data hdata
  | notifySubscribers availabilityResults currentTime webpush =>
    have hnow : currentTime ≠ 0 := hclock _ _ _ rfl
    apply recordAll_keeps (fun t => t ≠ 0 ∧ t1 ≤ t) currentTime userId gpuType _ _ hs
    intro x hx hu hg
    refine ⟨hnow, ?_⟩
    have hd : x.1 ∈ deliveries availabilityResults currentTime subscriptions :=
      fst_mem_of_mem_settleSends webpush 0 _ x.1 x.2 hx
    have hdel : ∃ d ∈ deliveries availabilityResults currentTime subscriptions,
        d.userId = userId ∧ d.gpuType = gpuType := ⟨x.1, hd, hu, hg⟩
    obtain ⟨data, hdata⟩ := exists_data_of_delivered _ _ _ _ _ hnodup hdel
    obtain ⟨t, ht, h0, hle⟩ := hs data hdata
    have := delivered_cooldown _ _ _ _ _ data t hnodup hdata ht h0 hdel
    omega

theorem run_keeps_cooldown (t1 : Int) (ops : List Op) (subscriptions : Subscriptions)
    (userId gpuType : String) (hnodup : (mapKeys subscriptions).Nodup)
    (hs : ∀ data, mapGet subscriptions userId = some data →
      ∃ t, mapGet data.lastNotified gpuType = some t ∧ (t ≠ 0 ∧ t1 ≤ t))
    (hadd : ∀ subscription gpuTypes, Op.addSubscription userId subscription gpuTypes ∉ ops)
    (hclock : ∀ availabilityResults currentTime webpush,
      Op.notifySubscribers availabilityResults currentTime webpush ∈ ops → currentTime ≠ 0) :
    (mapKeys (run subscriptions ops)).Nodup
      ∧ ∀ data, mapGet (run subscriptions ops) userId = some data →
          ∃ t, mapGet data.lastNotified gpuType = some t ∧ (t ≠ 0 ∧ t1 ≤ t) := by
  induction ops generalizing subscriptions with
  | nil => exact ⟨hnodup, hs⟩
  | cons op rest ih =>
    apply ih (step subscriptions op) (nodup_step _ _ hnodup)
    · apply step_keeps_cooldown t1 _ _ _ _ hnodup hs
      · intro subscription gpuTypes heq
        exact hadd subscription gpuTypes (heq ▸ List.mem_cons_self _ _)
      · intro availabilityResults currentTime webpush heq
        exact hclock availabilityResults currentTime webpush (heq ▸ List.mem_cons_self _ _)
    · intro subscription gpuTypes hmem
      exact hadd subscription gpuTypes (List.mem_cons_of_mem _ hmem)
    · intro availabilityResults currentTime webpush hmem
      exact hclock availabilityResults currentTime webpush (List.mem_cons_of_mem _ hmem)

/-- C2 (as stated, refuted): `u1` subscribes, a dispatch at time 1700000000000
notifies it about `L40S` and records that time, `u1` subscribes again (which
stores an empty `lastNotified`), and the dispatch 300,000 ms later notifies it
about `L40S` again and records the new time: two notifications for one pair,
and two consecutive values of `lastNotified`, less than the cooldown apart. -/
theorem resubscribe_renotifies_within_cooldown :
    (∃ d ∈ deliveries
        [("L40S", { available := true, gpuType := "L40S",
                    message := "GPU is available in 1 region(s)", error := none,
                    details := none })]
        1700000000000
        (run [] [.addSubscription "u1" { endpoint := "https://push.example/u1" } none]),
      d.userId = "u1" ∧ d.gpuType = "L40S")
    ∧ (mapGet (run []
          [.addSubscription "u1" { endpoint := "https://push.example/u1" } none,
           .notifySubscribers
             [("L40S", { available := true, gpuType := "L40S",
                         message := "GPU is available in 1 region(s)", error := none,
                         details := none })]
             1700000000000 (fun _ => .delivered)]) "u1").bind
        (fun data => mapGet data.lastNotified "L40S") = some 1700000000000
    ∧ (∃ d ∈ deliveries
        [("L40S", { available := true, gpuType := "L40S",
                    message := "GPU is available in 1 region(s)", error := none,
                    details := none })]
        1700000300000
        (run []
          [.addSubscription "u1" { endpoint := "https://push.example/u1" } none,
           .notifySubscribers
             [("L40S", { available := true, gpuType := "L40S",
                         message := "GPU is available in 1 region(s)", error := none,
                         details := none })]
             1700000000000 (fun _ => .delivered),
           .addSubscription "u1" { endpoint := "https://push.example/u1" } none]),
      d.userId = "u1" ∧ d.gpuType = "L40S")
    ∧ (mapGet (run []
          [.addSubscription "u1" { endpoint := "https://push.example/u1" } none,
           .notifySubscribers
             [("L40S", { available := true, gpuType := "L40S",
                         message := "GPU is available in 1 region(s)", error := none,
                         details := none })]
             1700000000000 (fun _ => .delivered),
           .addSubscription "u1" { endpoint := "https://push.example/u1" } none,
           .notifySubscribers
             [("L40S", { available := true, gpuType := "L40S",
                         message := "GPU is available in 1 region(s)", error := none,
                         details := none })]
             1700000300000 (fun _ => .delivered)]) "u1").bind
        (fun data => mapGet data.lastNotified "L40S") = some 1700000300000
    ∧ (1700000300000 : Int) - 1700000000000 < NOTIFICATION_COOLDOWN := by
  decide

/-- C2 (amended): for every subscriber and GPU type, whenever a dispatch records
a notification for a (subscriber, gpuType) pair (its callback writes
`lastNotified[gpuType]`) and a later dispatch issues a notification for the same
pair, the later dispatch time is at least the cooldown (3,600,000 ms) after the
earlier one, over any sequence of registry operations and dispatches between
them in which the subscriber is not registered again by `addSubscription`, the
dispatch clock never reading 0 up to the later dispatch. -/
theorem notifications_cooldown_apart (subscriptions : Subscriptions)
    (results1 : List (String × CheckResult)) (t1 : Int) (webpush1 : Nat → PushReply)
    (between : List Op) (results2 : List (String × CheckResult)) (t2 : Int)
    (userId gpuType : String)
    (hnodup : (mapKeys subscriptions).Nodup)
    (ht1 : t1 ≠ 0)
    (hadd : ∀ subscription gpuTypes,
      Op.addSubscription userId subscription gpuTypes ∉ between)
    (hclock : ∀ availabilityResults currentTime webpush,
      Op.notifySubscribers availabilityResults currentTime webpush ∈ between →
        currentTime ≠ 0)
    (hfirst : ∃ x ∈ settleSends webpush1 0 (deliveries results1 t1 subscriptions),
      x.1.userId = userId ∧ x.1.gpuType = gpuType ∧ x.2.truthy = true)
    (hsecond : ∃ d ∈ deliveries results2 t2
        (run subscriptions (.notifySubscribers results1 t1 webpush1 :: between)),
      d.userId = userId ∧ d.gpuType = gpuType) :
    t2 - t1 ≥ 3600000 := by
  have hrun : run subscriptions (.notifySubscribers results1 t1 webpush1 :: between) =
      run (step subscriptions (.notifySubscribers results1 t1 webpush1)) between := rfl
  rw [hrun] at hsecond
  have hnodup1 := nodup_step subscriptions (.notifySubscribers results1 t1 webpush1) hnodup
  have hset : ∀ data,
      mapGet (step subscriptions (.notifySubscribers results1 t1 webpush1)) userId = some data →
      ∃ t, mapGet data.lastNotified gpuType = some t ∧ (t ≠ 0 ∧ t1 ≤ t) := by
    intro data hdata
    obtain ⟨x, hmem, hu, hg, _⟩ := hfirst
    have hwritten := recordAll_sets t1 userId gpuType
      (settleSends webpush1 0 (deliveries results1 t1 subscriptions)) subscriptions
      ⟨x, hmem, hu, hg⟩ data hdata
    exact ⟨t1, hwritten, ht1, le_refl _⟩
  obtain ⟨hnodup2, hinv⟩ := run_keeps_cooldown t1 between _ userId gpuType hnodup1 hset
    hadd hclock
  obtain ⟨data, hdata⟩ := exists_data_of_delivered _ _ _ _ _ hnodup2 hsecond
  obtain ⟨t, ht, h0, hle⟩ := hinv data hdata
  have := delivered_cooldown _ _ _ _ _ data t hnodup2 hdata ht h0 hsecond
  omega

/-- C2 (amended) at a concrete input: a recorded notification, then an interest
update, another subscriber and a dispatch inside the cooldown, then a dispatch
3,600,000 ms after the first. -/
theorem notifications_cooldown_apart_witness :
    (mapKeys ([("u1", { subscription := { endpoint := "https://push.example/u1" },
                        gpuTypes := ["L40S"], lastNotified := [] })] : Subscriptions)).Nodup
      ∧ (1700000000000 : Int) ≠ 0
      ∧ (∃ x ∈ settleSends (fun _ => .delivered) 0
            (deliveries
              [("L40S", { available := true, gpuType := "L40S",
                          message := "GPU is available in 1 region(s)", error := none,
                          details := none })]
              1700000000000
              [("u1", { subscription := { endpoint := "https://push.example/u1" },
                        gpuTypes := ["L40S"], lastNotified := [] })]),
          x.1.userId = "u1" ∧ x.1.gpuType = "L40S" ∧ x.2.truthy = true)
      ∧ (∃ d ∈ deliveries
            [("L40S", { available := true, gpuType := "L40S",
                        message := "GPU is available in 1 region(s)", error := none,
                        details := none })]
            1700003600000
            (run [("u1", { subscription := { endpoint := "https://push.example/u1" },
                           gpuTypes := ["L40S"], lastNotified := [] })]
              [.notifySubscribers
                 [("L40S", { available := true, gpuType := "L40S",
                             message := "GPU is available in 1 region(s)", error := none,
                             details := none })]
                 1700000000000 (fun _ => .delivered),
               .updateSubscriptionGpuTypes "u1" ["L40S", "H100-1X"],
               .addSubscription "u2" { endpoint := "https://push.example/u2" } none,
               .notifySubscribers
                 [("L40S", { available := true, gpuType := "L40S",
                             message := "GPU is available in 1 region(s)", error := none,
                             details := none })]
                 1700000100000 (fun _ => .delivered)]),
          d.userId = "u1" ∧ d.gpuType = "L40S")
      ∧ (1700003600000 : Int) - 1700000000000 ≥ 3600000 :=
  ⟨by decide, by decide, by decide, by decide,
    notifications_cooldown_apart
      [("u1", { subscription := { endpoint := "https://push.example/u1" },
                gpuTypes := ["L40S"], lastNotified := [] })]
      [("L40S", { available := true, gpuType := "L40S",
                  message := "GPU is available in 1 region(s)", error := none,
                  details := none })]
      1700000000000 (fun _ => .delivered)
      [.updateSubscriptionGpuTypes "u1" ["L40S", "H100-1X"],
       .addSubscription "u2" { endpoint := "https://push.example/u2" } none,
       .notifySubscribers
         [("L40S", { available := true, gpuType := "L40S",
                     message := "GPU is available in 1 region(s)", error := none,
                     details := none })]
         1700000100000 (fun _ => .delivered)]
      [("L40S", { available := true, gpuType := "L40S",
                  message := "GPU is available in 1 region(s)", error := none,
                  details := none })]
      1700003600000 "u1" "L40S"
      (by decide) (by decide)
      (by
        intro subscription gpuTypes h
        simp at h)
      (by
        intro availabilityResults currentTime webpush h
        simp only [List.mem_cons, List.mem_singleton, reduceCtorEq, false_or,
          List.not_mem_nil, or_false] at h
        injection h with _ h2 _
        rw [h2]
        decide)
      (by decide) (by decide)⟩

theorem nodup_run (ops : List Op) (subscriptions : Subscriptions)
    (h : (mapKeys subscriptions).Nodup) : (mapKeys (run subscriptions ops)).Nodup := by
  induction ops generalizing subscriptions with
  | nil => exact h
  | cons op rest ih => exact ih _ (nodup_step _ _ h)

/-! ## The sweep -/

theorem checkGpuAvailability_rejected (REGIONS_TO_CHECK : List String) (gpuType : String)
    (message : Option String) (gpuConfig : GpuConfig)
    (h : mapGet GPU_TYPES gpuType = some gpuConfig) :
    checkGpuAvailability REGIONS_TO_CHECK gpuType (.rejected message) =
      .ok { available := false, gpuType := gpuType,
            message := match message with
              | some m => if m != "" then m else "Request failed"
              | none => "Request failed",
            error := some "request_failed",
            details := some { size := gpuConfig.size, image := gpuConfig.image,
                              regions := none } } := by
  unfold checkGpuAvailability
  simp only [h]
  cases message <;> rfl

/-- C11: for every known GPU type, when the provider call rejects,
`checkGpuAvailability` does not throw: it returns `available = false` with
`error = request_failed`, and its message is the message of the failure, or
`Request failed` when that message is empty or absent. -/
theorem checkGpuAvailability_request_failed (REGIONS_TO_CHECK : List String)
    (gpuType : String) (message : Option String)
    (hknown : gpuType ∈ mapKeys GPU_TYPES) :
    ∃ r, checkGpuAvailability REGIONS_TO_CHECK gpuType (.rejected message) = .ok r
      ∧ r.available = false ∧ r.error = some "request_failed"
      ∧ (∀ m, message = some m → m ≠ "" → r.message = m)
      ∧ ((message = none ∨ message = some "") → r.message = "Request failed") := by
  obtain ⟨gpuConfig, hcfg⟩ := mapGet_of_mem_mapKeys GPU_TYPES gpuType hknown
  refine ⟨_, checkGpuAvailability_rejected _ _ _ _ hcfg, rfl, rfl, ?_, ?_⟩
  · intro m hm hne
    subst hm
    simp [hne]
  · rintro (h | h) <;> subst h <;> simp

/-- C11 at a concrete input: `H100-8X` and a provider call failing with the
message `timeout of 5000ms exceeded`. -/
theorem checkGpuAvailability_request_failed_witness :
    "H100-8X" ∈ mapKeys GPU_TYPES
      ∧ ∃ r, checkGpuAvailability ["nyc1"] "H100-8X"
          (.rejected (some "timeout of 5000ms exceeded")) = .ok r
        ∧ r.available = false ∧ r.error = some "request_failed"
        ∧ (∀ m, some "timeout of 5000ms exceeded" = some m → m ≠ "" → r.message = m)
        ∧ ((some "timeout of 5000ms exceeded" = none
            ∨ some "timeout of 5000ms exceeded" = some "") → r.message = "Request failed") :=
  ⟨by decide,
    checkGpuAvailability_request_failed ["nyc1"] "H100-8X"
      (some "timeout of 5000ms exceeded") (by decide)⟩

theorem checkGpuAvailability_gpuType (REGIONS_TO_CHECK : List String) (gpuType : String)
    (reply : ProviderReply) (r : CheckResult)
    (h : checkGpuAvailability REGIONS_TO_CHECK gpuType reply = .ok r) : r.gpuType = gpuType := by
  cases hcfg : mapGet GPU_TYPES gpuType with
  | none =>
    unfold checkGpuAvailability at h
    simp [hcfg] at h
  | some gpuConfig =>
    cases reply with
    | rejected message =>
      rw [checkGpuAvailability_rejected _ _ _ _ hcfg] at h
      injection h with h
      subst h
      rfl
    | resolved data =>
      cases data with
      | missing =>
        unfold checkGpuAvailability at h
        simp only [hcfg] at h
        injection h with h
        subst h
        rfl
      | body capacities =>
        cases capacities with
        | missing =>
          unfold checkGpuAvailability at h
          simp only [hcfg] at h
          injection h with h
          subst h
          rfl
        | notArray =>
          unfold checkGpuAvailability at h
          simp only [hcfg] at h
          injection h with h
          subst h
          rfl
        | array entries =>
          rw [checkGpuAvailability_array _ _ _ _ hcfg] at h
          split at h
          · injection h with h; subst h; rfl
          · split at h
            · injection h with h; subst h; rfl
            · split at h
              · injection h with h; subst h; rfl
              · injection h with h; subst h; rfl

theorem recordProbe_gpuType (REGIONS_TO_CHECK : List String) (gpuType : String)
    (reply : ProviderReply) :
    (recordProbe gpuType (checkGpuAvailability REGIONS_TO_CHECK gpuType reply)).gpuType =
      gpuType := by
  cases h : checkGpuAvailability REGIONS_TO_CHECK gpuType reply with
  | error message => rfl
  | ok r => exact checkGpuAvailability_gpuType _ _ _ r h

theorem sweepLoop_GPU_TYPES (probe : Nat → String → Except String CheckResult) :
    sweepLoop probe 0 (mapKeys GPU_TYPES) [] =
      [("L40S", recordProbe "L40S" (probe 0 "L40S")),
       ("H100-1X", recordProbe "H100-1X" (probe 1 "H100-1X")),
       ("H100-8X", recordProbe "H100-8X" (probe 2 "H100-8X"))] := by
  rfl

/-- C12: a sweep probes the keys of `GPU_TYPES` one after the other in the
order of the configuration, the `n`-th request of the sweep being the one for
the `n`-th key, and returns a map with exactly those keys in that order; the
entry of a type is what its own probe gave, whatever the other probes did
(errored result or thrown exception, which the loop turns into a
`check_failed` entry of that type), and every entry carries its own
`gpuType`. -/
theorem checkAllGpuAvailability_probes_each_type (REGIONS_TO_CHECK : List String)
    (provider : Nat → ProviderReply) (probe : Nat → String → Except String CheckResult) :
    checkAllGpuAvailability REGIONS_TO_CHECK provider =
        [("L40S", recordProbe "L40S"
            (checkGpuAvailability REGIONS_TO_CHECK "L40S" (provider 0))),
         ("H100-1X", recordProbe "H100-1X"
            (checkGpuAvailability REGIONS_TO_CHECK "H100-1X" (provider 1))),
         ("H100-8X", recordProbe "H100-8X"
            (checkGpuAvailability REGIONS_TO_CHECK "H100-8X" (provider 2)))]
      ∧ mapKeys (checkAllGpuAvailability REGIONS_TO_CHECK provider) = mapKeys GPU_TYPES
      ∧ (∀ gpuType r, mapGet (checkAllGpuAvailability REGIONS_TO_CHECK provider) gpuType = some r →
          r.gpuType = gpuType)
      ∧ sweepLoop probe 0 (mapKeys GPU_TYPES) [] =
          [("L40S", recordProbe "L40S" (probe 0 "L40S")),
           ("H100-1X", recordProbe "H100-1X" (probe 1 "H100-1X")),
           ("H100-8X", recordProbe "H100-8X" (probe 2 "H100-8X"))]
      ∧ (∀ gpuType message,
          recordProbe gpuType (.error message) =
            { available := false, gpuType := gpuType, message := message,
              error := some "check_failed", details := none }) := by
  have hall : checkAllGpuAvailability REGIONS_TO_CHECK provider =
      [("L40S", recordProbe "L40S"
          (checkGpuAvailability REGIONS_TO_CHECK "L40S" (provider 0))),
       ("H100-1X", recordProbe "H100-1X"
          (checkGpuAvailability REGIONS_TO_CHECK "H100-1X" (provider 1))),
       ("H100-8X", recordProbe "H100-8X"
          (checkGpuAvailability REGIONS_TO_CHECK "H100-8X" (provider 2)))] :=
    sweepLoop_GPU_TYPES _
  refine ⟨hall, ?_, ?_, sweepLoop_GPU_TYPES probe, fun _ _ => rfl⟩
  · rw [hall]; rfl
  · intro gpuType r hr
    rw [hall] at hr
    simp only [mapGet] at hr
    split at hr
    · injection hr with hr
      subst hr
      rename_i hk
      rw [← hk]
      exact recordProbe_gpuType _ _ _
    · split at hr
      · injection hr with hr
        subst hr
        rename_i hk
        rw [← hk]
        exact recordProbe_gpuType _ _ _
      · split at hr
        · injection hr with hr
          subst hr
          rename_i hk
          rw [← hk]
          exact recordProbe_gpuType _ _ _
        · exact absurd hr (by simp)

/-! ## The scheduler -/

theorem availableGpus_length_pos_iff (results : List (String × CheckResult)) :
    (availableGpus results).length > 0 ↔ ∃ entry ∈ results, entry.2.available = true := by
  unfold availableGpus
  rw [List.length_map]
  constructor
  · intro h
    obtain ⟨entry, hentry⟩ := List.exists_mem_of_length_pos h
    rw [List.mem_filter] at hentry
    exact ⟨entry, hentry.1, hentry.2⟩
  · rintro ⟨entry, hmem, hav⟩
    exact List.length_pos_of_mem (List.mem_filter.2 ⟨hmem, hav⟩)

theorem checkAvailabilityWith_busy (statusStore : StatusStore)
    (sweep : Except String (List (String × CheckResult))) (now : Int)
    (dispatch : List (String × CheckResult) → Except String Unit)
    (hbusy : statusStore.isChecking = true) :
    checkAvailabilityWith statusStore sweep now dispatch =
      .ok { statusStore := statusStore, sweepStarted := false, notified := none } := by
  simp [checkAvailabilityWith, checkAvailabilityStart, hbusy]

theorem checkAvailabilityWith_idle (statusStore : StatusStore)
    (results : List (String × CheckResult)) (now : Int)
    (dispatch : List (String × CheckResult) → Except String Unit)
    (hidle : statusStore.isChecking = false) :
    checkAvailabilityWith statusStore (.ok results) now dispatch =
      if (availableGpus results).length > 0 then
        .ok { statusStore := checkAvailabilityAfterNotify
                { lastCheck := some now, results := results, isChecking := true, error := none }
                (dispatch results),
              sweepStarted := true, notified := some results }
      else
        .ok { statusStore :=
                { lastCheck := some now, results := results, isChecking := false,
                  error := none },
              sweepStarted := true, notified := none } := by
  by_cases h : (availableGpus results).length > 0
  · simp [checkAvailabilityWith, checkAvailabilityStart, checkAvailabilityAfterSweep, hidle, h]
  · simp [checkAvailabilityWith, checkAvailabilityStart, checkAvailabilityAfterSweep, hidle, h]

theorem checkAvailability_idle (REGIONS_TO_CHECK : List String) (provider : Nat → ProviderReply)
    (now currentTime : Int) (webpush : Nat → PushReply) (system : System)
    (hidle : system.statusStore.isChecking = false) :
    checkAvailability REGIONS_TO_CHECK provider now currentTime webpush system =
      if (availableGpus (checkAllGpuAvailability REGIONS_TO_CHECK provider)).length > 0 then
        .ok ({ statusStore :=
                 { lastCheck := some now,
                   results := checkAllGpuAvailability REGIONS_TO_CHECK provider,
                   isChecking := false, error := none },
               subscriptions :=
                 (notifySubscribers system.subscriptions
                   (checkAllGpuAvailability REGIONS_TO_CHECK provider) currentTime webpush).2 },
             { statusStore :=
                 { lastCheck := some now,
                   results := checkAllGpuAvailability REGIONS_TO_CHECK provider,
                   isChecking := false, error := none },
               sweepStarted := true,
               notified := some (checkAllGpuAvailability REGIONS_TO_CHECK provider) })
      else
        .ok ({ statusStore :=
                 { lastCheck := some now,
                   results := checkAllGpuAvailability REGIONS_TO_CHECK provider,
                   isChecking := false, error := none },
               subscriptions := system.subscriptions },
             { statusStore :=
                 { lastCheck := some now,
                   results := checkAllGpuAvailability REGIONS_TO_CHECK provider,
                   isChecking := false, error := none },
               sweepStarted := true, notified := none }) := by
  unfold checkAvailability
  rw [checkAvailabilityWith_idle _ _ _ _ hidle]
  by_cases h : (availableGpus (checkAllGpuAvailability REGIONS_TO_CHECK provider)).length > 0
  · simp only [h, if_true, checkAvailabilityAfterNotify]
  · simp only [h, if_false]

theorem checkAvailability_busy (REGIONS_TO_CHECK : List String) (provider : Nat → ProviderReply)
    (now currentTime : Int) (webpush : Nat → PushReply) (system : System)
    (hbusy : system.statusStore.isChecking = true) :
    checkAvailability REGIONS_TO_CHECK provider now currentTime webpush system =
      .ok (system,
           { statusStore := system.statusStore, sweepStarted := false, notified := none }) := by
  unfold checkAvailability
  rw [checkAvailabilityWith_busy _ _ _ _ hbusy]

/-- C13: a call of `checkAvailability` made while `statusStore.isChecking` is
true, by the timer or through `POST /check-now`, returns at once: it calls
neither `checkAllGpuAvailability` nor `notifySubscribers`, whatever these
would do, and leaves the status store and the subscription registry as they
were. -/
theorem checkAvailability_noop_while_checking (REGIONS_TO_CHECK : List String)
    (provider : Nat → ProviderReply) (now currentTime : Int) (webpush : Nat → PushReply)
    (system : System) (hbusy : system.statusStore.isChecking = true) :
    checkAvailabilityStart system.statusStore = (system.statusStore, false)
      ∧ (∀ sweep dispatch,
          checkAvailabilityWith system.statusStore sweep now dispatch =
            .ok { statusStore := system.statusStore, sweepStarted := false,
                  notified := none })
      ∧ checkAvailability REGIONS_TO_CHECK provider now currentTime webpush system =
          .ok (system,
               { statusStore := system.statusStore, sweepStarted := false, notified := none })
      ∧ (checkNow REGIONS_TO_CHECK provider now currentTime webpush system).2 = system := by
  refine ⟨by simp [checkAvailabilityStart, hbusy],
    fun sweep dispatch => checkAvailabilityWith_busy _ sweep now dispatch hbusy,
    checkAvailability_busy _ _ _ _ _ _ hbusy, ?_⟩
  unfold checkNow
  rw [checkAvailability_busy _ _ _ _ _ _ hbusy]

/-- C13 at a concrete input: a store with a sweep in flight and one subscriber. -/
theorem checkAvailability_noop_while_checking_witness :
    (({ statusStore := { lastCheck := some 1700000000000, results := [], isChecking := true,
                         error := none },
        subscriptions := [("u1", { subscription := { endpoint := "https://push.example/u1" },
                                   gpuTypes := ["L40S"], lastNotified := [] })] } :
        System).statusStore.isChecking = true)
      ∧ checkAvailabilityStart
          { lastCheck := some 1700000000000, results := [], isChecking := true, error := none } =
        ({ lastCheck := some 1700000000000, results := [], isChecking := true, error := none },
         false) :=
  ⟨rfl,
    (checkAvailability_noop_while_checking ["nyc1"]
      (fun _ => .resolved (.body (.array [⟨.string "nyc1", .string "HIGH"⟩])))
      1700000100000 1700000100001 (fun _ => .delivered)
      { statusStore := { lastCheck := some 1700000000000, results := [], isChecking := true,
                         error := none },
        subscriptions := [("u1", { subscription := { endpoint := "https://push.example/u1" },
                                   gpuTypes := ["L40S"], lastNotified := [] })] }
      rfl).1⟩

/-- C14 (as stated, refuted): a sweep completed at time 1700000000000 found
nothing available; the next sweep is in flight and will find `L40S` available.
A `POST /check-now` arriving now neither runs a sweep nor waits for the one in
flight: it answers with `isChecking = true` and the outcome of the sweep that
completed before the request arrived. -/
theorem checkNow_while_checking_returns_earlier_sweep :
    checkAvailabilityStart
        { lastCheck := some 1700000000000,
          results := [("L40S", { available := false, gpuType := "L40S",
                                 message := "No capacity information available for specified regions",
                                 error := some "no_regions", details := none })],
          isChecking := false, error := none } =
      ({ lastCheck := some 1700000000000,
         results := [("L40S", { available := false, gpuType := "L40S",
                                message := "No capacity information available for specified regions",
                                error := some "no_regions", details := none })],
         isChecking := true, error := none }, true)
    ∧ (checkNow ["nyc1"]
        (fun _ => .resolved (.body (.array [⟨.string "nyc1", .string "HIGH"⟩])))
        1700000100000 1700000100001 (fun _ => .delivered)
        { statusStore :=
            { lastCheck := some 1700000000000,
              results := [("L40S", { available := false, gpuType := "L40S",
                                     message := "No capacity information available for specified regions",
                                     error := some "no_regions", details := none })],
              isChecking := true, error := none },
          subscriptions := [] }).1 =
      .json { lastCheck := some 1700000000000,
              results := [("L40S", { available := false, gpuType := "L40S",
                                     message := "No capacity information available for specified regions",
                                     error := some "no_regions", details := none })],
              isChecking := true, error := none,
              nextCheckAt := some 1700000100000 }
    ∧ (mapGet (checkAllGpuAvailability ["nyc1"]
          (fun _ => .resolved (.body (.array [⟨.string "nyc1", .string "HIGH"⟩])))) "L40S").map
        (fun r => r.available) = some true := by
  decide

/-- C14 (amended): `POST /check-now` awaits `checkAvailability` and answers with
`getStatus()`. When no sweep is in flight it runs a sweep and the status it
returns is the outcome of that sweep, stored at its completion time, with
`isChecking = false`; when a sweep is in flight it does not join it: it answers
at once with the stored status, `isChecking = true`, and changes nothing. -/
theorem checkNow_runs_sweep_or_returns_stored (REGIONS_TO_CHECK : List String)
    (provider : Nat → ProviderReply) (now currentTime : Int) (webpush : Nat → PushReply)
    (system : System) :
    (system.statusStore.isChecking = false →
        (checkNow REGIONS_TO_CHECK provider now currentTime webpush system).1 =
          .json { lastCheck := some now,
                  results := checkAllGpuAvailability REGIONS_TO_CHECK provider,
                  isChecking := false, error := none,
                  nextCheckAt := some (now + CHECK_INTERVAL) }
        ∧ (checkNow REGIONS_TO_CHECK provider now currentTime webpush system).2.statusStore =
          { lastCheck := some now,
            results := checkAllGpuAvailability REGIONS_TO_CHECK provider,
            isChecking := false, error := none })
      ∧ (system.statusStore.isChecking = true →
          checkNow REGIONS_TO_CHECK provider now currentTime webpush system =
            (.json (getStatus system.statusStore), system)
          ∧ (getStatus system.statusStore).isChecking = true) := by
  constructor
  · intro hidle
    unfold checkNow
    rw [checkAvailability_idle _ _ _ _ _ _ hidle]
    by_cases h : (availableGpus (checkAllGpuAvailability REGIONS_TO_CHECK provider)).length > 0
    · rw [if_pos h]
      exact ⟨rfl, rfl⟩
    · rw [if_neg h]
      exact ⟨rfl, rfl⟩
  · intro hbusy
    unfold checkNow
    rw [checkAvailability_busy _ _ _ _ _ _ hbusy]
    exact ⟨rfl, hbusy⟩

/-- C14 (amended) at a concrete input: a trigger on the initial store. -/
theorem checkNow_runs_sweep_or_returns_stored_witness :
    initialStatusStore.isChecking = false
      ∧ (checkNow ["nyc1"]
          (fun _ => .resolved (.body (.array [⟨.string "nyc1", .string "LOW"⟩])))
          1700000100000 1700000100001 (fun _ => .delivered)
          { statusStore := initialStatusStore, subscriptions := [] }).1 =
        .json { lastCheck := some 1700000100000,
                results := checkAllGpuAvailability ["nyc1"]
                  (fun _ => .resolved (.body (.array [⟨.string "nyc1", .string "LOW"⟩]))),
                isChecking := false, error := none,
                nextCheckAt := some (1700000100000 + CHECK_INTERVAL) } :=
  ⟨rfl,
    ((checkNow_runs_sweep_or_returns_stored ["nyc1"]
      (fun _ => .resolved (.body (.array [⟨.string "nyc1", .string "LOW"⟩])))
      1700000100000 1700000100001 (fun _ => .delivered)
      { statusStore := initialStatusStore, subscriptions := [] }).1 rfl).1⟩

/-- C15 (as stated, refuted): the previous sweep, completed at 1700000000000,
found `L40S` unavailable; the running sweep finds it available at
1700000100000. While `checkAvailability` is suspended at
`await notifySubscribers(results)`, `getStatus` returns `isChecking = true`
together with the results and `lastCheck` of the running sweep, not those of
the previous one. -/
theorem getStatus_while_notifying_shows_new_results :
    (checkAvailabilityAfterSweep
        (checkAvailabilityStart
          { lastCheck := some 1700000000000,
            results := [("L40S", { available := false, gpuType := "L40S",
                                   message := "GPU is not available (Best capacity: LOW)",
                                   error := some "no_capacity", details := none })],
            isChecking := false, error := none }).1
        1700000100000
        (.ok [("L40S", { available := true, gpuType := "L40S",
                         message := "GPU is available in 1 region(s)", error := none,
                         details := none })])).2 =
      some [("L40S", { available := true, gpuType := "L40S",
                       message := "GPU is available in 1 region(s)", error := none,
                       details := none })]
    ∧ getStatus (checkAvailabilityAfterSweep
        (checkAvailabilityStart
          { lastCheck := some 1700000000000,
            results := [("L40S", { available := false, gpuType := "L40S",
                                   message := "GPU is not available (Best capacity: LOW)",
                                   error := some "no_capacity", details := none })],
            isChecking := false, error := none }).1
        1700000100000
        (.ok [("L40S", { available := true, gpuType := "L40S",
                         message := "GPU is available in 1 region(s)", error := none,
                         details := none })])).1 =
      { lastCheck := some 1700000100000,
        results := [("L40S", { available := true, gpuType := "L40S",
                               message := "GPU is available in 1 region(s)", error := none,
                               details := none })],
        isChecking := true, error := none, nextCheckAt := some 1700000200000 } := by
  decide

/-- C15 (amended): while a sweep runs, `getStatus` returns `isChecking = true`.
While `checkAllGpuAvailability` is awaited it returns the `lastCheck`,
`results` and `error` of the store as the previous sweep left it; once the
sweep has resolved, `lastCheck`, `results` and `error` are those of the new
sweep, also while `notifySubscribers` is awaited with `isChecking` still true.
The `results` a reader sees are always either the whole previous map or the
whole new one. -/
theorem getStatus_during_sweep (statusStore : StatusStore) (now : Int)
    (results : List (String × CheckResult)) (hidle : statusStore.isChecking = false) :
    checkAvailabilityStart statusStore = ({ statusStore with isChecking := true }, true)
      ∧ getStatus (checkAvailabilityStart statusStore).1 =
          { getStatus statusStore with isChecking := true }
      ∧ getStatus (checkAvailabilityAfterSweep (checkAvailabilityStart statusStore).1 now
            (.ok results)).1 =
          { lastCheck := some now, results := results,
            isChecking := decide (∃ entry ∈ results, entry.2.available = true),
            error := none, nextCheckAt := some (now + CHECK_INTERVAL) }
      ∧ ((checkAvailabilityAfterSweep (checkAvailabilityStart statusStore).1 now
            (.ok results)).2 =
          if ∃ entry ∈ results, entry.2.available = true then some results else none)
      ∧ (∀ observed ∈ [(checkAvailabilityStart statusStore).1,
            (checkAvailabilityAfterSweep (checkAvailabilityStart statusStore).1 now
              (.ok results)).1],
          (getStatus observed).results = statusStore.results
            ∨ (getStatus observed).results = results) := by
  have hstart : checkAvailabilityStart statusStore =
      ({ statusStore with isChecking := true }, true) := by
    simp [checkAvailabilityStart, hidle]
  refine ⟨hstart, by rw [hstart]; rfl, ?_, ?_, ?_⟩
  · rw [hstart]
    by_cases h : ∃ entry ∈ results, entry.2.available = true
    · have hpos := (availableGpus_length_pos_iff results).2 h
      simp only [checkAvailabilityAfterSweep, hpos, if_true, getStatus, h, decide_True]
    · have hpos : ¬ (availableGpus results).length > 0 :=
        fun hp => h ((availableGpus_length_pos_iff results).1 hp)
      simp only [checkAvailabilityAfterSweep, hpos, if_false, getStatus, h, decide_False]
  · rw [hstart]
    by_cases h : ∃ entry ∈ results, entry.2.available = true
    · have hpos := (availableGpus_length_pos_iff results).2 h
      simp only [checkAvailabilityAfterSweep, hpos, if_true, h]
    · have hpos : ¬ (availableGpus results).length > 0 :=
        fun hp => h ((availableGpus_length_pos_iff results).1 hp)
      simp only [checkAvailabilityAfterSweep, hpos, if_false, h]
  · intro observed hobs
    simp only [List.mem_cons, List.mem_singleton, List.not_mem_nil, or_false] at hobs
    rcases hobs with h | h
    · left
      rw [h, hstart]
      rfl
    · right
      rw [h, hstart]
      simp only [checkAvailabilityAfterSweep]
      split <;> rfl

/-- C15 (amended) at a concrete input: the initial store and a sweep that finds
`L40S` available. -/
theorem getStatus_during_sweep_witness :
    initialStatusStore.isChecking = false
      ∧ getStatus (checkAvailabilityStart initialStatusStore).1 =
          { getStatus initialStatusStore with isChecking := true } :=
  ⟨rfl,
    (getStatus_during_sweep initialStatusStore 1700000100000
      [("L40S", { available := true, gpuType := "L40S",
                  message := "GPU is available in 1 region(s)", error := none,
                  details := none })]
      rfl).2.1⟩

/-- C16: a call of `checkAvailability` that passes the guard stores the results
of its sweep and then calls `notifySubscribers` if and only if at least one
result of the sweep has `available = true`; the argument it passes is the
whole results map of the sweep, and the registry afterwards is the one that
dispatch leaves (the registry is untouched when nothing is available). -/
theorem checkAvailability_notifies_iff_available (REGIONS_TO_CHECK : List String)
    (provider : Nat → ProviderReply) (now currentTime : Int) (webpush : Nat → PushReply)
    (system : System) (hidle : system.statusStore.isChecking = false) :
    ∃ after done,
      checkAvailability REGIONS_TO_CHECK provider now currentTime webpush system =
        .ok (after, done)
      ∧ after.statusStore.results = checkAllGpuAvailability REGIONS_TO_CHECK provider
      ∧ (done.notified = some (checkAllGpuAvailability REGIONS_TO_CHECK provider) ↔
          ∃ entry ∈ checkAllGpuAvailability REGIONS_TO_CHECK provider,
            entry.2.available = true)
      ∧ (done.notified = none ↔
          ¬ ∃ entry ∈ checkAllGpuAvailability REGIONS_TO_CHECK provider,
            entry.2.available = true)
      ∧ ((∃ entry ∈ checkAllGpuAvailability REGIONS_TO_CHECK provider,
            entry.2.available = true) →
          after.subscriptions =
            (notifySubscribers system.subscriptions
              (checkAllGpuAvailability REGIONS_TO_CHECK provider) currentTime webpush).2)
      ∧ ((¬ ∃ entry ∈ checkAllGpuAvailability REGIONS_TO_CHECK provider,
            entry.2.available = true) →
          after.subscriptions = system.subscriptions)
      ∧ (∀ (results : List (String × CheckResult))
          (dispatch : List (String × CheckResult) → Except String Unit),
          ∃ run, checkAvailabilityWith system.statusStore (.ok results) now dispatch = .ok run
            ∧ (run.notified = some results ↔ ∃ entry ∈ results, entry.2.available = true)
            ∧ (run.notified = none ↔ ¬ ∃ entry ∈ results, entry.2.available = true)) := by
  have hgeneric : ∀ (results : List (String × CheckResult))
      (dispatch : List (String × CheckResult) → Except String Unit),
      ∃ run, checkAvailabilityWith system.statusStore (.ok results) now dispatch = .ok run
        ∧ (run.notified = some results ↔ ∃ entry ∈ results, entry.2.available = true)
        ∧ (run.notified = none ↔ ¬ ∃ entry ∈ results, entry.2.available = true) := by
    intro results dispatch
    rw [checkAvailabilityWith_idle _ _ _ _ hidle]
    by_cases h : (availableGpus results).length > 0
    · have hex := (availableGpus_length_pos_iff results).1 h
      rw [if_pos h]
      exact ⟨_, rfl, ⟨fun _ => hex, fun _ => rfl⟩,
        ⟨fun hn => absurd hn (by simp), fun hn => absurd hex hn⟩⟩
    · have hex : ¬ ∃ entry ∈ results, entry.2.available = true :=
        fun hx => h ((availableGpus_length_pos_iff results).2 hx)
      rw [if_neg h]
      exact ⟨_, rfl, ⟨fun hn => absurd hn (by simp), fun hx => absurd hx hex⟩,
        ⟨fun _ => hex, fun _ => rfl⟩⟩
  rw [checkAvailability_idle _ _ _ _ _ _ hidle]
  by_cases h : (availableGpus (checkAllGpuAvailability REGIONS_TO_CHECK provider)).length > 0
  · have hex := (availableGpus_length_pos_iff _).1 h
    rw [if_pos h]
    exact ⟨_, _, rfl, rfl, ⟨fun _ => hex, fun _ => rfl⟩,
      ⟨fun hn => absurd hn (by simp), fun hn => absurd hex hn⟩,
      fun _ => rfl, fun hn => absurd hex hn, hgeneric⟩
  · have hex : ¬ ∃ entry ∈ checkAllGpuAvailability REGIONS_TO_CHECK provider,
        entry.2.available = true :=
      fun hx => h ((availableGpus_length_pos_iff _).2 hx)
    rw [if_neg h]
    exact ⟨_, _, rfl, rfl, ⟨fun hn => absurd hn (by simp), fun hx => absurd hx hex⟩,
      ⟨fun _ => hex, fun _ => rfl⟩,
      fun hx => absurd hx hex, fun _ => rfl, hgeneric⟩

/-- C16 at a concrete input: the initial store, one subscriber, and a sweep in
which `nyc1` reports `HIGH` for every type. -/
theorem checkAvailability_notifies_iff_available_witness :
    initialStatusStore.isChecking = false
      ∧ ∃ after done,
        checkAvailability ["nyc1"]
            (fun _ => .resolved (.body (.array [⟨.string "nyc1", .string "HIGH"⟩])))
            1700000100000 1700000100001 (fun _ => .delivered)
            { statusStore := initialStatusStore,
              subscriptions := [("u1", { subscription := { endpoint := "https://push.example/u1" },
                                         gpuTypes := ["L40S"], lastNotified := [] })] } =
          .ok (after, done)
        ∧ after.statusStore.results = checkAllGpuAvailability ["nyc1"]
            (fun _ => .resolved (.body (.array [⟨.string "nyc1", .string "HIGH"⟩])))
        ∧ (done.notified = some (checkAllGpuAvailability ["nyc1"]
              (fun _ => .resolved (.body (.array [⟨.string "nyc1", .string "HIGH"⟩])))) ↔
            ∃ entry ∈ checkAllGpuAvailability ["nyc1"]
                (fun _ => .resolved (.body (.array [⟨.string "nyc1", .string "HIGH"⟩]))),
              entry.2.available = true) := by
  obtain ⟨after, done, h1, h2, h3, _⟩ :=
    checkAvailability_notifies_iff_available ["nyc1"]
      (fun _ => .resolved (.body (.array [⟨.string "nyc1", .string "HIGH"⟩])))
      1700000100000 1700000100001 (fun _ => .delivered)
      { statusStore := initialStatusStore,
        subscriptions := [("u1", { subscription := { endpoint := "https://push.example/u1" },
                                   gpuTypes := ["L40S"], lastNotified := [] })] }
      rfl
  exact ⟨rfl, after, done, h1, h2, h3⟩

/-- C17 (as stated, refuted): the server has just started, its first sweep is
in flight and the provider is unreachable for every type. A `POST /check-now`
arriving now is answered with the initial status, whose `results` holds no
entry for any GPU type. -/
theorem checkNow_during_first_sweep_has_no_results :
    checkAvailabilityStart initialStatusStore =
      ({ lastCheck := none, results := [], isChecking := true, error := none }, true)
    ∧ checkNow ["nyc1", "sfo3", "fra1"] (fun _ => .rejected (some "connect ECONNREFUSED"))
        1700000100000 1700000100001 (fun _ => .delivered)
        { statusStore := { lastCheck := none, results := [], isChecking := true, error := none },
          subscriptions := [] } =
      (.json { lastCheck := none, results := [], isChecking := true, error := none,
               nextCheckAt := none },
       { statusStore := { lastCheck := none, results := [], isChecking := true, error := none },
         subscriptions := [] })
    ∧ mapGet ([] : List (String × CheckResult)) "L40S" = none := by
  decide

theorem checkAllGpuAvailability_eq (REGIONS_TO_CHECK : List String)
    (provider : Nat → ProviderReply) :
    checkAllGpuAvailability REGIONS_TO_CHECK provider =
      [("L40S", recordProbe "L40S"
          (checkGpuAvailability REGIONS_TO_CHECK "L40S" (provider 0))),
       ("H100-1X", recordProbe "H100-1X"
          (checkGpuAvailability REGIONS_TO_CHECK "H100-1X" (provider 1))),
       ("H100-8X", recordProbe "H100-8X"
          (checkGpuAvailability REGIONS_TO_CHECK "H100-8X" (provider 2)))] :=
  sweepLoop_GPU_TYPES _

theorem recordProbe_rejected (REGIONS_TO_CHECK : List String) (gpuType : String)
    (message : Option String) (hknown : gpuType ∈ mapKeys GPU_TYPES) :
    (recordProbe gpuType
        (checkGpuAvailability REGIONS_TO_CHECK gpuType (.rejected message))).available = false
      ∧ (recordProbe gpuType
          (checkGpuAvailability REGIONS_TO_CHECK gpuType (.rejected message))).error =
        some "request_failed" := by
  obtain ⟨gpuConfig, hcfg⟩ := mapGet_of_mem_mapKeys GPU_TYPES gpuType hknown
  rw [checkGpuAvailability_rejected _ _ _ _ hcfg]
  exact ⟨rfl, rfl⟩

theorem checkAllGpuAvailability_unreachable (REGIONS_TO_CHECK : List String)
    (provider : Nat → ProviderReply) (hdown : ∀ n, ∃ message, provider n = .rejected message)
    (gpuType : String) (r : CheckResult)
    (hr : mapGet (checkAllGpuAvailability REGIONS_TO_CHECK provider) gpuType = some r) :
    r.available = false ∧ r.error = some "request_failed" := by
  obtain ⟨m0, h0⟩ := hdown 0
  obtain ⟨m1, h1⟩ := hdown 1
  obtain ⟨m2, h2⟩ := hdown 2
  rw [checkAllGpuAvailability_eq, h0, h1, h2] at hr
  simp only [mapGet] at hr
  split at hr
  · injection hr with hr
    subst hr
    exact recordProbe_rejected _ _ _ (by decide)
  · split at hr
    · injection hr with hr
      subst hr
      exact recordProbe_rejected _ _ _ (by decide)
    · split at hr
      · injection hr with hr
        subst hr
        exact recordProbe_rejected _ _ _ (by decide)
      · exact absurd hr (by simp)

/-- C17 (amended): `checkAvailability` never rejects, whatever the two calls it
awaits do, so `POST /check-now` always answers with a status and never with
500. When the trigger passes the guard (no sweep is in flight) and the provider
is unreachable for every type, the returned status has a result for every
known GPU type, each with `available = false` and `error = request_failed`; a
trigger arriving while a sweep is in flight returns the stored status
instead. -/
theorem checkNow_never_fails (REGIONS_TO_CHECK : List String)
    (provider : Nat → ProviderReply) (now currentTime : Int) (webpush : Nat → PushReply)
    (system : System) :
    (∀ (statusStore : StatusStore) (sweep : Except String (List (String × CheckResult)))
        (dispatch : List (String × CheckResult) → Except String Unit),
        ∃ run, checkAvailabilityWith statusStore sweep now dispatch = .ok run)
      ∧ (∃ outcome,
          checkAvailability REGIONS_TO_CHECK provider now currentTime webpush system =
            .ok outcome)
      ∧ (∃ status,
          (checkNow REGIONS_TO_CHECK provider now currentTime webpush system).1 = .json status)
      ∧ (system.statusStore.isChecking = false →
          (∀ n, ∃ message, provider n = .rejected message) →
          ∃ status,
            (checkNow REGIONS_TO_CHECK provider now currentTime webpush system).1 = .json status
            ∧ mapKeys status.results = mapKeys GPU_TYPES
            ∧ ∀ gpuType r, mapGet status.results gpuType = some r →
                r.available = false ∧ r.error = some "request_failed")
      ∧ (system.statusStore.isChecking = true →
          (checkNow REGIONS_TO_CHECK provider now currentTime webpush system).1 =
            .json (getStatus system.statusStore)) := by
  have hwith : ∀ (statusStore : StatusStore)
      (sweep : Except String (List (String × CheckResult)))
      (dispatch : List (String × CheckResult) → Except String Unit),
      ∃ run, checkAvailabilityWith statusStore sweep now dispatch = .ok run := by
    intro statusStore sweep dispatch
    unfold checkAvailabilityWith
    split
    · exact ⟨_, rfl⟩
    · split <;> exact ⟨_, rfl⟩
  have hcheck : ∃ outcome,
      checkAvailability REGIONS_TO_CHECK provider now currentTime webpush system =
        .ok outcome := by
    unfold checkAvailability
    obtain ⟨run, hrun⟩ := hwith system.statusStore
      (.ok (checkAllGpuAvailability REGIONS_TO_CHECK provider)) (fun _ => .ok ())
    rw [hrun]
    exact ⟨_, rfl⟩
  refine ⟨hwith, hcheck, ?_, ?_, ?_⟩
  · obtain ⟨outcome, houtcome⟩ := hcheck
    unfold checkNow
    rw [houtcome]
    exact ⟨_, rfl⟩
  · intro hidle hdown
    have hresp : (checkNow REGIONS_TO_CHECK provider now currentTime webpush system).1 =
        .json { lastCheck := some now,
                results := checkAllGpuAvailability REGIONS_TO_CHECK provider,
                isChecking := false, error := none,
                nextCheckAt := some (now + CHECK_INTERVAL) } := by
      unfold checkNow
      rw [checkAvailability_idle _ _ _ _ _ _ hidle]
      by_cases h : (availableGpus (checkAllGpuAvailability REGIONS_TO_CHECK provider)).length > 0
      · rw [if_pos h]; rfl
      · rw [if_neg h]; rfl
    refine ⟨_, hresp, ?_, ?_⟩
    · show mapKeys (checkAllGpuAvailability REGIONS_TO_CHECK provider) = mapKeys GPU_TYPES
      rw [checkAllGpuAvailability_eq]
      rfl
    · intro gpuType r hr
      exact checkAllGpuAvailability_unreachable _ _ hdown gpuType r hr
  · intro hbusy
    unfold checkNow
    rw [checkAvailability_busy _ _ _ _ _ _ hbusy]

/-- C17 (amended) at a concrete input: a trigger on the initial store with the
provider refusing every connection. -/
theorem checkNow_never_fails_witness :
    initialStatusStore.isChecking = false
      ∧ (∀ n : Nat, ∃ message,
          (fun _ : Nat => ProviderReply.rejected (some "connect ECONNREFUSED")) n =
            .rejected message)
      ∧ ∃ status,
        (checkNow ["nyc1", "sfo3", "fra1"] (fun _ => .rejected (some "connect ECONNREFUSED"))
          1700000100000 1700000100001 (fun _ => .delivered)
          { statusStore := initialStatusStore, subscriptions := [] }).1 = .json status
        ∧ mapKeys status.results = mapKeys GPU_TYPES
        ∧ ∀ gpuType r, mapGet status.results gpuType = some r →
            r.available = false ∧ r.error = some "request_failed" :=
  ⟨rfl, fun _ => ⟨_, rfl⟩,
    (checkNow_never_fails ["nyc1", "sfo3", "fra1"]
      (fun _ => .rejected (some "connect ECONNREFUSED"))
      1700000100000 1700000100001 (fun _ => .delivered)
      { statusStore := initialStatusStore, subscriptions := [] }).2.2.2.1
      rfl (fun _ => ⟨_, rfl⟩)⟩

/-! ## The registry -/

/-- C18: for every user id and push subscription, `addSubscription` called
without an interest list stores, and returns, a subscriber whose `gpuTypes` is
the list of the keys of `GPU_TYPES` (`L40S`, `H100-1X`, `H100-8X`), with an
empty `lastNotified`. -/
theorem addSubscription_default_gpuTypes (subscriptions : Subscriptions) (userId : String)
    (subscription : PushSubscription) :
    mapGet (addSubscription subscriptions userId subscription none).1 userId =
        some { subscription := subscription, gpuTypes := mapKeys GPU_TYPES,
               lastNotified := [] }
      ∧ (addSubscription subscriptions userId subscription none).2 =
        some { userId := userId, gpuTypes := mapKeys GPU_TYPES, lastNotified := [] }
      ∧ mapKeys GPU_TYPES = ["L40S", "H100-1X", "H100-8X"] := by
  have hstored : mapGet (addSubscription subscriptions userId subscription none).1 userId =
      some { subscription := subscription, gpuTypes := mapKeys GPU_TYPES,
             lastNotified := [] } := by
    simp only [addSubscription]
    exact mapGet_mapSet_same _ _ _
  refine ⟨hstored, ?_, rfl⟩
  simp only [addSubscription] at hstored ⊢
  simp only [getSubscriptionInfo, hstored]

theorem mapDelete_of_not_mem {α : Type} (m : List (String × α)) (key : String)
    (h : key ∉ mapKeys m) : mapDelete m key = m := by
  induction m with
  | nil => rfl
  | cons kv rest ih =>
    obtain ⟨k, v⟩ := kv
    have hk : k ≠ key := by
      intro hk; apply h; simp [mapKeys, hk]
    have hrest : key ∉ mapKeys rest := by
      intro hr; apply h; simp only [mapKeys, List.map_cons, List.mem_cons]; exact Or.inr hr
    simp [mapDelete, hk, ih hrest]

theorem not_mem_mapKeys_of_mapGet_none {α : Type} (m : List (String × α)) (key : String)
    (h : mapGet m key = none) : key ∉ mapKeys m := by
  intro hmem
  obtain ⟨v, hv⟩ := mapGet_of_mem_mapKeys m key hmem
  rw [h] at hv
  exact absurd hv (by simp)

/-- C19: for an id that is not in the registry, `getSubscriptionInfo` and
`updateSubscriptionGpuTypes` return `null` and `removeSubscription` returns
false, each leaving the registry as it was; for an id that is in the registry,
`removeSubscription` returns true and the id is absent afterwards. -/
theorem registry_unknown_and_removed_id (subscriptions : Subscriptions) (userId : String)
    (gpuTypes : List String) (hnodup : (mapKeys subscriptions).Nodup) :
    (userId ∉ mapKeys subscriptions →
        getSubscriptionInfo subscriptions userId = none
        ∧ updateSubscriptionGpuTypes subscriptions userId gpuTypes = (subscriptions, none)
        ∧ removeSubscription subscriptions userId = (subscriptions, false))
      ∧ (userId ∈ mapKeys subscriptions →
          (removeSubscription subscriptions userId).2 = true
          ∧ userId ∉ mapKeys (removeSubscription subscriptions userId).1
          ∧ getSubscriptionInfo (removeSubscription subscriptions userId).1 userId = none) := by
  constructor
  · intro habsent
    have hget := mapGet_eq_none_of_not_mem subscriptions userId habsent
    refine ⟨by simp [getSubscriptionInfo, hget],
      by simp [updateSubscriptionGpuTypes, hget], ?_⟩
    simp [removeSubscription, hget, mapDelete_of_not_mem subscriptions userId habsent]
  · intro hpresent
    obtain ⟨data, hdata⟩ := mapGet_of_mem_mapKeys subscriptions userId hpresent
    have hgone := mapGet_mapDelete_same subscriptions userId hnodup
    refine ⟨by simp [removeSubscription, hdata], ?_, ?_⟩
    · exact not_mem_mapKeys_of_mapGet_none _ _ hgone
    · simp only [removeSubscription, getSubscriptionInfo, hgone]

/-- C19 at a concrete input: a registry holding `u1`, asked about `u1` (and,
through the first half, about any id it does not hold). -/
theorem registry_unknown_and_removed_id_witness :
    (mapKeys ([("u1", { subscription := { endpoint := "https://push.example/u1" },
                        gpuTypes := ["L40S"], lastNotified := [] })] : Subscriptions)).Nodup
      ∧ "u1" ∈ mapKeys ([("u1", { subscription := { endpoint := "https://push.example/u1" },
                                  gpuTypes := ["L40S"], lastNotified := [] })] : Subscriptions)
      ∧ (removeSubscription
            [("u1", { subscription := { endpoint := "https://push.example/u1" },
                      gpuTypes := ["L40S"], lastNotified := [] })] "u1").2 = true
      ∧ "u1" ∉ mapKeys (removeSubscription
            [("u1", { subscription := { endpoint := "https://push.example/u1" },
                      gpuTypes := ["L40S"], lastNotified := [] })] "u1").1
      ∧ getSubscriptionInfo (removeSubscription
            [("u1", { subscription := { endpoint := "https://push.example/u1" },
                      gpuTypes := ["L40S"], lastNotified := [] })] "u1").1 "u1" = none :=
  ⟨by decide, by decide,
    (registry_unknown_and_removed_id
      [("u1", { subscription := { endpoint := "https://push.example/u1" },
                gpuTypes := ["L40S"], lastNotified := [] })]
      "u1" ["H100-1X"] (by decide)).2 (by decide)⟩

theorem step_keeps_of (P : Int → Prop) (subscriptions : Subscriptions) (op : Op)
    (userId gpuType : String) (hnodup : (mapKeys subscriptions).Nodup)
    (hs : ∀ data, mapGet subscriptions userId = some data →
      ∃ t, mapGet data.lastNotified gpuType = some t ∧ P t)
    (hadd : ∀ subscription gpuTypes, op ≠ .addSubscription userId subscription gpuTypes)
    (hdispatch : ∀ availabilityResults currentTime webpush,
      op = .notifySubscribers availabilityResults currentTime webpush →
      ∀ t0, P t0 → (t0 ≠ 0 → currentTime - t0 ≥ 3600000) → P currentTime) :
    ∀ data, mapGet (step subscriptions op) userId = some data →
      ∃ t, mapGet data.lastNotified gpuType = some t ∧ P t := by
  cases op with
  | addSubscription u subscription gpuTypes =>
    have hu : u ≠ userId := by
      intro hu
      exact hadd subscription gpuTypes (by rw [hu])
    intro data hdata
    simp only [step, addSubscription] at hdata
    rw [mapGet_mapSet_ne _ _ _ _ hu] at hdata
    exact hs data hdata
  | updateSubscriptionGpuTypes u gpuTypes =>
    intro data hdata
    simp only [step, updateSubscriptionGpuTypes] at hdata
    cases hget : mapGet subscriptions u with
    | none =>
      rw [hget] at hdata
      exact hs data hdata
    | some sub =>
      rw [hget] at hdata
      simp only at hdata
      by_cases hu : u = userId
      · rw [hu, mapGet_mapSet_same] at hdata
        injection hdata with hdata
        subst hdata
        exact hs sub (hu ▸ hget)
      · rw [mapGet_mapSet_ne _ _ _ _ hu] at hdata
        exact hs data hdata
  | removeSubscription u =>
    intro data hdata
    simp only [step, removeSubscription] at hdata
    by_cases hu : u = userId
    · rw [hu, mapGet_mapDelete_same _ _ hnodup] at hdata
      exact absurd hdata (by simp)
    · rw [mapGet_mapDelete_ne _ _ _ hu] at hdata
      exact hs data hdata
  | notifySubscribers availabilityResults currentTime webpush =>
    apply recordAll_keeps P currentTime userId gpuType _ _ hs
    intro x hx hu hg
    have hd : x.1 ∈ deliveries availabilityResults currentTime subscriptions :=
      fst_mem_of_mem_settleSends webpush 0 _ x.1 x.2 hx
    have hdel : ∃ d ∈ deliveries availabilityResults currentTime subscriptions,
        d.userId = userId ∧ d.gpuType = gpuType := ⟨x.1, hd, hu, hg⟩
    obtain ⟨data, hdata⟩ := exists_data_of_delivered _ _ _ _ _ hnodup hdel
    obtain ⟨t, ht, hP⟩ := hs data hdata
    exact hdispatch _ _ _ rfl t hP
      (fun h0 => delivered_cooldown _ _ _ _ _ data t hnodup hdata ht h0 hdel)

theorem run_keeps_of (P : Int → Prop) (ops : List Op) (subscriptions : Subscriptions)
    (userId gpuType : String) (hnodup : (mapKeys subscriptions).Nodup)
    (hs : ∀ data, mapGet subscriptions userId = some data →
      ∃ t, mapGet data.lastNotified gpuType = some t ∧ P t)
    (hadd : ∀ subscription gpuTypes, Op.addSubscription userId subscription gpuTypes ∉ ops)
    (hdispatch : ∀ availabilityResults currentTime webpush,
      Op.notifySubscribers availabilityResults currentTime webpush ∈ ops →
      ∀ t0, P t0 → (t0 ≠ 0 → currentTime - t0 ≥ 3600000) → P currentTime) :
    ∀ data, mapGet (run subscriptions ops) userId = some data →
      ∃ t, mapGet data.lastNotified gpuType = some t ∧ P t := by
  induction ops generalizing subscriptions with
  | nil => exact hs
  | cons op rest ih =>
    apply ih (step subscriptions op) (nodup_step _ _ hnodup)
    · apply step_keeps_of P _ _ _ _ hnodup hs
      · intro subscription gpuTypes heq
        exact hadd subscription gpuTypes (heq ▸ List.mem_cons_self _ _)
      · intro availabilityResults currentTime webpush heq
        exact hdispatch availabilityResults currentTime webpush (heq ▸ List.mem_cons_self _ _)
    · intro subscription gpuTypes hmem
      exact hadd subscription gpuTypes (List.mem_cons_of_mem _ hmem)
    · intro availabilityResults currentTime webpush hmem
      exact hdispatch availabilityResults currentTime webpush (List.mem_cons_of_mem _ hmem)

theorem step_lastNotified_unchanged (subscriptions : Subscriptions) (op : Op)
    (userId : String) (data after : SubData) (hnodup : (mapKeys subscriptions).Nodup)
    (hdata : mapGet subscriptions userId = some data)
    (hadd : ∀ subscription gpuTypes, op ≠ .addSubscription userId subscription gpuTypes)
    (hnotify : ∀ availabilityResults currentTime webpush,
      op ≠ .notifySubscribers availabilityResults currentTime webpush)
    (hafter : mapGet (step subscriptions op) userId = some after) :
    after.lastNotified = data.lastNotified := by
  cases op with
  | addSubscription u subscription gpuTypes =>
    have hu : u ≠ userId := by
      intro hu
      exact hadd subscription gpuTypes (by rw [hu])
    simp only [step, addSubscription] at hafter
    rw [mapGet_mapSet_ne _ _ _ _ hu, hdata] at hafter
    injection hafter with hafter
    rw [hafter]
  | updateSubscriptionGpuTypes u gpuTypes =>
    simp only [step, updateSubscriptionGpuTypes] at hafter
    cases hget : mapGet subscriptions u with
    | none =>
      rw [hget] at hafter
      simp only at hafter
      rw [hdata] at hafter
      injection hafter with hafter
      rw [hafter]
    | some sub =>
      rw [hget] at hafter
      simp only at hafter
      by_cases hu : u = userId
      · rw [hu, mapGet_mapSet_same] at hafter
        injection hafter with hafter
        rw [hu, hdata] at hget
        injection hget with hget
        rw [← hafter, hget]
      · rw [mapGet_mapSet_ne _ _ _ _ hu, hdata] at hafter
        injection hafter with hafter
        rw [hafter]
  | removeSubscription u =>
    simp only [step, removeSubscription] at hafter
    by_cases hu : u = userId
    · rw [hu, mapGet_mapDelete_same _ _ hnodup] at hafter
      exact absurd hafter (by simp)
    · rw [mapGet_mapDelete_ne _ _ _ hu, hdata] at hafter
      injection hafter with hafter
      rw [hafter]
  | notifySubscribers availabilityResults currentTime webpush =>
    exact absurd rfl (hnotify availabilityResults currentTime webpush)

/-- C20 (as stated, refuted): `u1` subscribes and is notified about `L40S` at
time 1700000000000, which is recorded; `u1` then subscribes again.
`addSubscription` stores an empty `lastNotified`, so the recorded value is
gone although `u1` has been in the registry all along. -/
theorem resubscribe_clears_lastNotified :
    (mapGet (run []
          [.addSubscription "u1" { endpoint := "https://push.example/u1" } (some ["L40S"]),
           .notifySubscribers
             [("L40S", { available := true, gpuType := "L40S",
                         message := "GPU is available in 1 region(s)", error := none,
                         details := none })]
             1700000000000 (fun _ => .delivered)]) "u1").bind
        (fun data => mapGet data.lastNotified "L40S") = some 1700000000000
    ∧ "u1" ∈ mapKeys (run []
          [.addSubscription "u1" { endpoint := "https://push.example/u1" } (some ["L40S"]),
           .notifySubscribers
             [("L40S", { available := true, gpuType := "L40S",
                         message := "GPU is available in 1 region(s)", error := none,
                         details := none })]
             1700000000000 (fun _ => .delivered),
           .addSubscription "u1" { endpoint := "https://push.example/u1" } (some ["L40S"])])
    ∧ (mapGet (run []
          [.addSubscription "u1" { endpoint := "https://push.example/u1" } (some ["L40S"]),
           .notifySubscribers
             [("L40S", { available := true, gpuType := "L40S",
                         message := "GPU is available in 1 region(s)", error := none,
                         details := none })]
             1700000000000 (fun _ => .delivered),
           .addSubscription "u1" { endpoint := "https://push.example/u1" } (some ["L40S"])])
          "u1").bind
        (fun data => mapGet data.lastNotified "L40S") = none := by
  decide

/-- C20 (amended): for every subscriber id and GPU type, once
`lastNotified[gpuType]` is set it stays set and never decreases over any
sequence of registry operations and dispatches for as long as the id stays in
the registry and is not registered again by `addSubscription`, the dispatch
clock never reading a time before the epoch; among the operations other than
that repeated `addSubscription`, only `notifySubscribers` changes the
`lastNotified` of the subscriber. -/
theorem lastNotified_monotone (subscriptions : Subscriptions) (ops : List Op)
    (userId gpuType : String) (data : SubData) (t : Int)
    (hnodup : (mapKeys subscriptions).Nodup)
    (hdata : mapGet subscriptions userId = some data)
    (ht : mapGet data.lastNotified gpuType = some t)
    (hadd : ∀ subscription gpuTypes,
      Op.addSubscription userId subscription gpuTypes ∉ ops)
    (hclock : ∀ availabilityResults currentTime webpush,
      Op.notifySubscribers availabilityResults currentTime webpush ∈ ops →
        0 ≤ currentTime) :
    (∀ after, mapGet (run subscriptions ops) userId = some after →
        ∃ t2, mapGet after.lastNotified gpuType = some t2 ∧ t ≤ t2)
      ∧ (∀ op, (∀ subscription gpuTypes,
            op ≠ .addSubscription userId subscription gpuTypes) →
          (∀ availabilityResults currentTime webpush,
            op ≠ .notifySubscribers availabilityResults currentTime webpush) →
          ∀ after, mapGet (step subscriptions op) userId = some after →
            after.lastNotified = data.lastNotified) := by
  constructor
  · apply run_keeps_of (fun t2 => t ≤ t2) ops subscriptions userId gpuType hnodup _ hadd
    · intro availabilityResults currentTime webpush hmem t0 ht0 hcool
      have hnow := hclock availabilityResults currentTime webpush hmem
      have hle : t ≤ t0 := ht0
      show t ≤ currentTime
      by_cases h0 : t0 = 0
      · omega
      · have := hcool h0
        omega
    · intro data2 hdata2
      rw [hdata] at hdata2
      injection hdata2 with hdata2
      subst hdata2
      exact ⟨t, ht, le_refl _⟩
  · intro op hnoadd hnonotify after hafter
    exact step_lastNotified_unchanged subscriptions op userId data after hnodup hdata
      hnoadd hnonotify hafter

/-- C20 (amended) at a concrete input: a recorded notification, then an
interest update, another subscriber and two dispatches, the second one
3,600,000 ms after the recorded time. -/
theorem lastNotified_monotone_witness :
    (mapKeys ([("u1", { subscription := { endpoint := "https://push.example/u1" },
                        gpuTypes := ["L40S"],
                        lastNotified := [("L40S", 1700000000000)] })] : Subscriptions)).Nodup
      ∧ (∀ after, mapGet (run
            [("u1", { subscription := { endpoint := "https://push.example/u1" },
                      gpuTypes := ["L40S"], lastNotified := [("L40S", 1700000000000)] })]
            [.updateSubscriptionGpuTypes "u1" ["L40S", "H100-1X"],
             .addSubscription "u2" { endpoint := "https://push.example/u2" } none,
             .notifySubscribers
               [("L40S", { available := true, gpuType := "L40S",
                           message := "GPU is available in 1 region(s)", error := none,
                           details := none })]
               1700000100000 (fun _ => .delivered),
             .notifySubscribers
               [("L40S", { available := true, gpuType := "L40S",
                           message := "GPU is available in 1 region(s)", error := none,
                           details := none })]
               1700003600000 (fun _ => .delivered)]) "u1" = some after →
          ∃ t2, mapGet after.lastNotified "L40S" = some t2 ∧ 1700000000000 ≤ t2) :=
  ⟨by decide,
    (lastNotified_monotone
      [("u1", { subscription := { endpoint := "https://push.example/u1" },
                gpuTypes := ["L40S"], lastNotified := [("L40S", 1700000000000)] })]
      [.updateSubscriptionGpuTypes "u1" ["L40S", "H100-1X"],
       .addSubscription "u2" { endpoint := "https://push.example/u2" } none,
       .notifySubscribers
         [("L40S", { available := true, gpuType := "L40S",
                     message := "GPU is available in 1 region(s)", error := none,
                     details := none })]
         1700000100000 (fun _ => .delivered),
       .notifySubscribers
         [("L40S", { available := true, gpuType := "L40S",
                     message := "GPU is available in 1 region(s)", error := none,
                     details := none })]
         1700003600000 (fun _ => .delivered)]
      "u1" "L40S"
      { subscription := { endpoint := "https://push.example/u1" },
        gpuTypes := ["L40S"], lastNotified := [("L40S", 1700000000000)] }
      1700000000000 (by decide) (by decide) (by decide)
      (by
        intro subscription gpuTypes h
        simp at h)
      (by
        intro availabilityResults currentTime webpush h
        simp only [List.mem_cons, List.mem_singleton, reduceCtorEq, false_or,
          List.not_mem_nil, or_false] at h
        rcases h with h | h
        · injection h with _ h2 _
          rw [h2]
          decide
        · injection h with _ h2 _
          rw [h2]
          decide)).1⟩

/-! ## Delivery outcomes -/

theorem getElem?_settleSends (webpush : Nat → PushReply) (k : Nat) (ds : List Delivery)
    (n : Nat) :
    (settleSends webpush k ds)[n]? =
      (ds[n]?).map (fun d => (d, sendNotification (webpush (k + n)))) := by
  induction ds generalizing k n with
  | nil => simp [settleSends]
  | cons d rest ih =>
    cases n with
    | zero => simp [settleSends]
    | succ m =>
      simp only [settleSends, List.getElem?_cons_succ]
      rw [ih (k + 1) m]
      have hidx : k + 1 + m = k + (m + 1) := by omega
      rw [hidx]

theorem map_fst_settleSends (webpush : Nat → PushReply) (k : Nat) (ds : List Delivery) :
    (settleSends webpush k ds).map Prod.fst = ds := by
  induction ds generalizing k with
  | nil => rfl
  | cons d rest ih => simp [settleSends, ih (k + 1)]

theorem mapKeys_mapSet_of_mapGet {α : Type} (m : List (String × α)) (key : String)
    (old val : α) (h : mapGet m key = some old) : mapKeys (mapSet m key val) = mapKeys m := by
  induction m with
  | nil => simp [mapGet] at h
  | cons kv rest ih =>
    obtain ⟨k, v⟩ := kv
    by_cases hk : k = key
    · simp [mapSet, hk, mapKeys]
    · simp only [mapGet, if_neg hk] at h
      have hrest := ih h
      simp only [mapKeys] at hrest
      simp [mapSet, hk, mapKeys, hrest]

theorem mapKeys_recordDelivery (subscriptions : Subscriptions) (currentTime : Int)
    (d : Delivery) (success : SendResult) :
    mapKeys (recordDelivery subscriptions currentTime d success) = mapKeys subscriptions := by
  unfold recordDelivery
  split
  · cases hget : mapGet subscriptions d.userId with
    | none => rfl
    | some subData => exact mapKeys_mapSet_of_mapGet _ _ subData _ hget
  · rfl

theorem mapKeys_recordAll (currentTime : Int) (subscriptions : Subscriptions)
    (settled : List (Delivery × SendResult)) :
    mapKeys (recordAll currentTime subscriptions settled) = mapKeys subscriptions := by
  induction settled generalizing subscriptions with
  | nil => rfl
  | cons x rest ih =>
    obtain ⟨d, success⟩ := x
    simp only [recordAll]
    rw [ih, mapKeys_recordDelivery]

theorem getElem?_outcomes (subscriptions : Subscriptions)
    (availabilityResults : List (String × CheckResult)) (currentTime : Int)
    (webpush : Nat → PushReply) (n : Nat) :
    (notifySubscribers subscriptions availabilityResults currentTime webpush).1[n]? =
      ((deliveries availabilityResults currentTime subscriptions)[n]?).map
        (fun d => { userId := d.userId, gpuType := d.gpuType,
                    success := sendNotification (webpush n) }) := by
  simp only [notifySubscribers, List.getElem?_map, getElem?_settleSends, Nat.zero_add]
  cases (deliveries availabilityResults currentTime subscriptions)[n]? <;> rfl

/-- C21: a push failure with status code 410 makes `sendNotification` return
the error `subscription_expired`, any other failure the message of the
failure; the outcome `notifySubscribers` returns for a delivery carries what
`sendNotification` returned for it; and a dispatch neither removes nor adds a
subscriber: the ids of the registry are the same, in the same order, before
and after. -/
theorem sendNotification_classification_recorded (subscriptions : Subscriptions)
    (availabilityResults : List (String × CheckResult)) (currentTime : Int)
    (webpush : Nat → PushReply) :
    (∀ message, sendNotification (.rejected (some 410) message) =
        .error "subscription_expired")
      ∧ (∀ statusCode message, statusCode ≠ some 410 →
          sendNotification (.rejected statusCode message) = .error message)
      ∧ (∀ (n : Nat) (d : Delivery),
          (deliveries availabilityResults currentTime subscriptions)[n]? = some d →
          (notifySubscribers subscriptions availabilityResults currentTime webpush).1[n]? =
            some (Outcome.mk d.userId d.gpuType (sendNotification (webpush n))))
      ∧ mapKeys (notifySubscribers subscriptions availabilityResults currentTime webpush).2 =
          mapKeys subscriptions := by
  refine ⟨fun _ => by simp [sendNotification], ?_, ?_, ?_⟩
  · intro statusCode message h
    simp [sendNotification, h]
  · intro n d hd
    rw [getElem?_outcomes, hd]
    rfl
  · simp only [notifySubscribers]
    exact mapKeys_recordAll _ _ _

/-- C22: `notifySubscribers` returns one outcome for every delivery it issues,
in the order of issue and for the same (userId, gpuType) pair, whatever the
push service replies; the deliveries issued do not depend on those replies, and
the outcome of a delivery depends only on the reply to that delivery, so a
failed delivery changes neither which other deliveries are issued nor what is
reported for them. -/
theorem notifySubscribers_reports_every_delivery (subscriptions : Subscriptions)
    (availabilityResults : List (String × CheckResult)) (currentTime : Int)
    (webpush other : Nat → PushReply) :
    (notifySubscribers subscriptions availabilityResults currentTime webpush).1.length =
        (deliveries availabilityResults currentTime subscriptions).length
      ∧ (notifySubscribers subscriptions availabilityResults currentTime webpush).1.map
            (fun o => (o.userId, o.gpuType)) =
          (deliveries availabilityResults currentTime subscriptions).map
            (fun d => (d.userId, d.gpuType))
      ∧ (∀ (n : Nat) (d : Delivery),
          (deliveries availabilityResults currentTime subscriptions)[n]? = some d →
          (notifySubscribers subscriptions availabilityResults currentTime webpush).1[n]? =
            some (Outcome.mk d.userId d.gpuType (sendNotification (webpush n))))
      ∧ (∀ n, webpush n = other n →
          (notifySubscribers subscriptions availabilityResults currentTime webpush).1[n]? =
            (notifySubscribers subscriptions availabilityResults currentTime other).1[n]?) := by
  refine ⟨?_, ?_, ?_, ?_⟩
  · simp only [notifySubscribers, List.length_map]
    rw [← List.length_map (settleSends webpush 0 _) Prod.fst, map_fst_settleSends]
  · simp only [notifySubscribers, List.map_map]
    have h : ((fun o : Outcome => (o.userId, o.gpuType)) ∘ toOutcome) =
        ((fun d : Delivery => (d.userId, d.gpuType)) ∘ Prod.fst) := rfl
    rw [h, ← List.map_map, map_fst_settleSends]
  · intro n d hd
    rw [getElem?_outcomes, hd]
    rfl
  · intro n hn
    rw [getElem?_outcomes, getElem?_outcomes, hn]

/-! ## The error taxonomy of a sweep -/

theorem checkGpuAvailability_known_shape (REGIONS_TO_CHECK : List String) (gpuType : String)
    (reply : ProviderReply) (hknown : gpuType ∈ mapKeys GPU_TYPES) :
    ∃ r, checkGpuAvailability REGIONS_TO_CHECK gpuType reply = .ok r
      ∧ ((r.available = true ∧ r.error = none)
        ∨ (r.available = false
          ∧ (r.error = some "invalid_response" ∨ r.error = some "no_regions"
            ∨ r.error = some "no_capacity" ∨ r.error = some "request_failed"))) := by
  obtain ⟨gpuConfig, hcfg⟩ := mapGet_of_mem_mapKeys GPU_TYPES gpuType hknown
  cases reply with
  | rejected message =>
    exact ⟨_, checkGpuAvailability_rejected _ _ _ _ hcfg,
      Or.inr ⟨rfl, Or.inr (Or.inr (Or.inr rfl))⟩⟩
  | resolved data =>
    cases data with
    | missing =>
      unfold checkGpuAvailability
      simp only [hcfg]
      exact ⟨_, rfl, Or.inr ⟨rfl, Or.inl rfl⟩⟩
    | body capacities =>
      cases capacities with
      | missing =>
        unfold checkGpuAvailability
        simp only [hcfg]
        exact ⟨_, rfl, Or.inr ⟨rfl, Or.inl rfl⟩⟩
      | notArray =>
        unfold checkGpuAvailability
        simp only [hcfg]
        exact ⟨_, rfl, Or.inr ⟨rfl, Or.inl rfl⟩⟩
      | array entries =>
        rw [checkGpuAvailability_array _ _ _ _ hcfg]
        by_cases h1 : (selectCapacities REGIONS_TO_CHECK entries).length = 0
        · rw [if_pos h1]
          exact ⟨_, rfl, Or.inr ⟨rfl, Or.inr (Or.inl rfl)⟩⟩
        · rw [if_neg h1]
          by_cases h2 : ((selectCapacities REGIONS_TO_CHECK entries).filter
              hasCapacity).length > 0
          · rw [if_pos h2]
            exact ⟨_, rfl, Or.inl ⟨rfl, rfl⟩⟩
          · rw [if_neg h2]
            cases reduceLowest .null (selectCapacities REGIONS_TO_CHECK entries) with
            | error m => exact ⟨_, rfl, Or.inr ⟨rfl, Or.inr (Or.inr (Or.inr rfl))⟩⟩
            | ok lowest => exact ⟨_, rfl, Or.inr ⟨rfl, Or.inr (Or.inr (Or.inl rfl))⟩⟩

theorem recordProbe_known_shape (REGIONS_TO_CHECK : List String) (gpuType : String)
    (reply : ProviderReply) (hknown : gpuType ∈ mapKeys GPU_TYPES) :
    ((recordProbe gpuType (checkGpuAvailability REGIONS_TO_CHECK gpuType reply)).available = true
        ∧ (recordProbe gpuType (checkGpuAvailability REGIONS_TO_CHECK gpuType reply)).error = none)
      ∨ ((recordProbe gpuType
            (checkGpuAvailability REGIONS_TO_CHECK gpuType reply)).available = false
        ∧ ((recordProbe gpuType
              (checkGpuAvailability REGIONS_TO_CHECK gpuType reply)).error =
            some "invalid_response"
          ∨ (recordProbe gpuType
              (checkGpuAvailability REGIONS_TO_CHECK gpuType reply)).error = some "no_regions"
          ∨ (recordProbe gpuType
              (checkGpuAvailability REGIONS_TO_CHECK gpuType reply)).error = some "no_capacity"
          ∨ (recordProbe gpuType
              (checkGpuAvailability REGIONS_TO_CHECK gpuType reply)).error =
            some "request_failed")) := by
  obtain ⟨r, hr, hshape⟩ := checkGpuAvailability_known_shape REGIONS_TO_CHECK gpuType reply hknown
  rw [hr]
  exact hshape

/-- C25: every result a sweep records has either `available = true` and no
`error`, or `available = false` and an `error` among `invalid_response`,
`no_regions`, `no_capacity`, `request_failed`; `checkGpuAvailability` returns
(does not throw) for every key of `GPU_TYPES` and every provider reply, so no
recorded result is the `check_failed` fallback. -/
theorem sweep_results_in_taxonomy (REGIONS_TO_CHECK : List String)
    (provider : Nat → ProviderReply) :
    (∀ gpuType ∈ mapKeys GPU_TYPES, ∀ reply,
        ∃ r, checkGpuAvailability REGIONS_TO_CHECK gpuType reply = .ok r)
      ∧ (∀ gpuType r,
          mapGet (checkAllGpuAvailability REGIONS_TO_CHECK provider) gpuType = some r →
          (r.available = true ∧ r.error = none)
            ∨ (r.available = false
              ∧ (r.error = some "invalid_response" ∨ r.error = some "no_regions"
                ∨ r.error = some "no_capacity" ∨ r.error = some "request_failed")))
      ∧ (∀ gpuType r,
          mapGet (checkAllGpuAvailability REGIONS_TO_CHECK provider) gpuType = some r →
          r.error ≠ some "check_failed") := by
  have hshape : ∀ gpuType r,
      mapGet (checkAllGpuAvailability REGIONS_TO_CHECK provider) gpuType = some r →
      (r.available = true ∧ r.error = none)
        ∨ (r.available = false
          ∧ (r.error = some "invalid_response" ∨ r.error = some "no_regions"
            ∨ r.error = some "no_capacity" ∨ r.error = some "request_failed")) := by
    intro gpuType r hr
    rw [checkAllGpuAvailability_eq] at hr
    simp only [mapGet] at hr
    split at hr
    · injection hr with hr
      subst hr
      exact recordProbe_known_shape _ _ _ (by decide)
    · split at hr
      · injection hr with hr
        subst hr
        exact recordProbe_known_shape _ _ _ (by decide)
      · split at hr
        · injection hr with hr
          subst hr
          exact recordProbe_known_shape _ _ _ (by decide)
        · exact absurd hr (by simp)
  refine ⟨?_, hshape, ?_⟩
  · intro gpuType hknown reply
    obtain ⟨r, hr, _⟩ := checkGpuAvailability_known_shape REGIONS_TO_CHECK gpuType reply hknown
    exact ⟨r, hr⟩
  · intro gpuType r hr hfailed
    rcases hshape gpuType r hr with ⟨_, h⟩ | ⟨_, h | h | h | h⟩ <;>
      · rw [hfailed] at h
        revert h
        decide

/-! ## The guard is released -/

/-- C27: a call of `checkAvailability` that passes the guard settles with
`statusStore.isChecking = false`, whether the sweep and the dispatch resolve or
reject; when the sweep rejects, or the dispatch it started rejects,
`statusStore.error` is the message of that error. Every path of the two
continuations that ends the call clears the flag. -/
theorem checkAvailability_releases_guard (statusStore : StatusStore)
    (sweep : Except String (List (String × CheckResult))) (now : Int)
    (dispatch : List (String × CheckResult) → Except String Unit)
    (hidle : statusStore.isChecking = false) :
    ∃ run, checkAvailabilityWith statusStore sweep now dispatch = .ok run
      ∧ run.sweepStarted = true
      ∧ run.statusStore.isChecking = false
      ∧ (∀ message, sweep = .error message → run.statusStore.error = some message)
      ∧ (∀ results message, run.notified = some results →
          dispatch results = .error message → run.statusStore.error = some message)
      ∧ (∀ (guarded : StatusStore),
          (checkAvailabilityAfterSweep guarded now sweep).2 = none →
          (checkAvailabilityAfterSweep guarded now sweep).1.isChecking = false)
      ∧ (∀ (stored : StatusStore) (settled : Except String Unit),
          (checkAvailabilityAfterNotify stored settled).isChecking = false) := by
  have hafterNotify : ∀ (stored : StatusStore) (settled : Except String Unit),
      (checkAvailabilityAfterNotify stored settled).isChecking = false := by
    intro stored settled
    cases settled <;> rfl
  have hafterSweep : ∀ (guarded : StatusStore),
      (checkAvailabilityAfterSweep guarded now sweep).2 = none →
      (checkAvailabilityAfterSweep guarded now sweep).1.isChecking = false := by
    intro guarded hnone
    cases sweep with
    | error message => rfl
    | ok results =>
      by_cases h : (availableGpus results).length > 0
      · simp [checkAvailabilityAfterSweep, h] at hnone
      · simp [checkAvailabilityAfterSweep, h]
  cases sweep with
  | error message =>
    have heq : checkAvailabilityWith statusStore (.error message) now dispatch =
        .ok { statusStore := { statusStore with error := some message, isChecking := false },
              sweepStarted := true, notified := none } := by
      simp [checkAvailabilityWith, checkAvailabilityStart, checkAvailabilityAfterSweep, hidle]
    rw [heq]
    refine ⟨_, rfl, rfl, rfl, ?_, ?_, hafterSweep, hafterNotify⟩
    · intro m hm
      injection hm with hm
      rw [hm]
    · intro results m hn
      exact absurd hn (by simp)
  | ok results =>
    rw [checkAvailabilityWith_idle _ _ _ _ hidle]
    by_cases h : (availableGpus results).length > 0
    · rw [if_pos h]
      refine ⟨_, rfl, rfl, hafterNotify _ _, ?_, ?_, hafterSweep, hafterNotify⟩
      · intro m hm
        exact absurd hm (by simp)
      · intro results2 m hn hd
        simp only at hn
        injection hn with hn
        subst hn
        simp only [hd, checkAvailabilityAfterNotify]
    · rw [if_neg h]
      refine ⟨_, rfl, rfl, rfl, ?_, ?_, hafterSweep, hafterNotify⟩
      · intro m hm
        exact absurd hm (by simp)
      · intro results2 m hn
        exact absurd hn (by simp)

/-- C27 at a concrete input: the initial store, a sweep that finds `L40S`
available and a dispatch that rejects. -/
theorem checkAvailability_releases_guard_witness :
    initialStatusStore.isChecking = false
      ∧ ∃ run, checkAvailabilityWith initialStatusStore
          (.ok [("L40S", { available := true, gpuType := "L40S",
                           message := "GPU is available in 1 region(s)", error := none,
                           details := none })])
          1700000100000 (fun _ => .error "gpuTypes is not iterable") = .ok run
        ∧ run.sweepStarted = true
        ∧ run.statusStore.isChecking = false := by
  obtain ⟨run, h1, h2, h3, _⟩ := checkAvailability_releases_guard initialStatusStore
    (.ok [("L40S", { available := true, gpuType := "L40S",
                     message := "GPU is available in 1 region(s)", error := none,
                     details := none })])
    1700000100000 (fun _ => .error "gpuTypes is not iterable") rfl
  exact ⟨rfl, run, h1, h2, h3⟩

/-! ## Frame of the registry operations -/

/-- C28: `addSubscription` on an id that is already registered replaces its
record: the stored push subscription and `gpuTypes` are the arguments (an empty
list is stored as the empty list, not replaced by the default), `lastNotified`
is empty, so no timestamp of the subscriber is left; the record of every other
id, and the ids of the registry and their order, are unchanged. -/
theorem addSubscription_replaces_record (subscriptions : Subscriptions) (userId : String)
    (subscription : PushSubscription) (gpuTypes : List String)
    (hpresent : userId ∈ mapKeys subscriptions) :
    mapGet (addSubscription subscriptions userId subscription (some gpuTypes)).1 userId =
        some { subscription := subscription, gpuTypes := gpuTypes, lastNotified := [] }
      ∧ mapGet (addSubscription subscriptions userId subscription (some [])).1 userId =
        some { subscription := subscription, gpuTypes := [], lastNotified := [] }
      ∧ (∀ gpuType,
          (mapGet (addSubscription subscriptions userId subscription (some gpuTypes)).1
            userId).bind (fun data => mapGet data.lastNotified gpuType) = none)
      ∧ (∀ other, other ≠ userId →
          mapGet (addSubscription subscriptions userId subscription (some gpuTypes)).1 other =
            mapGet subscriptions other)
      ∧ mapKeys (addSubscription subscriptions userId subscription (some gpuTypes)).1 =
          mapKeys subscriptions
      ∧ (addSubscription subscriptions userId subscription (some gpuTypes)).2 =
          some { userId := userId, gpuTypes := gpuTypes, lastNotified := [] } := by
  obtain ⟨old, hold⟩ := mapGet_of_mem_mapKeys subscriptions userId hpresent
  have hstored : ∀ given : List String,
      mapGet (addSubscription subscriptions userId subscription (some given)).1 userId =
        some { subscription := subscription, gpuTypes := given, lastNotified := [] } := by
    intro given
    simp only [addSubscription]
    exact mapGet_mapSet_same _ _ _
  refine ⟨hstored gpuTypes, hstored [], ?_, ?_, ?_, ?_⟩
  · intro gpuType
    rw [hstored gpuTypes]
    rfl
  · intro other hother
    simp only [addSubscription]
    exact mapGet_mapSet_ne _ _ _ _ (fun h => hother h.symm)
  · simp only [addSubscription]
    exact mapKeys_mapSet_of_mapGet _ _ old _ hold
  · have h := hstored gpuTypes
    simp only [addSubscription] at h ⊢
    simp only [getSubscriptionInfo, h]

/-- C28 at a concrete input: `u1`, notified about `L40S` before, subscribes
again with an empty interest list, next to `u2`. -/
theorem addSubscription_replaces_record_witness :
    "u1" ∈ mapKeys ([("u1", { subscription := { endpoint := "https://push.example/u1" },
                              gpuTypes := ["L40S"],
                              lastNotified := [("L40S", 1700000000000)] }),
                     ("u2", { subscription := { endpoint := "https://push.example/u2" },
                              gpuTypes := ["H100-1X"], lastNotified := [] })] : Subscriptions)
      ∧ mapGet (addSubscription
            [("u1", { subscription := { endpoint := "https://push.example/u1" },
                      gpuTypes := ["L40S"], lastNotified := [("L40S", 1700000000000)] }),
             ("u2", { subscription := { endpoint := "https://push.example/u2" },
                      gpuTypes := ["H100-1X"], lastNotified := [] })]
            "u1" { endpoint := "https://push.example/new" } (some [])).1 "u1" =
          some { subscription := { endpoint := "https://push.example/new" }, gpuTypes := [],
                 lastNotified := [] } :=
  ⟨by decide,
    (addSubscription_replaces_record
      [("u1", { subscription := { endpoint := "https://push.example/u1" },
                gpuTypes := ["L40S"], lastNotified := [("L40S", 1700000000000)] }),
       ("u2", { subscription := { endpoint := "https://push.example/u2" },
                gpuTypes := ["H100-1X"], lastNotified := [] })]
      "u1" { endpoint := "https://push.example/new" } [] (by decide)).1⟩

/-- C29: `updateSubscriptionGpuTypes` on a registered id changes only the
`gpuTypes` of that subscriber: its push subscription and `lastNotified` are
unchanged, the record of every other id and the ids of the registry are
unchanged, and the returned info carries the new `gpuTypes` with the unchanged
`lastNotified`. -/
theorem updateSubscriptionGpuTypes_changes_only_gpuTypes (subscriptions : Subscriptions)
    (userId : String) (gpuTypes : List String) (data : SubData)
    (hdata : mapGet subscriptions userId = some data) :
    mapGet (updateSubscriptionGpuTypes subscriptions userId gpuTypes).1 userId =
        some { subscription := data.subscription, gpuTypes := gpuTypes,
               lastNotified := data.lastNotified }
      ∧ (∀ other, other ≠ userId →
          mapGet (updateSubscriptionGpuTypes subscriptions userId gpuTypes).1 other =
            mapGet subscriptions other)
      ∧ mapKeys (updateSubscriptionGpuTypes subscriptions userId gpuTypes).1 =
          mapKeys subscriptions
      ∧ (updateSubscriptionGpuTypes subscriptions userId gpuTypes).2 =
          some { userId := userId, gpuTypes := gpuTypes,
                 lastNotified := data.lastNotified } := by
  have hstored : mapGet (updateSubscriptionGpuTypes subscriptions userId gpuTypes).1 userId =
      some { subscription := data.subscription, gpuTypes := gpuTypes,
             lastNotified := data.lastNotified } := by
    simp only [updateSubscriptionGpuTypes, hdata]
    exact mapGet_mapSet_same _ _ _
  refine ⟨hstored, ?_, ?_, ?_⟩
  · intro other hother
    simp only [updateSubscriptionGpuTypes, hdata]
    exact mapGet_mapSet_ne _ _ _ _ (fun h => hother h.symm)
  · simp only [updateSubscriptionGpuTypes, hdata]
    exact mapKeys_mapSet_of_mapGet _ _ data _ hdata
  · simp only [updateSubscriptionGpuTypes, hdata] at hstored ⊢
    simp only [getSubscriptionInfo, hstored]

/-- C29 at a concrete input: `u1`, notified about `L40S` before, changes its
interest list to `H100-8X`. -/
theorem updateSubscriptionGpuTypes_changes_only_gpuTypes_witness :
    mapGet ([("u1", { subscription := { endpoint := "https://push.example/u1" },
                      gpuTypes := ["L40S"],
                      lastNotified := [("L40S", 1700000000000)] })] : Subscriptions) "u1" =
        some { subscription := { endpoint := "https://push.example/u1" },
               gpuTypes := ["L40S"], lastNotified := [("L40S", 1700000000000)] }
      ∧ (updateSubscriptionGpuTypes
            [("u1", { subscription := { endpoint := "https://push.example/u1" },
                      gpuTypes := ["L40S"], lastNotified := [("L40S", 1700000000000)] })]
            "u1" ["H100-8X"]).2 =
          some { userId := "u1", gpuTypes := ["H100-8X"],
                 lastNotified := [("L40S", 1700000000000)] } :=
  ⟨by decide,
    (updateSubscriptionGpuTypes_changes_only_gpuTypes
      [("u1", { subscription := { endpoint := "https://push.example/u1" },
                gpuTypes := ["L40S"], lastNotified := [("L40S", 1700000000000)] })]
      "u1" ["H100-8X"]
      { subscription := { endpoint := "https://push.example/u1" },
        gpuTypes := ["L40S"], lastNotified := [("L40S", 1700000000000)] }
      (by decide)).2.2.2⟩

/-! ## Malformed entries -/

theorem lowestStep_of_falsy (lowest : JsValue) (current : CapacityEntry)
    (h : lowest.truthy = false) : lowestStep lowest current = .ok current.capacity := by
  simp [lowestStep, h]

theorem truthy_string_of_ne (s : String) (h : s ≠ "") : (JsValue.string s).truthy = true := by
  simp [JsValue.truthy, h]

theorem lowestStep_string_of_not_string (s : String) (current : CapacityEntry) (hs : s ≠ "")
    (hc : ∀ t, current.capacity ≠ .string t) :
    lowestStep (.string s) current = .error typeErrorMessage := by
  unfold lowestStep
  rw [truthy_string_of_ne s hs]
  cases hcap : current.capacity with
  | string t => exact absurd hcap (hc t)
  | undefined => rfl
  | null => rfl
  | number n => rfl

theorem lowestStep_string_of_string (s t : String) (current : CapacityEntry) (hs : s ≠ "")
    (hc : current.capacity = .string t) :
    lowestStep (.string s) current = .ok (.string s)
      ∨ lowestStep (.string s) current = .ok (.string t) := by
  unfold lowestStep
  rw [truthy_string_of_ne s hs, hc]
  simp only [Bool.not_true, Bool.false_eq_true, if_false, JsValue.toLowerCase]
  split
  · exact Or.inr rfl
  · exact Or.inl rfl

theorem reduceLowest_error_after_labels (good : List CapacityEntry)
    (hgood : ∀ c ∈ good, ∃ t, c.capacity = .string t ∧ t ≠ "")
    (lowest : JsValue)
    (hlowest : (lowest.truthy = false ∧ good ≠ []) ∨ ∃ s, s ≠ "" ∧ lowest = .string s)
    (bad : CapacityEntry) (rest : List CapacityEntry)
    (hbad : ∀ t, bad.capacity ≠ .string t) :
    reduceLowest lowest (good ++ bad :: rest) = .error typeErrorMessage := by
  induction good generalizing lowest with
  | nil =>
    rcases hlowest with ⟨_, hne⟩ | ⟨s, hs, hl⟩
    · exact absurd rfl hne
    · subst hl
      simp only [List.nil_append, reduceLowest]
      rw [lowestStep_string_of_not_string s bad hs hbad]
  | cons c g ih =>
    obtain ⟨t, hct, ht⟩ := hgood c (List.mem_cons_self _ _)
    have hg : ∀ x ∈ g, ∃ t, x.capacity = .string t ∧ t ≠ "" :=
      fun x hx => hgood x (List.mem_cons_of_mem _ hx)
    simp only [List.cons_append, reduceLowest]
    rcases hlowest with ⟨hfalsy, _⟩ | ⟨s, hs, hl⟩
    · rw [lowestStep_of_falsy lowest c hfalsy, hct]
      exact ih hg (.string t) (Or.inr ⟨t, ht, rfl⟩)
    · subst hl
      rcases lowestStep_string_of_string s t c hs hct with h | h
      · rw [h]
        exact ih hg (.string s) (Or.inr ⟨s, hs, rfl⟩)
      · rw [h]
        exact ih hg (.string t) (Or.inr ⟨t, ht, rfl⟩)

theorem reduceLowest_all_absent (cs : List CapacityEntry)
    (hcs : ∀ c ∈ cs, c.capacity = .undefined ∨ c.capacity = .null)
    (lowest : JsValue) (hlowest : lowest.truthy = false) :
    ∃ last, reduceLowest lowest cs = .ok last ∧ last.truthy = false := by
  induction cs generalizing lowest with
  | nil => exact ⟨lowest, rfl, hlowest⟩
  | cons c rest ih =>
    simp only [reduceLowest]
    rw [lowestStep_of_falsy lowest c hlowest]
    apply ih (fun x hx => hcs x (List.mem_cons_of_mem _ hx))
    rcases hcs c (List.mem_cons_self _ _) with h | h <;> rw [h] <;> rfl

/-- C30 (as stated, refuted): with allow-list `nyc1` and a response whose only
entry, for `nyc1`, has no `capacity`, nothing throws: the result is
`no_capacity` with best capacity `NONE`, not `request_failed`. -/
theorem checkGpuAvailability_single_malformed_entry_no_capacity :
    checkGpuAvailability ["nyc1"] "L40S"
        (.resolved (.body (.array [⟨.string "nyc1", .undefined⟩]))) =
      .ok { available := false, gpuType := "L40S",
            message := "GPU is not available (Best capacity: NONE)",
            error := some "no_capacity",
            details := some { size := "gpu-l40sx1-48gb", image := none,
                              regions := some [⟨.string "nyc1", .undefined⟩] } } := by
  rfl

/-- C30 (amended): for a known GPU type and a response whose `capacities` is an
array with no `MEDIUM` or `HIGH` entry after filtering: when an entry without
a string capacity comes after at least one entry, all entries before it
carrying non-empty string capacities, the computation of the lowest capacity
throws and the result is `request_failed`; when every filtered entry has an
absent capacity (in particular a single malformed entry), nothing throws and
the result is `no_capacity` with best capacity `NONE`. When some filtered entry
is `MEDIUM` or `HIGH`, malformed entries are ignored and the result is
`available = true`. -/
theorem checkGpuAvailability_malformed_entries (REGIONS_TO_CHECK : List String)
    (gpuType : String) (entries : List CapacityEntry)
    (hknown : gpuType ∈ mapKeys GPU_TYPES) :
    (∀ good bad rest,
        selectCapacities REGIONS_TO_CHECK entries = good ++ bad :: rest →
        good ≠ [] →
        (∀ c ∈ good, ∃ t, c.capacity = .string t ∧ t ≠ "") →
        (∀ t, bad.capacity ≠ .string t) →
        (∀ c ∈ selectCapacities REGIONS_TO_CHECK entries,
          c.capacity ≠ .string "MEDIUM" ∧ c.capacity ≠ .string "HIGH") →
        ∃ r, checkGpuAvailability REGIONS_TO_CHECK gpuType
            (.resolved (.body (.array entries))) = .ok r
          ∧ r.available = false ∧ r.error = some "request_failed")
      ∧ (selectCapacities REGIONS_TO_CHECK entries ≠ [] →
          (∀ c ∈ selectCapacities REGIONS_TO_CHECK entries,
            c.capacity = .undefined ∨ c.capacity = .null) →
          ∃ r, checkGpuAvailability REGIONS_TO_CHECK gpuType
              (.resolved (.body (.array entries))) = .ok r
            ∧ r.available = false ∧ r.error = some "no_capacity"
            ∧ r.message = "GPU is not available (Best capacity: NONE)")
      ∧ ((∃ c ∈ selectCapacities REGIONS_TO_CHECK entries,
            c.capacity = .string "MEDIUM" ∨ c.capacity = .string "HIGH") →
          ∃ r, checkGpuAvailability REGIONS_TO_CHECK gpuType
              (.resolved (.body (.array entries))) = .ok r
            ∧ r.available = true ∧ r.error = none) := by
  obtain ⟨gpuConfig, hcfg⟩ := mapGet_of_mem_mapKeys GPU_TYPES gpuType hknown
  have hnoav : (∀ c ∈ selectCapacities REGIONS_TO_CHECK entries,
      c.capacity ≠ .string "MEDIUM" ∧ c.capacity ≠ .string "HIGH") →
      ¬ ((selectCapacities REGIONS_TO_CHECK entries).filter hasCapacity).length > 0 := by
    intro hbelow hpos
    obtain ⟨c, hc⟩ := List.exists_mem_of_length_pos hpos
    rw [List.mem_filter] at hc
    rcases (hasCapacity_iff c).1 hc.2 with h | h
    · exact (hbelow c hc.1).1 h
    · exact (hbelow c hc.1).2 h
  refine ⟨?_, ?_, ?_⟩
  · intro good bad rest hsplit hgoodne hgood hbad hbelow
    have hlen : ¬ (selectCapacities REGIONS_TO_CHECK entries).length = 0 := by
      rw [hsplit]
      simp
    have hred := reduceLowest_error_after_labels good hgood .null
      (Or.inl ⟨rfl, hgoodne⟩) bad rest hbad
    rw [checkGpuAvailability_array _ _ _ _ hcfg, if_neg hlen, if_neg (hnoav hbelow), hsplit,
      hred]
    exact ⟨_, rfl, rfl, rfl⟩
  · intro hne habsent
    have hlen : ¬ (selectCapacities REGIONS_TO_CHECK entries).length = 0 := by
      rw [length_eq_zero_iff_nil]; exact hne
    have hbelow : ∀ c ∈ selectCapacities REGIONS_TO_CHECK entries,
        c.capacity ≠ .string "MEDIUM" ∧ c.capacity ≠ .string "HIGH" := by
      intro c hc
      rcases habsent c hc with h | h <;> rw [h] <;> exact ⟨by decide, by decide⟩
    obtain ⟨last, hlast, hfalsy⟩ := reduceLowest_all_absent _ habsent .null rfl
    rw [checkGpuAvailability_array _ _ _ _ hcfg, if_neg hlen, if_neg (hnoav hbelow), hlast]
    refine ⟨_, rfl, rfl, rfl, ?_⟩
    simp [bestCapacityText, hfalsy]
  · rintro ⟨c, hc, hcap⟩
    have hlen : ¬ (selectCapacities REGIONS_TO_CHECK entries).length = 0 := by
      rw [length_eq_zero_iff_nil]
      exact List.ne_nil_of_mem hc
    have hpos : ((selectCapacities REGIONS_TO_CHECK entries).filter hasCapacity).length > 0 :=
      List.length_pos_of_mem (List.mem_filter.2 ⟨hc, (hasCapacity_iff c).2 hcap⟩)
    rw [checkGpuAvailability_array _ _ _ _ hcfg, if_neg hlen, if_pos hpos]
    exact ⟨_, rfl, rfl, rfl⟩

/-- C30 (amended) at a concrete input: allow-list `nyc1, fra1` and a response
with `nyc1: LOW` followed by an entry for `fra1` without capacity. -/
theorem checkGpuAvailability_malformed_entries_witness :
    "L40S" ∈ mapKeys GPU_TYPES
      ∧ ∃ r, checkGpuAvailability ["nyc1", "fra1"] "L40S"
          (.resolved (.body (.array
            [⟨.string "nyc1", .string "LOW"⟩, ⟨.string "fra1", .undefined⟩]))) = .ok r
        ∧ r.available = false ∧ r.error = some "request_failed" :=
  ⟨by decide,
    (checkGpuAvailability_malformed_entries ["nyc1", "fra1"] "L40S"
      [⟨.string "nyc1", .string "LOW"⟩, ⟨.string "fra1", .undefined⟩] (by decide)).1
      [⟨.string "nyc1", .string "LOW"⟩] ⟨.string "fra1", .undefined⟩ []
      (by decide) (by decide)
      (by
        intro c hc
        simp only [List.mem_singleton] at hc
        subst hc
        exact ⟨"LOW", rfl, by decide⟩)
      (by intro t h; exact absurd h (by simp))
      (by decide)⟩

/-! ## The allow-list setting -/

theorem splitComma_ne_nil (cs : List Char) : splitComma cs ≠ [] := by
  cases cs with
  | nil => simp [splitComma]
  | cons c rest =>
    unfold splitComma
    split
    · simp
    · split <;> simp

/-- C24 (the code at the failing input): with `REGIONS_TO_CHECK` unset, or set
to the empty string, the configured allow-list is `nyc1, sfo3, fra1`, not the
empty array (no value of the variable gives the empty array), and a response
whose only region is `ams3`, reporting `HIGH`, is filtered out: the result is
`no_regions`. -/
theorem REGIONS_TO_CHECK_empty_setting_is_default :
    REGIONS_TO_CHECK none = ["nyc1", "sfo3", "fra1"]
      ∧ REGIONS_TO_CHECK (some "") = ["nyc1", "sfo3", "fra1"]
      ∧ (∀ env, REGIONS_TO_CHECK env ≠ [])
      ∧ checkGpuAvailability (REGIONS_TO_CHECK (some "")) "L40S"
          (.resolved (.body (.array [⟨.string "ams3", .string "HIGH"⟩]))) =
        .ok { available := false, gpuType := "L40S",
              message := "No capacity information available for specified regions",
              error := some "no_regions",
              details := some { size := "gpu-l40sx1-48gb", image := none, regions := none } } := by
  refine ⟨by decide, by decide, ?_, ?_⟩
  · intro env h
    unfold REGIONS_TO_CHECK at h
    simp only [List.map_eq_nil_iff] at h
    exact splitComma_ne_nil _ h
  · have h : REGIONS_TO_CHECK (some "") = ["nyc1", "sfo3", "fra1"] := by decide
    rw [h]
    rfl

/-! ## The HTTP boundary of the registry -/

theorem invalidTypes_eq_filter (gpuTypes : List String) :
    invalidTypes gpuTypes =
      gpuTypes.filter (fun gpuType => decide (gpuType ∉ mapKeys GPU_TYPES)) := by
  unfold invalidTypes
  apply List.filter_congr
  intro t _
  by_cases h : t ∈ mapKeys GPU_TYPES
  · simp [h]
  · simp [h]

theorem invalidTypes_length_pos_iff (gpuTypes : List String) :
    (invalidTypes gpuTypes).length > 0 ↔ ∃ t ∈ gpuTypes, t ∉ mapKeys GPU_TYPES := by
  rw [invalidTypes_eq_filter]
  constructor
  · intro h
    obtain ⟨t, ht⟩ := List.exists_mem_of_length_pos h
    rw [List.mem_filter] at ht
    exact ⟨t, ht.1, of_decide_eq_true ht.2⟩
  · rintro ⟨t, hmem, hnot⟩
    exact List.length_pos_of_mem (List.mem_filter.2 ⟨hmem, decide_eq_true hnot⟩)

theorem allKnown_mapSet (subscriptions : Subscriptions) (userId : String) (data : SubData)
    (hall : ∀ u d, mapGet subscriptions u = some d → ∀ g ∈ d.gpuTypes, g ∈ mapKeys GPU_TYPES)
    (hdata : ∀ g ∈ data.gpuTypes, g ∈ mapKeys GPU_TYPES) :
    ∀ u d, mapGet (mapSet subscriptions userId data) u = some d →
      ∀ g ∈ d.gpuTypes, g ∈ mapKeys GPU_TYPES := by
  intro u d hd
  by_cases hu : userId = u
  · rw [hu, mapGet_mapSet_same] at hd
    injection hd with hd
    rw [← hd]
    exact hdata
  · rw [mapGet_mapSet_ne _ _ _ _ hu] at hd
    exact hall u d hd

theorem postSubscribe_allKnown (subscriptions : Subscriptions) (body : SubscribeBody)
    (hall : ∀ u d, mapGet subscriptions u = some d → ∀ g ∈ d.gpuTypes, g ∈ mapKeys GPU_TYPES) :
    ∀ u d, mapGet (postSubscribe subscriptions body).2 u = some d →
      ∀ g ∈ d.gpuTypes, g ∈ mapKeys GPU_TYPES := by
  unfold postSubscribe
  by_cases hid : body.userId = ""
  · rw [if_pos hid]
    exact hall
  · rw [if_neg hid]
    cases body.subscription with
    | none => exact hall
    | some subscription =>
      cases body.gpuTypes with
      | notArray => exact hall
      | absent =>
        simp only [addSubscription]
        exact allKnown_mapSet _ _ _ hall (fun g hg => hg)
      | array gpuTypes =>
        by_cases hinv : (invalidTypes gpuTypes).length > 0
        · simp only [hinv, if_true]
          exact hall
        · simp only [hinv, if_false, addSubscription]
          apply allKnown_mapSet _ _ _ hall
          intro g hg
          by_contra hnot
          exact hinv ((invalidTypes_length_pos_iff gpuTypes).2 ⟨g, hg, hnot⟩)

theorem putGpuTypes_allKnown (subscriptions : Subscriptions) (userId : String)
    (field : GpuTypesField)
    (hall : ∀ u d, mapGet subscriptions u = some d → ∀ g ∈ d.gpuTypes, g ∈ mapKeys GPU_TYPES) :
    ∀ u d, mapGet (putGpuTypes subscriptions userId field).2 u = some d →
      ∀ g ∈ d.gpuTypes, g ∈ mapKeys GPU_TYPES := by
  unfold putGpuTypes
  cases field with
  | absent => exact hall
  | notArray => exact hall
  | array given =>
    by_cases hinv : (invalidTypes given).length > 0
    · simp only [hinv, if_true]
      exact hall
    · simp only [hinv, if_false]
      cases hget : mapGet subscriptions userId with
      | none =>
        simp only [updateSubscriptionGpuTypes, hget]
        exact hall
      | some sub =>
        have hinfo : getSubscriptionInfo
            (mapSet subscriptions userId { sub with gpuTypes := given }) userId =
            some { userId := userId, gpuTypes := given, lastNotified := sub.lastNotified } := by
          simp only [getSubscriptionInfo, mapGet_mapSet_same]
        simp only [updateSubscriptionGpuTypes, hget, hinfo]
        apply allKnown_mapSet _ _ _ hall
        intro g hg
        by_contra hnot
        exact hinv ((invalidTypes_length_pos_iff given).2 ⟨g, hg, hnot⟩)

/-- C23 (as stated, refuted): a `POST /subscribe` without `userId` that names
the unknown GPU type `A100` is rejected with status 400 for the missing field;
the response does not list the unknown type. -/
theorem postSubscribe_missing_field_lists_no_types :
    invalidTypes ["A100"] = ["A100"]
      ∧ postSubscribe []
          { userId := "", subscription := some { endpoint := "https://push.example/u1" },
            gpuTypes := .array ["A100"] } =
        (.badRequest "Missing required fields" none none, []) := by
  decide

theorem postSubscribe_created_known (subscriptions : Subscriptions) (body : SubscribeBody)
    (result : Option SubscriptionInfo)
    (hcreated : (postSubscribe subscriptions body).1 = .created result) :
    ∀ d, mapGet (postSubscribe subscriptions body).2 body.userId = some d →
      ∀ g ∈ d.gpuTypes, g ∈ mapKeys GPU_TYPES := by
  unfold postSubscribe at hcreated ⊢
  by_cases hid : body.userId = ""
  · rw [if_pos hid] at hcreated
    exact absurd hcreated (by simp)
  · rw [if_neg hid] at hcreated ⊢
    cases hsub : body.subscription with
    | none =>
      rw [hsub] at hcreated
      exact absurd hcreated (by simp)
    | some subscription =>
      rw [hsub] at hcreated
      cases hfield : body.gpuTypes with
      | notArray =>
        rw [hfield] at hcreated
        exact absurd hcreated (by simp)
      | absent =>
        intro d hd
        simp only [addSubscription] at hd
        rw [mapGet_mapSet_same] at hd
        injection hd with hd
        rw [← hd]
        exact fun g hg => hg
      | array gpuTypes =>
        rw [hfield] at hcreated
        by_cases hinv : (invalidTypes gpuTypes).length > 0
        · simp only [hinv, if_true] at hcreated
          exact absurd hcreated (by simp)
        · intro d hd
          simp only [hinv, if_false, addSubscription] at hd
          rw [mapGet_mapSet_same] at hd
          injection hd with hd
          rw [← hd]
          intro g hg
          by_contra hnot
          exact hinv ((invalidTypes_length_pos_iff gpuTypes).2 ⟨g, hg, hnot⟩)

theorem putGpuTypes_ok_known (subscriptions : Subscriptions) (userId : String)
    (field : GpuTypesField) (result : SubscriptionInfo)
    (hok : (putGpuTypes subscriptions userId field).1 = .ok result) :
    ∀ d, mapGet (putGpuTypes subscriptions userId field).2 userId = some d →
      ∀ g ∈ d.gpuTypes, g ∈ mapKeys GPU_TYPES := by
  unfold putGpuTypes at hok ⊢
  cases field with
  | absent => exact absurd hok (by simp)
  | notArray => exact absurd hok (by simp)
  | array given =>
    by_cases hinv : (invalidTypes given).length > 0
    · simp only [hinv, if_true] at hok
      exact absurd hok (by simp)
    · simp only [hinv, if_false] at hok ⊢
      cases hget : mapGet subscriptions userId with
      | none =>
        simp only [updateSubscriptionGpuTypes, hget] at hok
        exact absurd hok (by simp)
      | some sub =>
        have hinfo : getSubscriptionInfo
            (mapSet subscriptions userId { sub with gpuTypes := given }) userId =
            some { userId := userId, gpuTypes := given, lastNotified := sub.lastNotified } := by
          simp only [getSubscriptionInfo, mapGet_mapSet_same]
        simp only [updateSubscriptionGpuTypes, hget, hinfo]
        intro d hd
        rw [mapGet_mapSet_same] at hd
        injection hd with hd
        rw [← hd]
        intro g hg
        by_contra hnot
        exact hinv ((invalidTypes_length_pos_iff given).2 ⟨g, hg, hnot⟩)

/-- C23 (amended): the record a `POST /subscribe` stores, and the record a
`PUT /:userId/gpu-types` updates, has a `gpuTypes` list holding only keys of
`GPU_TYPES`, and both handlers keep a registry free of unknown GPU types free
of them. A `POST /subscribe` that carries `userId` and `subscription`, and a
`PUT`, whose `gpuTypes` is an array naming an unknown GPU type, is rejected
with status 400 listing exactly the unknown types, in the order given, and
leaves the registry unchanged. -/
theorem http_boundary_keeps_gpuTypes_known (subscriptions : Subscriptions)
    (body : SubscribeBody) (userId : String) (field : GpuTypesField) :
    (∀ result, (postSubscribe subscriptions body).1 = .created result →
        ∀ d, mapGet (postSubscribe subscriptions body).2 body.userId = some d →
          ∀ g ∈ d.gpuTypes, g ∈ mapKeys GPU_TYPES)
      ∧ (∀ result, (putGpuTypes subscriptions userId field).1 = .ok result →
          ∀ d, mapGet (putGpuTypes subscriptions userId field).2 userId = some d →
            ∀ g ∈ d.gpuTypes, g ∈ mapKeys GPU_TYPES)
      ∧ ((∀ u d, mapGet subscriptions u = some d →
            ∀ g ∈ d.gpuTypes, g ∈ mapKeys GPU_TYPES) →
          (∀ u d, mapGet (postSubscribe subscriptions body).2 u = some d →
            ∀ g ∈ d.gpuTypes, g ∈ mapKeys GPU_TYPES)
          ∧ (∀ u d, mapGet (putGpuTypes subscriptions userId field).2 u = some d →
            ∀ g ∈ d.gpuTypes, g ∈ mapKeys GPU_TYPES))
      ∧ (∀ subscription gpuTypes,
          body.userId ≠ "" → body.subscription = some subscription →
          body.gpuTypes = .array gpuTypes →
          (∃ t ∈ gpuTypes, t ∉ mapKeys GPU_TYPES) →
          postSubscribe subscriptions body =
            (.badRequest "Invalid GPU types"
              (some (gpuTypes.filter (fun t => decide (t ∉ mapKeys GPU_TYPES))))
              (some (mapKeys GPU_TYPES)), subscriptions))
      ∧ (∀ gpuTypes, field = .array gpuTypes →
          (∃ t ∈ gpuTypes, t ∉ mapKeys GPU_TYPES) →
          putGpuTypes subscriptions userId field =
            (.badRequest "Invalid GPU types"
              (some (gpuTypes.filter (fun t => decide (t ∉ mapKeys GPU_TYPES))))
              (some (mapKeys GPU_TYPES)), subscriptions)) := by
  refine ⟨fun result h => postSubscribe_created_known subscriptions body result h,
    fun result h => putGpuTypes_ok_known subscriptions userId field result h,
    fun hall => ⟨postSubscribe_allKnown subscriptions body hall,
      putGpuTypes_allKnown subscriptions userId field hall⟩, ?_, ?_⟩
  · intro subscription gpuTypes hid hsub hfield hunknown
    have hinv := (invalidTypes_length_pos_iff gpuTypes).2 hunknown
    unfold postSubscribe
    rw [if_neg hid, hsub, hfield]
    simp only [hinv, if_true]
    rw [invalidTypes_eq_filter]
  · intro gpuTypes hfield hunknown
    have hinv := (invalidTypes_length_pos_iff gpuTypes).2 hunknown
    subst hfield
    unfold putGpuTypes
    simp only [hinv, if_true]
    rw [invalidTypes_eq_filter]

/-- C23 (amended) at a concrete input: a registry holding `u1` and a `PUT` for
`u1` naming `L40S` and the unknown `A100`. -/
theorem http_boundary_keeps_gpuTypes_known_witness :
    (∃ t ∈ ["L40S", "A100"], t ∉ mapKeys GPU_TYPES)
      ∧ putGpuTypes
          [("u1", { subscription := { endpoint := "https://push.example/u1" },
                    gpuTypes := ["L40S"], lastNotified := [] })]
          "u1" (.array ["L40S", "A100"]) =
        (.badRequest "Invalid GPU types"
          (some (["L40S", "A100"].filter (fun t => decide (t ∉ mapKeys GPU_TYPES))))
          (some (mapKeys GPU_TYPES)),
         [("u1", { subscription := { endpoint := "https://push.example/u1" },
                   gpuTypes := ["L40S"], lastNotified := [] })]) :=
  ⟨⟨"A100", by decide, by decide⟩,
    (http_boundary_keeps_gpuTypes_known
      [("u1", { subscription := { endpoint := "https://push.example/u1" },
                gpuTypes := ["L40S"], lastNotified := [] })]
      { userId := "u1", subscription := none, gpuTypes := .absent } "u1"
      (.array ["L40S", "A100"])).2.2.2.2 ["L40S", "A100"] rfl
      ⟨"A100", by decide, by decide⟩⟩

/-! ## Single flight -/

theorem singleton_eraseIdx_set {α : Type} (l : List α) (index : Nat) (x y : α)
    (hlen : l.length = 1) (hx : l[index]? = some x) :
    l.eraseIdx index = [] ∧ (l.set index y).length = 1 := by
  cases l with
  | nil => simp at hlen
  | cons a rest =>
    cases rest with
    | cons b more => simp at hlen
    | nil =>
      cases index with
      | zero => simp
      | succ n => simp at hx

theorem checkAvailabilityAfterSweep_isChecking (statusStore : StatusStore) (now : Int)
    (sweep : Except String (List (String × CheckResult))) :
    ((checkAvailabilityAfterSweep statusStore now sweep).2 = none →
        (checkAvailabilityAfterSweep statusStore now sweep).1.isChecking = false)
      ∧ (∀ results, (checkAvailabilityAfterSweep statusStore now sweep).2 = some results →
          (checkAvailabilityAfterSweep statusStore now sweep).1.isChecking =
            statusStore.isChecking) := by
  cases sweep with
  | error message =>
    refine ⟨fun _ => rfl, ?_⟩
    intro results h
    simp [checkAvailabilityAfterSweep] at h
  | ok found =>
    by_cases h : (availableGpus found).length > 0
    · simp [checkAvailabilityAfterSweep, h]
    · simp [checkAvailabilityAfterSweep, h]

theorem checkAvailabilityAfterNotify_isChecking (statusStore : StatusStore)
    (dispatch : Except String Unit) :
    (checkAvailabilityAfterNotify statusStore dispatch).isChecking = false := by
  cases dispatch <;> rfl

theorem schedulerStep_single_flight (scheduler : Scheduler) (event : SchedulerEvent)
    (h : (scheduler.statusStore.isChecking = true ∧ scheduler.running.length = 1)
      ∨ (scheduler.statusStore.isChecking = false ∧ scheduler.running = [])) :
    ((schedulerStep scheduler event).statusStore.isChecking = true
        ∧ (schedulerStep scheduler event).running.length = 1)
      ∨ ((schedulerStep scheduler event).statusStore.isChecking = false
        ∧ (schedulerStep scheduler event).running = []) := by
  cases event with
  | invoke trigger =>
    rcases h with ⟨hbusy, hlen⟩ | ⟨hidle, hnone⟩
    · left
      simp [schedulerStep, checkAvailabilityStart, hbusy, hlen]
    · left
      simp [schedulerStep, checkAvailabilityStart, hidle, hnone]
  | sweepSettled index now sweep =>
    cases hget : scheduler.running[index]? with
    | none =>
      simp only [schedulerStep, hget]
      exact h
    | some suspended =>
      cases suspended with
      | atNotify results =>
        simp only [schedulerStep, hget]
        exact h
      | atSweep =>
        rcases h with ⟨hbusy, hlen⟩ | ⟨_, hnone⟩
        · obtain ⟨hnoneCase, hsomeCase⟩ :=
            checkAvailabilityAfterSweep_isChecking scheduler.statusStore now sweep
          simp only [schedulerStep, hget]
          cases hafter : checkAvailabilityAfterSweep scheduler.statusStore now sweep with
          | mk store pending =>
            cases pending with
            | none =>
              right
              rw [hafter] at hnoneCase
              exact ⟨hnoneCase rfl,
                (singleton_eraseIdx_set _ index _ Suspended.atSweep hlen hget).1⟩
            | some results =>
              left
              rw [hafter] at hsomeCase
              exact ⟨(hsomeCase results rfl).trans hbusy,
                (singleton_eraseIdx_set _ index _ (Suspended.atNotify results) hlen hget).2⟩
        · rw [hnone] at hget
          simp at hget
  | notifySettled index dispatch =>
    cases hget : scheduler.running[index]? with
    | none =>
      simp only [schedulerStep, hget]
      exact h
    | some suspended =>
      cases suspended with
      | atSweep =>
        simp only [schedulerStep, hget]
        exact h
      | atNotify results =>
        rcases h with ⟨hbusy, hlen⟩ | ⟨_, hnone⟩
        · right
          simp only [schedulerStep, hget]
          exact ⟨checkAvailabilityAfterNotify_isChecking _ _,
            (singleton_eraseIdx_set _ index _ Suspended.atSweep hlen hget).1⟩
        · rw [hnone] at hget
          simp at hget

theorem schedulerRun_single_flight (events : List SchedulerEvent) (scheduler : Scheduler)
    (h : (scheduler.statusStore.isChecking = true ∧ scheduler.running.length = 1)
      ∨ (scheduler.statusStore.isChecking = false ∧ scheduler.running = [])) :
    ((schedulerRun scheduler events).statusStore.isChecking = true
        ∧ (schedulerRun scheduler events).running.length = 1)
      ∨ ((schedulerRun scheduler events).statusStore.isChecking = false
        ∧ (schedulerRun scheduler events).running = []) := by
  induction events generalizing scheduler with
  | nil => exact h
  | cons event rest ih => exact ih _ (schedulerStep_single_flight scheduler event h)

/-- C26: in every state reached from the initial one by calls of
`checkAvailability` (from `startChecking`, the timer or `POST /check-now`) and
by the settling of awaited calls, in any interleaving, at most one call is
between taking the guard and releasing it, and `isChecking` is true exactly
when there is one; a new call starts a sweep only when no call is in flight,
and changes nothing otherwise. -/
theorem at_most_one_sweep_in_flight (events : List SchedulerEvent) (trigger : Trigger) :
    (schedulerRun initialScheduler events).running.length ≤ 1
      ∧ ((schedulerRun initialScheduler events).statusStore.isChecking = true ↔
          (schedulerRun initialScheduler events).running.length = 1)
      ∧ ((schedulerStep (schedulerRun initialScheduler events) (.invoke trigger)).running ≠
            (schedulerRun initialScheduler events).running →
          (schedulerRun initialScheduler events).running = []
            ∧ (schedulerStep (schedulerRun initialScheduler events) (.invoke trigger)).running =
              [.atSweep])
      ∧ ((schedulerRun initialScheduler events).running ≠ [] →
          schedulerStep (schedulerRun initialScheduler events) (.invoke trigger) =
            schedulerRun initialScheduler events) := by
  have hinv := schedulerRun_single_flight events initialScheduler (Or.inr ⟨rfl, rfl⟩)
  generalize schedulerRun initialScheduler events = reached at hinv
  obtain ⟨statusStore, running⟩ := reached
  simp only at hinv
  rcases hinv with ⟨hbusy, hlen⟩ | ⟨hidle, hnone⟩
  · refine ⟨by simp [hlen], ⟨fun _ => hlen, fun _ => hbusy⟩, ?_, ?_⟩
    · intro hne
      exfalso
      apply hne
      simp [schedulerStep, checkAvailabilityStart, hbusy]
    · intro _
      simp [schedulerStep, checkAvailabilityStart, hbusy]
  · subst hnone
    refine ⟨by simp, ⟨fun h => ?_, fun h => ?_⟩, ?_, ?_⟩
    · simp only at h
      rw [hidle] at h
      exact absurd h (by simp)
    · simp at h
    · intro _
      simp [schedulerStep, checkAvailabilityStart, hidle]
    · intro h
      exact absurd rfl h

end GpuNotifier
